import Mathlib

/-!
# JetTester_HeavyIons, CSCGeometryAsChambers and CTPPSDiamondRecHitProducerAlgorithm

Shallow embeddings of three sources, each in its own namespace, the definitions first
and the theorems after them.

## JetTester_HeavyIons

`JetTester_HeavyIons::analyze` (Validation/RecoJets/plugins/JetTester_HeavyIons.cc):
the generator-jet part with the matching loop and the response histograms, the
reconstructed-jet histograms, the vertex position, and the loop over the particle-flow
candidates as far as it fills the `mPFCandpT_*` members and the sums `SumPFPt`; together
with the constructor and `bookHistograms` as far as they touch these members.

Conventions of the embedding:
* a C++ `double` is a rational number (`ℚ`); comparisons and the quotient
  `JetPtBest / genpt` are the exact ones, and `log10(genpt)` is kept symbolic;
  infinities and NaN are not represented, so for `genpt = 0` the quotient of the
  embedding (0) is not the C++ value;
* `unsigned` indices are natural numbers, and `iMatch = ijet` stores the index unchanged
  (lists shorter than 2^31);
* a `MonitorElement*` member is `Option (List FillArgs)`: `none` is the null
  pointer the constructor stores, `some es` a booked histogram holding the
  arguments `es` of the `Fill` calls it has received, oldest first;
* `->Fill` through a null pointer ends the run with `AnalyzeError.nullPointer`;
* `deltaR` (DataFormats/Math/interface/deltaR.h) and the constants `BarrelEta`,
  `EndcapEta`, `ForwardEta`, `nedge_pseudorapidity` (JetTester_HeavyIons.h) are not
  among the sources and enter as parameters; `deltaRReal` is the DeltaR of the
  specification over the real numbers.

## CSCGeometryAsChambers and CTPPSDiamondRecHitProducerAlgorithm

The azimuth displayed by `CSCGeometryAsChambers::analyze` and the rec-hits built by
`CTPPSDiamondRecHitProducerAlgorithm::build`; their conventions stand at the head of
their definitions.
-/

namespace JetTesterHeavyIons

/-! ## Jets and the matching loop (analyze, lines 1422-1439) -/

/-- Kinematics of a jet as read by `analyze`: `pt()`, `eta()`, `phi()`. -/
structure Jet where
  pt : ℚ
  eta : ℚ
  phi : ℚ
deriving DecidableEq, Repr

/-- The locals `iMatch`, `deltaRBest`, `JetPtBest` of the matching loop. -/
structure MatchState where
  iMatch : Int
  deltaRBest : ℚ
  JetPtBest : ℚ
deriving DecidableEq, Repr

/-- Values before the loop: `int iMatch = -1; double deltaRBest = 999; double JetPtBest = 0;`. -/
def matchInit : MatchState :=
  { iMatch := -1, deltaRBest := 999, JetPtBest := 0 }

/-- One iteration of the loop body, for index `ijet` and jet `recoJets[ijet]`. -/
def matchStep (deltaR : ℚ → ℚ → ℚ → ℚ → ℚ) (gjet : Jet) (st : MatchState)
    (ijet : Nat) (rj : Jet) : MatchState :=
  let recoPt := rj.pt
  if recoPt > 10 then
    let delR := deltaR gjet.eta gjet.phi rj.eta rj.phi
    if delR < st.deltaRBest then
      { iMatch := (ijet : Int), deltaRBest := delR, JetPtBest := recoPt }
    else st
  else st

/-- Iterations `ijet = i, i+1, ...` over the remaining jets, from state `st`. -/
def matchLoopFrom (deltaR : ℚ → ℚ → ℚ → ℚ → ℚ) (gjet : Jet) :
    Nat → List Jet → MatchState → MatchState
  | _, [], st => st
  | i, rj :: rest, st => matchLoopFrom deltaR gjet (i + 1) rest (matchStep deltaR gjet st i rj)

/-- The whole loop `for (unsigned ijet=0; ijet<recoJets.size(); ++ijet)`. -/
def matchLoop (deltaR : ℚ → ℚ → ℚ → ℚ → ℚ) (gjet : Jet) (recoJets : List Jet) : MatchState :=
  matchLoopFrom deltaR gjet 0 recoJets matchInit

/-- Modelled from the spec: `deltaR` of DataFormats/Math/interface/deltaR.h is missing
from the sources; the spec gives ΔR = sqrt(Δη² + Δφ²). This is its value for two
directions of the same azimuth (Δφ = 0), where the square root is |Δη|; it is only
used to evaluate the loop on such inputs. -/
def deltaRSamePhi (eta1 _phi1 eta2 _phi2 : ℚ) : ℚ :=
  |eta1 - eta2|

/-- ΔR of the generator jet to `rj`, as computed inside the loop. -/
def delRTo (deltaR : ℚ → ℚ → ℚ → ℚ → ℚ) (gjet rj : Jet) : ℚ :=
  deltaR gjet.eta gjet.phi rj.eta rj.phi

/-! ## Configuration and classification flags -/

/-- Configuration scalars read by the generator-jet loop. -/
structure Config where
  mMatchGenPtThreshold : ℚ
  mRThreshold : ℚ
  BarrelEta : ℚ
  EndcapEta : ℚ
  ForwardEta : ℚ
deriving DecidableEq, Repr

/-- An example configuration, used to evaluate the code: generator jets from pt 10,
matching radius 0.3, and region boundaries 2.0, 3.0, 5.0. -/
def exampleConfig : Config :=
  { mMatchGenPtThreshold := 10, mRThreshold := 3 / 10, BarrelEta := 2, EndcapEta := 3,
    ForwardEta := 5 }

/-- Flag `inBarrel` (line 1419): `fabs(gjet->eta())<BarrelEta`. -/
def inBarrel (cfg : Config) (eta : ℚ) : Bool :=
  decide (|eta| < cfg.BarrelEta)

/-- Flag `inEndcap` (line 1420). -/
def inEndcap (cfg : Config) (eta : ℚ) : Bool :=
  decide (|eta| ≥ cfg.BarrelEta ∧ |eta| < cfg.EndcapEta)

/-- Flag `inForward` (line 1421). -/
def inForward (cfg : Config) (eta : ℚ) : Bool :=
  decide (|eta| ≥ cfg.EndcapEta ∧ |eta| < cfg.ForwardEta)

/-- Flag `isCentral` (line 912): `hibin < 20`. -/
def isCentral (hibin : Int) : Bool := decide (hibin < 20)

/-- Flag `ismidCentral` (line 913). -/
def ismidCentral (hibin : Int) : Bool := decide (hibin ≥ 20 ∧ hibin < 60)

/-- Flag `ismidPeripheral` (line 914). -/
def ismidPeripheral (hibin : Int) : Bool := decide (hibin ≥ 60 ∧ hibin < 100)

/-- Flag `isPeripheral` (line 915). -/
def isPeripheral (hibin : Int) : Bool := decide (hibin ≥ 100 ∧ hibin < 160)

/-- Condition of the block "pt bin 20-30" (line 1479). -/
def ptIn_20_30 (pt : ℚ) : Bool := decide (pt ≥ 20 ∧ pt < 30)

/-- Condition of the block "pt bin 30-50" (line 1518). -/
def ptIn_30_50 (pt : ℚ) : Bool := decide (pt ≥ 30 ∧ pt < 50)

/-- Condition of the block "pt bin 50-80" (line 1557). -/
def ptIn_50_80 (pt : ℚ) : Bool := decide (pt ≥ 50 ∧ pt < 80)

/-- Condition of the block "pt bin 80-120" (line 1596). -/
def ptIn_80_120 (pt : ℚ) : Bool := decide (pt ≥ 80 ∧ pt < 120)

/-- Condition of the block "pt bin 120-180" (line 1635). -/
def ptIn_120_180 (pt : ℚ) : Bool := decide (pt ≥ 120 ∧ pt < 180)

/-- Condition of the block "pt bin 180-300" (line 1674). -/
def ptIn_180_300 (pt : ℚ) : Bool := decide (pt ≥ 180 ∧ pt < 300)

/-- Condition of the block "pt bin 300-Inf" (line 1713). -/
def ptIn_300_Inf (pt : ℚ) : Bool := decide (pt ≥ 300)

/-- The seven pT-range conditions of `analyze`, in source order. -/
def ptConditions (pt : ℚ) : List Bool :=
  [ptIn_20_30 pt, ptIn_30_50 pt, ptIn_50_80 pt, ptIn_80_120 pt,
   ptIn_120_180 pt, ptIn_180_300 pt, ptIn_300_Inf pt]

/-! ## The `mPtRecoOverGen_*` members -/

/-- The 124 `MonitorElement*` members `mPtRecoOverGen_*`, in the order in which the
constructor sets them to 0 (lines 263-394). -/
inductive Field where
  | mPtRecoOverGen_B_20_30_Cent_0_10
  | mPtRecoOverGen_E_20_30_Cent_0_10
  | mPtRecoOverGen_F_20_30_Cent_0_10
  | mPtRecoOverGen_B_30_50_Cent_0_10
  | mPtRecoOverGen_E_30_50_Cent_0_10
  | mPtRecoOverGen_F_30_50_Cent_0_10
  | mPtRecoOverGen_B_50_80_Cent_0_10
  | mPtRecoOverGen_E_50_80_Cent_0_10
  | mPtRecoOverGen_F_50_80_Cent_0_10
  | mPtRecoOverGen_B_80_120_Cent_0_10
  | mPtRecoOverGen_E_80_120_Cent_0_10
  | mPtRecoOverGen_F_80_120_Cent_0_10
  | mPtRecoOverGen_B_120_180_Cent_0_10
  | mPtRecoOverGen_E_120_180_Cent_0_10
  | mPtRecoOverGen_F_120_180_Cent_0_10
  | mPtRecoOverGen_B_180_300_Cent_0_10
  | mPtRecoOverGen_E_180_300_Cent_0_10
  | mPtRecoOverGen_F_180_300_Cent_0_10
  | mPtRecoOverGen_B_300_Inf_Cent_0_10
  | mPtRecoOverGen_E_300_Inf_Cent_0_10
  | mPtRecoOverGen_F_300_Inf_Cent_0_10
  | mPtRecoOverGen_B_20_30_Cent_10_30
  | mPtRecoOverGen_E_20_30_Cent_10_30
  | mPtRecoOverGen_F_20_30_Cent_10_30
  | mPtRecoOverGen_B_30_50_Cent_10_30
  | mPtRecoOverGen_E_30_50_Cent_10_30
  | mPtRecoOverGen_F_30_50_Cent_10_30
  | mPtRecoOverGen_B_50_80_Cent_10_30
  | mPtRecoOverGen_E_50_80_Cent_10_30
  | mPtRecoOverGen_F_50_80_Cent_10_30
  | mPtRecoOverGen_B_80_120_Cent_10_30
  | mPtRecoOverGen_E_80_120_Cent_10_30
  | mPtRecoOverGen_F_80_120_Cent_10_30
  | mPtRecoOverGen_B_120_180_Cent_10_30
  | mPtRecoOverGen_E_120_180_Cent_10_30
  | mPtRecoOverGen_F_120_180_Cent_10_30
  | mPtRecoOverGen_B_180_300_Cent_10_30
  | mPtRecoOverGen_E_180_300_Cent_10_30
  | mPtRecoOverGen_F_180_300_Cent_10_30
  | mPtRecoOverGen_B_300_Inf_Cent_10_30
  | mPtRecoOverGen_E_300_Inf_Cent_10_30
  | mPtRecoOverGen_F_300_Inf_Cent_10_30
  | mPtRecoOverGen_B_20_30_Cent_30_50
  | mPtRecoOverGen_E_20_30_Cent_30_50
  | mPtRecoOverGen_F_20_30_Cent_30_50
  | mPtRecoOverGen_B_30_50_Cent_30_50
  | mPtRecoOverGen_E_30_50_Cent_30_50
  | mPtRecoOverGen_F_30_50_Cent_30_50
  | mPtRecoOverGen_B_50_80_Cent_30_50
  | mPtRecoOverGen_E_50_80_Cent_30_50
  | mPtRecoOverGen_F_50_80_Cent_30_50
  | mPtRecoOverGen_B_80_120_Cent_30_50
  | mPtRecoOverGen_E_80_120_Cent_30_50
  | mPtRecoOverGen_F_80_120_Cent_30_50
  | mPtRecoOverGen_B_120_180_Cent_30_50
  | mPtRecoOverGen_E_120_180_Cent_30_50
  | mPtRecoOverGen_F_120_180_Cent_30_50
  | mPtRecoOverGen_B_180_300_Cent_30_50
  | mPtRecoOverGen_E_180_300_Cent_30_50
  | mPtRecoOverGen_F_180_300_Cent_30_50
  | mPtRecoOverGen_B_300_Inf_Cent_30_50
  | mPtRecoOverGen_E_300_Inf_Cent_30_50
  | mPtRecoOverGen_F_300_Inf_Cent_30_50
  | mPtRecoOverGen_B_20_30_Cent_50_80
  | mPtRecoOverGen_E_20_30_Cent_50_80
  | mPtRecoOverGen_F_20_30_Cent_50_80
  | mPtRecoOverGen_B_30_50_Cent_50_80
  | mPtRecoOverGen_E_30_50_Cent_50_80
  | mPtRecoOverGen_F_30_50_Cent_50_80
  | mPtRecoOverGen_B_50_80_Cent_50_80
  | mPtRecoOverGen_E_50_80_Cent_50_80
  | mPtRecoOverGen_F_50_80_Cent_50_80
  | mPtRecoOverGen_B_80_120_Cent_50_80
  | mPtRecoOverGen_E_80_120_Cent_50_80
  | mPtRecoOverGen_F_80_120_Cent_50_80
  | mPtRecoOverGen_B_120_180_Cent_50_80
  | mPtRecoOverGen_E_120_180_Cent_50_80
  | mPtRecoOverGen_F_120_180_Cent_50_80
  | mPtRecoOverGen_B_180_300_Cent_50_80
  | mPtRecoOverGen_E_180_300_Cent_50_80
  | mPtRecoOverGen_F_180_300_Cent_50_80
  | mPtRecoOverGen_B_300_Inf_Cent_50_80
  | mPtRecoOverGen_E_300_Inf_Cent_50_80
  | mPtRecoOverGen_F_300_Inf_Cent_50_80
  | mPtRecoOverGen_GenPt_B_Cent_0_10
  | mPtRecoOverGen_GenPt_E_Cent_0_10
  | mPtRecoOverGen_GenPt_F_Cent_0_10
  | mPtRecoOverGen_GenPt_B_Cent_10_30
  | mPtRecoOverGen_GenPt_E_Cent_10_30
  | mPtRecoOverGen_GenPt_F_Cent_10_30
  | mPtRecoOverGen_GenPt_B_Cent_30_50
  | mPtRecoOverGen_GenPt_E_Cent_30_50
  | mPtRecoOverGen_GenPt_F_Cent_30_50
  | mPtRecoOverGen_GenPt_B_Cent_50_80
  | mPtRecoOverGen_GenPt_E_Cent_50_80
  | mPtRecoOverGen_GenPt_F_Cent_50_80
  | mPtRecoOverGen_GenEta_20_30_Cent_0_10
  | mPtRecoOverGen_GenEta_30_50_Cent_0_10
  | mPtRecoOverGen_GenEta_50_80_Cent_0_10
  | mPtRecoOverGen_GenEta_80_120_Cent_0_10
  | mPtRecoOverGen_GenEta_120_180_Cent_0_10
  | mPtRecoOverGen_GenEta_180_300_Cent_0_10
  | mPtRecoOverGen_GenEta_300_Inf_Cent_0_10
  | mPtRecoOverGen_GenEta_20_30_Cent_10_30
  | mPtRecoOverGen_GenEta_30_50_Cent_10_30
  | mPtRecoOverGen_GenEta_50_80_Cent_10_30
  | mPtRecoOverGen_GenEta_80_120_Cent_10_30
  | mPtRecoOverGen_GenEta_120_180_Cent_10_30
  | mPtRecoOverGen_GenEta_180_300_Cent_10_30
  | mPtRecoOverGen_GenEta_300_Inf_Cent_10_30
  | mPtRecoOverGen_GenEta_20_30_Cent_30_50
  | mPtRecoOverGen_GenEta_30_50_Cent_30_50
  | mPtRecoOverGen_GenEta_50_80_Cent_30_50
  | mPtRecoOverGen_GenEta_80_120_Cent_30_50
  | mPtRecoOverGen_GenEta_120_180_Cent_30_50
  | mPtRecoOverGen_GenEta_180_300_Cent_30_50
  | mPtRecoOverGen_GenEta_300_Inf_Cent_30_50
  | mPtRecoOverGen_GenEta_20_30_Cent_50_80
  | mPtRecoOverGen_GenEta_30_50_Cent_50_80
  | mPtRecoOverGen_GenEta_50_80_Cent_50_80
  | mPtRecoOverGen_GenEta_80_120_Cent_50_80
  | mPtRecoOverGen_GenEta_120_180_Cent_50_80
  | mPtRecoOverGen_GenEta_180_300_Cent_50_80
  | mPtRecoOverGen_GenEta_300_Inf_Cent_50_80
deriving DecidableEq, Repr

/-- Arguments of one `Fill` call of the response block. -/
inductive FillArgs where
  /-- The call `Fill(response)` on a 1D histogram. -/
  | x (response : ℚ)
  /-- The call `Fill(log10(genpt), response)` on a pT profile. -/
  | log10xy (genpt response : ℚ)
  /-- The call `Fill(geneta, response)` on an eta profile. -/
  | xy (geneta response : ℚ)
deriving DecidableEq, Repr

/-- Value of the members: `none` is a null pointer, `some es` a booked histogram
with the entries it has received. -/
abbrev Hists := Field → Option (List FillArgs)

/-- Failure of a run of `analyze`. -/
inductive AnalyzeError where
  /-- A `->Fill` through the member `f` while it holds the null pointer. -/
  | nullPointer (f : Field)
deriving DecidableEq, Repr

/-- The members after the constructor: each of them is set to 0. -/
def constructorHists : Hists := fun _ => none

/-- The booking assignments of lines 651-671 as (member, name, title). -/
def bookCalls_651_671 : List (Field × String × String) :=
  [(Field.mPtRecoOverGen_B_20_30_Cent_0_10, "PtRecoOverGen_B_20_30_Cent_0_10", "20<genpt<30; recopt/genpt (0-10%) (Barrel);counts"),
   (Field.mPtRecoOverGen_E_20_30_Cent_0_10, "PtRecoOverGen_E_20_30_Cent_0_10", "20<genpt<30; recopt/genpt (0-10%) (EndCap);counts"),
   (Field.mPtRecoOverGen_F_20_30_Cent_0_10, "PtRecoOverGen_F_20_30_Cent_0_10", "20<genpt<30; recopt/genpt (0-10%) (Forward);counts"),
   (Field.mPtRecoOverGen_B_30_50_Cent_0_10, "PtRecoOverGen_B_30_50_Cent_0_10", "30<genpt<50; recopt/genpt (0-10%) (Barrel);counts"),
   (Field.mPtRecoOverGen_E_30_50_Cent_0_10, "PtRecoOverGen_E_30_50_Cent_0_10", "30<genpt<50; recopt/genpt (0-10%) (EndCap);counts"),
   (Field.mPtRecoOverGen_F_30_50_Cent_0_10, "PtRecoOverGen_F_30_50_Cent_0_10", "30<genpt<50; recopt/genpt (0-10%) (Forward);counts"),
   (Field.mPtRecoOverGen_B_50_80_Cent_0_10, "PtRecoOverGen_B_50_80_Cent_0_10", "50<genpt<80; recopt/genpt (0-10%) (Barrel);counts"),
   (Field.mPtRecoOverGen_E_50_80_Cent_0_10, "PtRecoOverGen_E_50_80_Cent_0_10", "50<genpt<80; recopt/genpt (0-10%) (EndCap);counts"),
   (Field.mPtRecoOverGen_F_50_80_Cent_0_10, "PtRecoOverGen_F_50_80_Cent_0_10", "50<genpt<80; recopt/genpt (0-10%) (Forward);counts"),
   (Field.mPtRecoOverGen_B_80_120_Cent_0_10, "PtRecoOverGen_B_80_120_Cent_0_10", "80<genpt<120; recopt/genpt (0-10%) (Barrel);counts"),
   (Field.mPtRecoOverGen_E_80_120_Cent_0_10, "PtRecoOverGen_E_80_120_Cent_0_10", "80<genpt<120; recopt/genpt (0-10%) (EndCap);counts"),
   (Field.mPtRecoOverGen_F_80_120_Cent_0_10, "PtRecoOverGen_F_80_120_Cent_0_10", "80<genpt<120; recopt/genpt (0-10%) (Forward);counts"),
   (Field.mPtRecoOverGen_B_120_180_Cent_0_10, "PtRecoOverGen_B_120_180_Cent_0_10", "120<genpt<180; recopt/genpt (0-10%) (Barrel);counts"),
   (Field.mPtRecoOverGen_E_120_180_Cent_0_10, "PtRecoOverGen_E_120_180_Cent_0_10", "120<genpt<180; recopt/genpt (0-10%) (EndCap);counts"),
   (Field.mPtRecoOverGen_F_120_180_Cent_0_10, "PtRecoOverGen_F_120_180_Cent_0_10", "120<genpt<180; recopt/genpt (0-10%) (Forward);counts"),
   (Field.mPtRecoOverGen_B_180_300_Cent_0_10, "PtRecoOverGen_B_180_300_Cent_0_10", "180<genpt<300; recopt/genpt (0-10%) (Barrel);counts"),
   (Field.mPtRecoOverGen_E_180_300_Cent_0_10, "PtRecoOverGen_E_180_300_Cent_0_10", "180<genpt<300; recopt/genpt (0-10%) (EndCap);counts"),
   (Field.mPtRecoOverGen_F_180_300_Cent_0_10, "PtRecoOverGen_F_180_300_Cent_0_10", "180<genpt<300; recopt/genpt (0-10%) (Forward);counts"),
   (Field.mPtRecoOverGen_B_300_Inf_Cent_0_10, "PtRecoOverGen_B_300_Inf_Cent_0_10", "300<genpt<Inf; recopt/genpt (0-10%) (Barrel);counts"),
   (Field.mPtRecoOverGen_E_300_Inf_Cent_0_10, "PtRecoOverGen_E_300_Inf_Cent_0_10", "300<genpt<Inf; recopt/genpt (0-10%) (EndCap);counts"),
   (Field.mPtRecoOverGen_F_300_Inf_Cent_0_10, "PtRecoOverGen_F_300_Inf_Cent_0_10", "300<genpt<Inf; recopt/genpt (0-10%) (Forward);counts")]

/-- The booking assignments of lines 674-694 as (member, name, title). -/
def bookCalls_674_694 : List (Field × String × String) :=
  [(Field.mPtRecoOverGen_B_20_30_Cent_10_30, "PtRecoOverGen_B_20_30_Cent_10_30", "20<genpt<30; recopt/genpt (10-30%) (Barrel);counts"),
   (Field.mPtRecoOverGen_E_20_30_Cent_10_30, "PtRecoOverGen_E_20_30_Cent_10_30", "20<genpt<30; recopt/genpt (10-30%) (EndCap);counts"),
   (Field.mPtRecoOverGen_F_20_30_Cent_10_30, "PtRecoOverGen_F_20_30_Cent_10_30", "20<genpt<30; recopt/genpt (10-30%) (Forward);counts"),
   (Field.mPtRecoOverGen_B_30_50_Cent_10_30, "PtRecoOverGen_B_30_50_Cent_10_30", "30<genpt<50; recopt/genpt (10-30%) (Barrel);counts"),
   (Field.mPtRecoOverGen_E_30_50_Cent_10_30, "PtRecoOverGen_E_30_50_Cent_10_30", "30<genpt<50; recopt/genpt (10-30%) (EndCap);counts"),
   (Field.mPtRecoOverGen_F_30_50_Cent_10_30, "PtRecoOverGen_F_30_50_Cent_10_30", "30<genpt<50; recopt/genpt (10-30%) (Forward);counts"),
   (Field.mPtRecoOverGen_B_50_80_Cent_10_30, "PtRecoOverGen_B_50_80_Cent_10_30", "50<genpt<80; recopt/genpt (10-30%) (Barrel);counts"),
   (Field.mPtRecoOverGen_E_50_80_Cent_10_30, "PtRecoOverGen_E_50_80_Cent_10_30", "50<genpt<80; recopt/genpt (10-30%) (EndCap);counts"),
   (Field.mPtRecoOverGen_F_50_80_Cent_10_30, "PtRecoOverGen_F_50_80_Cent_10_30", "50<genpt<80; recopt/genpt (10-30%) (Forward);counts"),
   (Field.mPtRecoOverGen_B_80_120_Cent_10_30, "PtRecoOverGen_B_80_120_Cent_10_30", "80<genpt<120; recopt/genpt (10-30%) (Barrel);counts"),
   (Field.mPtRecoOverGen_E_80_120_Cent_10_30, "PtRecoOverGen_E_80_120_Cent_10_30", "80<genpt<120; recopt/genpt (10-30%) (EndCap);counts"),
   (Field.mPtRecoOverGen_F_80_120_Cent_10_30, "PtRecoOverGen_F_80_120_Cent_10_30", "80<genpt<120; recopt/genpt (10-30%) (Forward);counts"),
   (Field.mPtRecoOverGen_B_120_180_Cent_10_30, "PtRecoOverGen_B_120_180_Cent_10_30", "120<genpt<180; recopt/genpt (10-30%) (Barrel);counts"),
   (Field.mPtRecoOverGen_E_120_180_Cent_10_30, "PtRecoOverGen_E_120_180_Cent_10_30", "120<genpt<180; recopt/genpt (10-30%) (EndCap);counts"),
   (Field.mPtRecoOverGen_F_120_180_Cent_10_30, "PtRecoOverGen_F_120_180_Cent_10_30", "120<genpt<180; recopt/genpt (10-30%) (Forward);counts"),
   (Field.mPtRecoOverGen_B_180_300_Cent_10_30, "PtRecoOverGen_B_180_300_Cent_10_30", "180<genpt<300; recopt/genpt (10-30%) (Barrel);counts"),
   (Field.mPtRecoOverGen_E_180_300_Cent_10_30, "PtRecoOverGen_E_180_300_Cent_10_30", "180<genpt<300; recopt/genpt (10-30%) (EndCap);counts"),
   (Field.mPtRecoOverGen_F_180_300_Cent_10_30, "PtRecoOverGen_F_180_300_Cent_10_30", "180<genpt<300; recopt/genpt (10-30%) (Forward);counts"),
   (Field.mPtRecoOverGen_B_300_Inf_Cent_10_30, "PtRecoOverGen_B_300_Inf_Cent_10_30", "300<genpt<Inf; recopt/genpt (10-30%) (Barrel);counts"),
   (Field.mPtRecoOverGen_E_300_Inf_Cent_10_30, "PtRecoOverGen_E_300_Inf_Cent_10_30", "300<genpt<Inf; recopt/genpt (10-30%) (EndCap);counts"),
   (Field.mPtRecoOverGen_F_300_Inf_Cent_10_30, "PtRecoOverGen_F_300_Inf_Cent_10_30", "300<genpt<Inf; recopt/genpt (10-30%) (Forward);counts")]

/-- The booking assignments of lines 697-717 as (member, name, title). -/
def bookCalls_697_717 : List (Field × String × String) :=
  [(Field.mPtRecoOverGen_B_20_30_Cent_30_50, "PtRecoOverGen_B_20_30_Cent_30_50", "20<genpt<30; recopt/genpt (30-50%) (Barrel);counts"),
   (Field.mPtRecoOverGen_E_20_30_Cent_30_50, "PtRecoOverGen_E_20_30_Cent_30_50", "20<genpt<30; recopt/genpt (30-50%) (EndCap);counts"),
   (Field.mPtRecoOverGen_F_20_30_Cent_30_50, "PtRecoOverGen_F_20_30_Cent_30_50", "20<genpt<30; recopt/genpt (30-50%) (Forward);counts"),
   (Field.mPtRecoOverGen_B_30_50_Cent_30_50, "PtRecoOverGen_B_30_50_Cent_30_50", "30<genpt<50; recopt/genpt (30-50%) (Barrel);counts"),
   (Field.mPtRecoOverGen_E_30_50_Cent_30_50, "PtRecoOverGen_E_30_50_Cent_30_50", "30<genpt<50; recopt/genpt (30-50%) (EndCap);counts"),
   (Field.mPtRecoOverGen_F_30_50_Cent_30_50, "PtRecoOverGen_F_30_50_Cent_30_50", "30<genpt<50; recopt/genpt (30-50%) (Forward);counts"),
   (Field.mPtRecoOverGen_B_50_80_Cent_30_50, "PtRecoOverGen_B_50_80_Cent_30_50", "50<genpt<80; recopt/genpt (30-50%) (Barrel);counts"),
   (Field.mPtRecoOverGen_E_50_80_Cent_30_50, "PtRecoOverGen_E_50_80_Cent_30_50", "50<genpt<80; recopt/genpt (30-50%) (EndCap);counts"),
   (Field.mPtRecoOverGen_F_50_80_Cent_30_50, "PtRecoOverGen_F_50_80_Cent_30_50", "50<genpt<80; recopt/genpt (30-50%) (Forward);counts"),
   (Field.mPtRecoOverGen_B_80_120_Cent_30_50, "PtRecoOverGen_B_80_120_Cent_30_50", "80<genpt<120; recopt/genpt (30-50%) (Barrel);counts"),
   (Field.mPtRecoOverGen_E_80_120_Cent_30_50, "PtRecoOverGen_E_80_120_Cent_30_50", "80<genpt<120; recopt/genpt (30-50%) (EndCap);counts"),
   (Field.mPtRecoOverGen_F_80_120_Cent_30_50, "PtRecoOverGen_F_80_120_Cent_30_50", "80<genpt<120; recopt/genpt (30-50%) (Forward);counts"),
   (Field.mPtRecoOverGen_B_120_180_Cent_30_50, "PtRecoOverGen_B_120_180_Cent_30_50", "120<genpt<180; recopt/genpt (30-50%) (Barrel);counts"),
   (Field.mPtRecoOverGen_E_120_180_Cent_30_50, "PtRecoOverGen_E_120_180_Cent_30_50", "120<genpt<180; recopt/genpt (30-50%) (EndCap);counts"),
   (Field.mPtRecoOverGen_F_120_180_Cent_30_50, "PtRecoOverGen_F_120_180_Cent_30_50", "120<genpt<180; recopt/genpt (30-50%) (Forward);counts"),
   (Field.mPtRecoOverGen_B_180_300_Cent_30_50, "PtRecoOverGen_B_180_300_Cent_30_50", "180<genpt<300; recopt/genpt (30-50%) (Barrel);counts"),
   (Field.mPtRecoOverGen_E_180_300_Cent_30_50, "PtRecoOverGen_E_180_300_Cent_30_50", "180<genpt<300; recopt/genpt (30-50%) (EndCap);counts"),
   (Field.mPtRecoOverGen_F_180_300_Cent_30_50, "PtRecoOverGen_F_180_300_Cent_30_50", "180<genpt<300; recopt/genpt (30-50%) (Forward);counts"),
   (Field.mPtRecoOverGen_B_300_Inf_Cent_30_50, "PtRecoOverGen_B_300_Inf_Cent_30_50", "300<genpt<Inf; recopt/genpt (30-50%) (Barrel);counts"),
   (Field.mPtRecoOverGen_E_300_Inf_Cent_30_50, "PtRecoOverGen_E_300_Inf_Cent_30_50", "300<genpt<Inf; recopt/genpt (30-50%) (EndCap);counts"),
   (Field.mPtRecoOverGen_F_300_Inf_Cent_30_50, "PtRecoOverGen_F_300_Inf_Cent_30_50", "300<genpt<Inf; recopt/genpt (30-50%) (Forward);counts")]

/-- The booking assignments of lines 719-739 as (member, name, title). -/
def bookCalls_719_739 : List (Field × String × String) :=
  [(Field.mPtRecoOverGen_B_20_30_Cent_50_80, "PtRecoOverGen_B_20_30_Cent_50_80", "20<genpt<30; recopt/genpt (50-80%) (Barrel);counts"),
   (Field.mPtRecoOverGen_E_20_30_Cent_50_80, "PtRecoOverGen_E_20_30_Cent_50_80", "20<genpt<30; recopt/genpt (50-80%) (EndCap);counts"),
   (Field.mPtRecoOverGen_F_20_30_Cent_50_80, "PtRecoOverGen_F_20_30_Cent_50_80", "20<genpt<30; recopt/genpt (50-80%) (Forward);counts"),
   (Field.mPtRecoOverGen_B_50_80_Cent_50_80, "PtRecoOverGen_B_50_80_Cent_50_80", "30<genpt<50; recopt/genpt (50-80%) (Barrel);counts"),
   (Field.mPtRecoOverGen_E_50_80_Cent_50_80, "PtRecoOverGen_E_50_80_Cent_50_80", "30<genpt<50; recopt/genpt (50-80%) (EndCap);counts"),
   (Field.mPtRecoOverGen_F_50_80_Cent_50_80, "PtRecoOverGen_F_50_80_Cent_50_80", "30<genpt<50; recopt/genpt (50-80%) (Forward);counts"),
   (Field.mPtRecoOverGen_B_50_80_Cent_50_80, "PtRecoOverGen_B_50_80_Cent_50_80", "50<genpt<80; recopt/genpt (50-80%) (Barrel);counts"),
   (Field.mPtRecoOverGen_E_50_80_Cent_50_80, "PtRecoOverGen_E_50_80_Cent_50_80", "50<genpt<80; recopt/genpt (50-80%) (EndCap);counts"),
   (Field.mPtRecoOverGen_F_50_80_Cent_50_80, "PtRecoOverGen_F_50_80_Cent_50_80", "50<genpt<80; recopt/genpt (50-80%) (Forward);counts"),
   (Field.mPtRecoOverGen_B_80_120_Cent_50_80, "PtRecoOverGen_B_80_120_Cent_50_80", "80<genpt<120; recopt/genpt (50-80%) (Barrel);counts"),
   (Field.mPtRecoOverGen_E_80_120_Cent_50_80, "PtRecoOverGen_E_80_120_Cent_50_80", "80<genpt<120; recopt/genpt (50-80%) (EndCap);counts"),
   (Field.mPtRecoOverGen_F_80_120_Cent_50_80, "PtRecoOverGen_F_80_120_Cent_50_80", "80<genpt<120; recopt/genpt (50-80%) (Forward);counts"),
   (Field.mPtRecoOverGen_B_120_180_Cent_50_80, "PtRecoOverGen_B_120_180_Cent_50_80", "120<genpt<180; recopt/genpt (50-80%) (Barrel);counts"),
   (Field.mPtRecoOverGen_E_120_180_Cent_50_80, "PtRecoOverGen_E_120_180_Cent_50_80", "120<genpt<180; recopt/genpt (50-80%) (EndCap);counts"),
   (Field.mPtRecoOverGen_F_120_180_Cent_50_80, "PtRecoOverGen_F_120_180_Cent_50_80", "120<genpt<180; recopt/genpt (50-80%) (Forward);counts"),
   (Field.mPtRecoOverGen_B_180_300_Cent_50_80, "PtRecoOverGen_B_180_300_Cent_50_80", "180<genpt<300; recopt/genpt (50-80%) (Barrel);counts"),
   (Field.mPtRecoOverGen_E_180_300_Cent_50_80, "PtRecoOverGen_E_180_300_Cent_50_80", "180<genpt<300; recopt/genpt (50-80%) (EndCap);counts"),
   (Field.mPtRecoOverGen_F_180_300_Cent_50_80, "PtRecoOverGen_F_180_300_Cent_50_80", "180<genpt<300; recopt/genpt (50-80%) (Forward);counts"),
   (Field.mPtRecoOverGen_B_300_Inf_Cent_50_80, "PtRecoOverGen_B_300_Inf_Cent_50_80", "300<genpt<Inf; recopt/genpt (50-80%) (Barrel);counts"),
   (Field.mPtRecoOverGen_E_300_Inf_Cent_50_80, "PtRecoOverGen_E_300_Inf_Cent_50_80", "300<genpt<Inf; recopt/genpt (50-80%) (EndCap);counts"),
   (Field.mPtRecoOverGen_F_300_Inf_Cent_50_80, "PtRecoOverGen_F_300_Inf_Cent_50_80", "300<genpt<Inf; recopt/genpt (50-80%) (Forward);counts")]

/-- The booking assignments of lines 742-753 as (member, name, title). -/
def bookCalls_742_753 : List (Field × String × String) :=
  [(Field.mPtRecoOverGen_GenPt_B_Cent_0_10, "PtRecoOverGen_GenPt_B_Cent_0_10", "|#eta|<%2.2f, (0-10cent);genpt;recopt/genpt"),
   (Field.mPtRecoOverGen_GenPt_E_Cent_0_10, "PtRecoOverGen_GenPt_E_Cent_0_10", "%2.2f<|#eta|<%2.2f, (0-10cent);genpt;recopt/genpt"),
   (Field.mPtRecoOverGen_GenPt_F_Cent_0_10, "PtRecoOverGen_GenPt_F_Cent_0_10", "%2.2f<|#eta|<%2.2f, (0-10cent);genpt;recopt/genpt"),
   (Field.mPtRecoOverGen_GenPt_B_Cent_10_30, "PtRecoOverGen_GenPt_B_Cent_10_30", "|#eta|<%2.2f, (10-30cent);genpt;recopt/genpt"),
   (Field.mPtRecoOverGen_GenPt_E_Cent_10_30, "PtRecoOverGen_GenPt_E_Cent_10_30", "%2.2f<|#eta|<%2.2f, (10-30cent);genpt;recopt/genpt"),
   (Field.mPtRecoOverGen_GenPt_F_Cent_10_30, "PtRecoOverGen_GenPt_F_Cent_10_30", "%2.2f<|#eta|<%2.2f, (10-30cent);genpt;recopt/genpt"),
   (Field.mPtRecoOverGen_GenPt_B_Cent_30_50, "PtRecoOverGen_GenPt_B_Cent_30_50", "|#eta|<%2.2f, (30-50cent);genpt;recopt/genpt"),
   (Field.mPtRecoOverGen_GenPt_E_Cent_30_50, "PtRecoOverGen_GenPt_E_Cent_30_50", "%2.2f<|#eta|<%2.2f, (30-50cent);genpt;recopt/genpt"),
   (Field.mPtRecoOverGen_GenPt_F_Cent_30_50, "PtRecoOverGen_GenPt_F_Cent_30_50", "%2.2f<|#eta|<%2.2f, (30-50cent);genpt;recopt/genpt"),
   (Field.mPtRecoOverGen_GenPt_B_Cent_50_80, "PtRecoOverGen_GenPt_B_Cent_50_80", "|#eta|<%2.2f, (50-80cent);genpt;recopt/genpt"),
   (Field.mPtRecoOverGen_GenPt_E_Cent_50_80, "PtRecoOverGen_GenPt_E_Cent_50_80", "%2.2f<|#eta|<%2.2f, (50-80cent);genpt;recopt/genpt"),
   (Field.mPtRecoOverGen_GenPt_F_Cent_50_80, "PtRecoOverGen_GenPt_F_Cent_50_80", "%2.2f<|#eta|<%2.2f, (50-80cent);genpt;recopt/genpt")]

/-- The booking assignments of lines 755-761 as (member, name, title). -/
def bookCalls_755_761 : List (Field × String × String) :=
  [(Field.mPtRecoOverGen_GenEta_20_30_Cent_0_10, "PtRecoOverGen_GenEta_20_30_Cent_0_10", "20<genpt<30 (0-10%);geneta;recopt/genpt"),
   (Field.mPtRecoOverGen_GenEta_30_50_Cent_0_10, "PtRecoOverGen_GenEta_30_50_Cent_0_10", "30<genpt<50 (0-10%);geneta;recopt/genpt"),
   (Field.mPtRecoOverGen_GenEta_50_80_Cent_0_10, "PtRecoOverGen_GenEta_50_80_Cent_0_10", "50<genpt<80 (0-10%);geneta;recopt/genpt"),
   (Field.mPtRecoOverGen_GenEta_80_120_Cent_0_10, "PtRecoOverGen_GenEta_80_120_Cent_0_10", "80<genpt<120 (0-10%);geneta;recopt/genpt"),
   (Field.mPtRecoOverGen_GenEta_120_180_Cent_0_10, "PtRecoOverGen_GenEta_120_180_Cent_0_10", "120<genpt<180 (0-10%);geneta;recopt/genpt"),
   (Field.mPtRecoOverGen_GenEta_180_300_Cent_0_10, "PtRecoOverGen_GenEta_180_300_Cent_0_10", "180<genpt<300 (0-10%);geneta;recopt/genpt"),
   (Field.mPtRecoOverGen_GenEta_300_Inf_Cent_0_10, "PtRecoOverGen_GenEta_300_Inf_Cent_0_10", "300<genpt<Inf (0-10%);geneta;recopt/genpt")]

/-- The booking assignments of lines 764-770 as (member, name, title). -/
def bookCalls_764_770 : List (Field × String × String) :=
  [(Field.mPtRecoOverGen_GenEta_20_30_Cent_10_30, "PtRecoOverGen_GenEta_20_30_Cent_10_30", "20<genpt<30 (10-30%);geneta;recopt/genpt"),
   (Field.mPtRecoOverGen_GenEta_30_50_Cent_10_30, "PtRecoOverGen_GenEta_30_50_Cent_10_30", "30<genpt<50 (10-30%);geneta;recopt/genpt"),
   (Field.mPtRecoOverGen_GenEta_50_80_Cent_10_30, "PtRecoOverGen_GenEta_50_80_Cent_10_30", "50<genpt<80 (10-30%);geneta;recopt/genpt"),
   (Field.mPtRecoOverGen_GenEta_80_120_Cent_10_30, "PtRecoOverGen_GenEta_80_120_Cent_10_30", "80<genpt<120 (10-30%);geneta;recopt/genpt"),
   (Field.mPtRecoOverGen_GenEta_120_180_Cent_10_30, "PtRecoOverGen_GenEta_120_180_Cent_10_30", "120<genpt<180 (10-30%);geneta;recopt/genpt"),
   (Field.mPtRecoOverGen_GenEta_180_300_Cent_10_30, "PtRecoOverGen_GenEta_180_300_Cent_10_30", "180<genpt<300 (10-30%);geneta;recopt/genpt"),
   (Field.mPtRecoOverGen_GenEta_300_Inf_Cent_10_30, "PtRecoOverGen_GenEta_300_Inf_Cent_10_30", "300<genpt<Inf (10-30%);geneta;recopt/genpt")]

/-- The booking assignments of lines 772-778 as (member, name, title). -/
def bookCalls_772_778 : List (Field × String × String) :=
  [(Field.mPtRecoOverGen_GenEta_20_30_Cent_30_50, "PtRecoOverGen_GenEta_20_30_Cent_30_50", "20<genpt<30 (30-50%);geneta;recopt/genpt"),
   (Field.mPtRecoOverGen_GenEta_30_50_Cent_30_50, "PtRecoOverGen_GenEta_30_50_Cent_30_50", "30<genpt<50 (30-50%);geneta;recopt/genpt"),
   (Field.mPtRecoOverGen_GenEta_50_80_Cent_30_50, "PtRecoOverGen_GenEta_50_80_Cent_30_50", "50<genpt<80 (30-50%);geneta;recopt/genpt"),
   (Field.mPtRecoOverGen_GenEta_80_120_Cent_30_50, "PtRecoOverGen_GenEta_80_120_Cent_30_50", "80<genpt<120 (30-50%);geneta;recopt/genpt"),
   (Field.mPtRecoOverGen_GenEta_120_180_Cent_30_50, "PtRecoOverGen_GenEta_120_180_Cent_30_50", "120<genpt<180 (30-50%);geneta;recopt/genpt"),
   (Field.mPtRecoOverGen_GenEta_180_300_Cent_30_50, "PtRecoOverGen_GenEta_180_300_Cent_30_50", "180<genpt<300 (30-50%);geneta;recopt/genpt"),
   (Field.mPtRecoOverGen_GenEta_300_Inf_Cent_30_50, "PtRecoOverGen_GenEta_300_Inf_Cent_30_50", "300<genpt<Inf (30-50%);geneta;recopt/genpt")]

/-- The booking assignments of lines 780-786 as (member, name, title). -/
def bookCalls_780_786 : List (Field × String × String) :=
  [(Field.mPtRecoOverGen_GenEta_20_30_Cent_50_80, "PtRecoOverGen_GenEta_20_30_Cent_50_80", "20<genpt<30 (50-80%);geneta;recopt/genpt"),
   (Field.mPtRecoOverGen_GenEta_50_80_Cent_50_80, "PtRecoOverGen_GenEta_50_80_Cent_50_80", "30<genpt<50 (50-80%);geneta;recopt/genpt"),
   (Field.mPtRecoOverGen_GenEta_50_80_Cent_50_80, "PtRecoOverGen_GenEta_50_80_Cent_50_80", "50<genpt<80 (50-80%);geneta;recopt/genpt"),
   (Field.mPtRecoOverGen_GenEta_80_120_Cent_50_80, "PtRecoOverGen_GenEta_80_120_Cent_50_80", "80<genpt<120 (50-80%);geneta;recopt/genpt"),
   (Field.mPtRecoOverGen_GenEta_120_180_Cent_50_80, "PtRecoOverGen_GenEta_120_180_Cent_50_80", "120<genpt<180 (50-80%);geneta;recopt/genpt"),
   (Field.mPtRecoOverGen_GenEta_180_300_Cent_50_80, "PtRecoOverGen_GenEta_180_300_Cent_50_80", "180<genpt<300 (50-80%);geneta;recopt/genpt"),
   (Field.mPtRecoOverGen_GenEta_300_Inf_Cent_50_80, "PtRecoOverGen_GenEta_300_Inf_Cent_50_80", "300<genpt<Inf (50-80%);geneta;recopt/genpt")]

/-- The assignments `member = ibooker.book1D(name, title, ...)` and
`member = ibooker.bookProfile(name, title, ...)` of `bookHistograms`
(lines 651-786), in source order, as (member, name, title); a title built
with `Form` is given by its format string. -/
def bookCalls : List (Field × String × String) :=
  bookCalls_651_671 ++
  bookCalls_674_694 ++
  bookCalls_697_717 ++
  bookCalls_719_739 ++
  bookCalls_742_753 ++
  bookCalls_755_761 ++
  bookCalls_764_770 ++
  bookCalls_772_778 ++
  bookCalls_780_786

/-- One assignment of `bookHistograms`: the member now points to a new, empty histogram. -/
def book (h : Hists) (call : Field × String × String) : Hists :=
  Function.update h call.1 (some [])

/-- The members after the constructor and `bookHistograms`. -/
def bookHistograms : Hists :=
  bookCalls.foldl book constructorHists

/-- Number of assignments to the member `f` in `bookHistograms`. -/
def timesBooked (f : Field) : Nat :=
  (bookCalls.filter (fun call => decide (call.1 = f))).length

/-- The call `f->Fill(args)`. -/
def Fill (h : Hists) (f : Field) (args : FillArgs) : Except AnalyzeError Hists :=
  match h f with
  | none => Except.error (AnalyzeError.nullPointer f)
  | some es => Except.ok (Function.update h f (some (es ++ [args])))

/-- A sequence of `Fill` calls, executed in order; the first null pointer ends the run. -/
def runFills : List (Field × FillArgs) → Hists → Except AnalyzeError Hists
  | [], h => Except.ok h
  | (f, args) :: rest, h =>
    match Fill h f args with
    | Except.error e => Except.error e
    | Except.ok h1 => runFills rest h1

/-- The statements guarded by `if (c)`: they run when `c` holds. -/
def onlyIf {α : Type} (c : Bool) (stmts : List α) : List α :=
  if c then stmts else []

/-- The `Fill` calls of the block `if(deltaRBest < mRThreshold)` (lines 1445-1750), in
execution order, statement by statement as in the source; `gjet->pt()` in the
pT-range conditions is the value `genpt`. No condition of the block reads a histogram. -/
def responseFills (inBarrel inEndcap inForward isCentral ismidCentral ismidPeripheral isPeripheral : Bool)
    (genpt geneta response : ℚ) : List (Field × FillArgs) :=
  onlyIf inBarrel (
    onlyIf isCentral (
      [(.mPtRecoOverGen_GenPt_B_Cent_0_10, .log10xy genpt response)]) ++
    onlyIf ismidCentral (
      [(.mPtRecoOverGen_GenPt_B_Cent_10_30, .log10xy genpt response)]) ++
    onlyIf ismidPeripheral (
      [(.mPtRecoOverGen_GenPt_B_Cent_30_50, .log10xy genpt response)]) ++
    onlyIf isPeripheral (
      [(.mPtRecoOverGen_GenPt_B_Cent_50_80, .log10xy genpt response)])) ++
  onlyIf inEndcap (
    onlyIf isCentral (
      [(.mPtRecoOverGen_GenPt_E_Cent_0_10, .log10xy genpt response)]) ++
    onlyIf ismidCentral (
      [(.mPtRecoOverGen_GenPt_E_Cent_10_30, .log10xy genpt response)]) ++
    onlyIf ismidPeripheral (
      [(.mPtRecoOverGen_GenPt_E_Cent_30_50, .log10xy genpt response)]) ++
    onlyIf isPeripheral (
      [(.mPtRecoOverGen_GenPt_E_Cent_50_80, .log10xy genpt response)])) ++
  onlyIf inForward (
    onlyIf isCentral (
      [(.mPtRecoOverGen_GenPt_F_Cent_0_10, .log10xy genpt response)]) ++
    onlyIf ismidCentral (
      [(.mPtRecoOverGen_GenPt_F_Cent_10_30, .log10xy genpt response)]) ++
    onlyIf ismidPeripheral (
      [(.mPtRecoOverGen_GenPt_F_Cent_30_50, .log10xy genpt response)]) ++
    onlyIf isPeripheral (
      [(.mPtRecoOverGen_GenPt_F_Cent_50_80, .log10xy genpt response)])) ++
  onlyIf (ptIn_20_30 genpt) (
    onlyIf isCentral (
      [(.mPtRecoOverGen_GenEta_20_30_Cent_0_10, .xy geneta response)] ++
      onlyIf inBarrel (
        [(.mPtRecoOverGen_B_20_30_Cent_0_10, .x response)]) ++
      onlyIf inEndcap (
        [(.mPtRecoOverGen_E_20_30_Cent_0_10, .x response)]) ++
      onlyIf inForward (
        [(.mPtRecoOverGen_F_20_30_Cent_0_10, .x response)])) ++
    onlyIf ismidCentral (
      [(.mPtRecoOverGen_GenEta_20_30_Cent_10_30, .xy geneta response)] ++
      onlyIf inBarrel (
        [(.mPtRecoOverGen_B_20_30_Cent_10_30, .x response)]) ++
      onlyIf inEndcap (
        [(.mPtRecoOverGen_E_20_30_Cent_10_30, .x response)]) ++
      onlyIf inForward (
        [(.mPtRecoOverGen_F_20_30_Cent_10_30, .x response)])) ++
    onlyIf ismidPeripheral (
      [(.mPtRecoOverGen_GenEta_20_30_Cent_30_50, .xy geneta response)] ++
      onlyIf inBarrel (
        [(.mPtRecoOverGen_B_20_30_Cent_30_50, .x response)]) ++
      onlyIf inEndcap (
        [(.mPtRecoOverGen_E_20_30_Cent_30_50, .x response)]) ++
      onlyIf inForward (
        [(.mPtRecoOverGen_F_20_30_Cent_30_50, .x response)])) ++
    onlyIf isPeripheral (
      [(.mPtRecoOverGen_GenEta_20_30_Cent_50_80, .xy geneta response)] ++
      onlyIf inBarrel (
        [(.mPtRecoOverGen_B_20_30_Cent_50_80, .x response)]) ++
      onlyIf inEndcap (
        [(.mPtRecoOverGen_E_20_30_Cent_50_80, .x response)]) ++
      onlyIf inForward (
        [(.mPtRecoOverGen_F_20_30_Cent_50_80, .x response)]))) ++
  onlyIf (ptIn_30_50 genpt) (
    onlyIf isCentral (
      [(.mPtRecoOverGen_GenEta_30_50_Cent_0_10, .xy geneta response)] ++
      onlyIf inBarrel (
        [(.mPtRecoOverGen_B_30_50_Cent_0_10, .x response)]) ++
      onlyIf inEndcap (
        [(.mPtRecoOverGen_E_30_50_Cent_0_10, .x response)]) ++
      onlyIf inForward (
        [(.mPtRecoOverGen_F_30_50_Cent_0_10, .x response)])) ++
    onlyIf ismidCentral (
      [(.mPtRecoOverGen_GenEta_30_50_Cent_10_30, .xy geneta response)] ++
      onlyIf inBarrel (
        [(.mPtRecoOverGen_B_30_50_Cent_10_30, .x response)]) ++
      onlyIf inEndcap (
        [(.mPtRecoOverGen_E_30_50_Cent_10_30, .x response)]) ++
      onlyIf inForward (
        [(.mPtRecoOverGen_F_30_50_Cent_10_30, .x response)])) ++
    onlyIf ismidPeripheral (
      [(.mPtRecoOverGen_GenEta_30_50_Cent_30_50, .xy geneta response)] ++
      onlyIf inBarrel (
        [(.mPtRecoOverGen_B_30_50_Cent_30_50, .x response)]) ++
      onlyIf inEndcap (
        [(.mPtRecoOverGen_E_30_50_Cent_30_50, .x response)]) ++
      onlyIf inForward (
        [(.mPtRecoOverGen_F_30_50_Cent_30_50, .x response)])) ++
    onlyIf isPeripheral (
      [(.mPtRecoOverGen_GenEta_30_50_Cent_50_80, .xy geneta response)] ++
      onlyIf inBarrel (
        [(.mPtRecoOverGen_B_30_50_Cent_50_80, .x response)]) ++
      onlyIf inEndcap (
        [(.mPtRecoOverGen_E_30_50_Cent_50_80, .x response)]) ++
      onlyIf inForward (
        [(.mPtRecoOverGen_F_30_50_Cent_50_80, .x response)]))) ++
  onlyIf (ptIn_50_80 genpt) (
    onlyIf isCentral (
      [(.mPtRecoOverGen_GenEta_50_80_Cent_0_10, .xy geneta response)] ++
      onlyIf inBarrel (
        [(.mPtRecoOverGen_B_50_80_Cent_0_10, .x response)]) ++
      onlyIf inEndcap (
        [(.mPtRecoOverGen_E_50_80_Cent_0_10, .x response)]) ++
      onlyIf inForward (
        [(.mPtRecoOverGen_F_50_80_Cent_0_10, .x response)])) ++
    onlyIf ismidCentral (
      [(.mPtRecoOverGen_GenEta_50_80_Cent_10_30, .xy geneta response)] ++
      onlyIf inBarrel (
        [(.mPtRecoOverGen_B_50_80_Cent_10_30, .x response)]) ++
      onlyIf inEndcap (
        [(.mPtRecoOverGen_E_50_80_Cent_10_30, .x response)]) ++
      onlyIf inForward (
        [(.mPtRecoOverGen_F_50_80_Cent_10_30, .x response)])) ++
    onlyIf ismidPeripheral (
      [(.mPtRecoOverGen_GenEta_50_80_Cent_30_50, .xy geneta response)] ++
      onlyIf inBarrel (
        [(.mPtRecoOverGen_B_50_80_Cent_30_50, .x response)]) ++
      onlyIf inEndcap (
        [(.mPtRecoOverGen_E_50_80_Cent_30_50, .x response)]) ++
      onlyIf inForward (
        [(.mPtRecoOverGen_F_50_80_Cent_30_50, .x response)])) ++
    onlyIf isPeripheral (
      [(.mPtRecoOverGen_GenEta_50_80_Cent_50_80, .xy geneta response)] ++
      onlyIf inBarrel (
        [(.mPtRecoOverGen_B_50_80_Cent_50_80, .x response)]) ++
      onlyIf inEndcap (
        [(.mPtRecoOverGen_E_50_80_Cent_50_80, .x response)]) ++
      onlyIf inForward (
        [(.mPtRecoOverGen_F_50_80_Cent_50_80, .x response)]))) ++
  onlyIf (ptIn_80_120 genpt) (
    onlyIf isCentral (
      [(.mPtRecoOverGen_GenEta_80_120_Cent_0_10, .xy geneta response)] ++
      onlyIf inBarrel (
        [(.mPtRecoOverGen_B_80_120_Cent_0_10, .x response)]) ++
      onlyIf inEndcap (
        [(.mPtRecoOverGen_E_80_120_Cent_0_10, .x response)]) ++
      onlyIf inForward (
        [(.mPtRecoOverGen_F_80_120_Cent_0_10, .x response)])) ++
    onlyIf ismidCentral (
      [(.mPtRecoOverGen_GenEta_80_120_Cent_10_30, .xy geneta response)] ++
      onlyIf inBarrel (
        [(.mPtRecoOverGen_B_80_120_Cent_10_30, .x response)]) ++
      onlyIf inEndcap (
        [(.mPtRecoOverGen_E_80_120_Cent_10_30, .x response)]) ++
      onlyIf inForward (
        [(.mPtRecoOverGen_F_80_120_Cent_10_30, .x response)])) ++
    onlyIf ismidPeripheral (
      [(.mPtRecoOverGen_GenEta_80_120_Cent_30_50, .xy geneta response)] ++
      onlyIf inBarrel (
        [(.mPtRecoOverGen_B_80_120_Cent_30_50, .x response)]) ++
      onlyIf inEndcap (
        [(.mPtRecoOverGen_E_80_120_Cent_30_50, .x response)]) ++
      onlyIf inForward (
        [(.mPtRecoOverGen_F_80_120_Cent_30_50, .x response)])) ++
    onlyIf isPeripheral (
      [(.mPtRecoOverGen_GenEta_80_120_Cent_50_80, .xy geneta response)] ++
      onlyIf inBarrel (
        [(.mPtRecoOverGen_B_80_120_Cent_50_80, .x response)]) ++
      onlyIf inEndcap (
        [(.mPtRecoOverGen_E_80_120_Cent_50_80, .x response)]) ++
      onlyIf inForward (
        [(.mPtRecoOverGen_F_80_120_Cent_50_80, .x response)]))) ++
  onlyIf (ptIn_120_180 genpt) (
    onlyIf isCentral (
      [(.mPtRecoOverGen_GenEta_120_180_Cent_0_10, .xy geneta response)] ++
      onlyIf inBarrel (
        [(.mPtRecoOverGen_B_120_180_Cent_0_10, .x response)]) ++
      onlyIf inEndcap (
        [(.mPtRecoOverGen_E_120_180_Cent_0_10, .x response)]) ++
      onlyIf inForward (
        [(.mPtRecoOverGen_F_120_180_Cent_0_10, .x response)])) ++
    onlyIf ismidCentral (
      [(.mPtRecoOverGen_GenEta_120_180_Cent_10_30, .xy geneta response)] ++
      onlyIf inBarrel (
        [(.mPtRecoOverGen_B_120_180_Cent_10_30, .x response)]) ++
      onlyIf inEndcap (
        [(.mPtRecoOverGen_E_120_180_Cent_10_30, .x response)]) ++
      onlyIf inForward (
        [(.mPtRecoOverGen_F_120_180_Cent_10_30, .x response)])) ++
    onlyIf ismidPeripheral (
      [(.mPtRecoOverGen_GenEta_120_180_Cent_30_50, .xy geneta response)] ++
      onlyIf inBarrel (
        [(.mPtRecoOverGen_B_120_180_Cent_30_50, .x response)]) ++
      onlyIf inEndcap (
        [(.mPtRecoOverGen_E_120_180_Cent_30_50, .x response)]) ++
      onlyIf inForward (
        [(.mPtRecoOverGen_F_120_180_Cent_30_50, .x response)])) ++
    onlyIf isPeripheral (
      [(.mPtRecoOverGen_GenEta_120_180_Cent_50_80, .xy geneta response)] ++
      onlyIf inBarrel (
        [(.mPtRecoOverGen_B_120_180_Cent_50_80, .x response)]) ++
      onlyIf inEndcap (
        [(.mPtRecoOverGen_E_120_180_Cent_50_80, .x response)]) ++
      onlyIf inForward (
        [(.mPtRecoOverGen_F_120_180_Cent_50_80, .x response)]))) ++
  onlyIf (ptIn_180_300 genpt) (
    onlyIf isCentral (
      [(.mPtRecoOverGen_GenEta_180_300_Cent_0_10, .xy geneta response)] ++
      onlyIf inBarrel (
        [(.mPtRecoOverGen_B_180_300_Cent_0_10, .x response)]) ++
      onlyIf inEndcap (
        [(.mPtRecoOverGen_E_180_300_Cent_0_10, .x response)]) ++
      onlyIf inForward (
        [(.mPtRecoOverGen_F_180_300_Cent_0_10, .x response)])) ++
    onlyIf ismidCentral (
      [(.mPtRecoOverGen_GenEta_180_300_Cent_10_30, .xy geneta response)] ++
      onlyIf inBarrel (
        [(.mPtRecoOverGen_B_180_300_Cent_10_30, .x response)]) ++
      onlyIf inEndcap (
        [(.mPtRecoOverGen_E_180_300_Cent_10_30, .x response)]) ++
      onlyIf inForward (
        [(.mPtRecoOverGen_F_180_300_Cent_10_30, .x response)])) ++
    onlyIf ismidPeripheral (
      [(.mPtRecoOverGen_GenEta_180_300_Cent_30_50, .xy geneta response)] ++
      onlyIf inBarrel (
        [(.mPtRecoOverGen_B_180_300_Cent_30_50, .x response)]) ++
      onlyIf inEndcap (
        [(.mPtRecoOverGen_E_180_300_Cent_30_50, .x response)]) ++
      onlyIf inForward (
        [(.mPtRecoOverGen_F_180_300_Cent_30_50, .x response)])) ++
    onlyIf isPeripheral (
      [(.mPtRecoOverGen_GenEta_180_300_Cent_50_80, .xy geneta response)] ++
      onlyIf inBarrel (
        [(.mPtRecoOverGen_B_180_300_Cent_50_80, .x response)]) ++
      onlyIf inEndcap (
        [(.mPtRecoOverGen_E_180_300_Cent_50_80, .x response)]) ++
      onlyIf inForward (
        [(.mPtRecoOverGen_F_180_300_Cent_50_80, .x response)]))) ++
  onlyIf (ptIn_300_Inf genpt) (
    onlyIf isCentral (
      [(.mPtRecoOverGen_GenEta_300_Inf_Cent_0_10, .xy geneta response)] ++
      onlyIf inBarrel (
        [(.mPtRecoOverGen_B_300_Inf_Cent_0_10, .x response)]) ++
      onlyIf inEndcap (
        [(.mPtRecoOverGen_E_300_Inf_Cent_0_10, .x response)]) ++
      onlyIf inForward (
        [(.mPtRecoOverGen_F_300_Inf_Cent_0_10, .x response)])) ++
    onlyIf ismidCentral (
      [(.mPtRecoOverGen_GenEta_300_Inf_Cent_10_30, .xy geneta response)] ++
      onlyIf inBarrel (
        [(.mPtRecoOverGen_B_300_Inf_Cent_10_30, .x response)]) ++
      onlyIf inEndcap (
        [(.mPtRecoOverGen_E_300_Inf_Cent_10_30, .x response)]) ++
      onlyIf inForward (
        [(.mPtRecoOverGen_F_300_Inf_Cent_10_30, .x response)])) ++
    onlyIf ismidPeripheral (
      [(.mPtRecoOverGen_GenEta_300_Inf_Cent_30_50, .xy geneta response)] ++
      onlyIf inBarrel (
        [(.mPtRecoOverGen_B_300_Inf_Cent_30_50, .x response)]) ++
      onlyIf inEndcap (
        [(.mPtRecoOverGen_E_300_Inf_Cent_30_50, .x response)]) ++
      onlyIf inForward (
        [(.mPtRecoOverGen_F_300_Inf_Cent_30_50, .x response)])) ++
    onlyIf isPeripheral (
      [(.mPtRecoOverGen_GenEta_300_Inf_Cent_50_80, .xy geneta response)] ++
      onlyIf inBarrel (
        [(.mPtRecoOverGen_B_300_Inf_Cent_50_80, .x response)]) ++
      onlyIf inEndcap (
        [(.mPtRecoOverGen_E_300_Inf_Cent_50_80, .x response)]) ++
      onlyIf inForward (
        [(.mPtRecoOverGen_F_300_Inf_Cent_50_80, .x response)])))

/-- The body of the generator-jet loop (lines 1410-1752) for one `gjet`;
`continue` leaves the histograms as they are. -/
def analyzeGenJet (deltaR : ℚ → ℚ → ℚ → ℚ → ℚ) (cfg : Config) (hibin : Int)
    (recoJets : List Jet) (h : Hists) (gjet : Jet) : Except AnalyzeError Hists :=
  if |gjet.eta| > 6 then Except.ok h
  else if gjet.pt < cfg.mMatchGenPtThreshold then Except.ok h
  else if recoJets.length ≤ 0 then Except.ok h
  else
    let m := matchLoop deltaR gjet recoJets
    if m.iMatch < 0 then Except.ok h
    else if m.deltaRBest < cfg.mRThreshold then
      let genpt := gjet.pt
      let geneta := gjet.eta
      let response := m.JetPtBest / genpt
      runFills
        (responseFills (inBarrel cfg gjet.eta) (inEndcap cfg gjet.eta) (inForward cfg gjet.eta)
          (isCentral hibin) (ismidCentral hibin) (ismidPeripheral hibin) (isPeripheral hibin)
          genpt geneta response) h
    else Except.ok h

/-- The generator-jet loop (line 1409) over `genJets`. -/
def analyzeGenJets (deltaR : ℚ → ℚ → ℚ → ℚ → ℚ) (cfg : Config) (hibin : Int)
    (recoJets : List Jet) : List Jet → Hists → Except AnalyzeError Hists
  | [], h => Except.ok h
  | gjet :: rest, h =>
    match analyzeGenJet deltaR cfg hibin recoJets h gjet with
    | Except.error e => Except.error e
    | Except.ok h1 => analyzeGenJets deltaR cfg hibin recoJets rest h1

/-! ## The grid of the specification -/

/-- Pseudorapidity regions of the grid. -/
inductive Region where
  | Barrel
  | Endcap
  | Forward
deriving DecidableEq, Repr

/-- Generator-pT ranges of the grid. -/
inductive PtRange where
  | pt_20_30
  | pt_30_50
  | pt_50_80
  | pt_80_120
  | pt_120_180
  | pt_180_300
  | pt_300_Inf
deriving DecidableEq, Repr

/-- Centrality ranges of the grid. -/
inductive Centrality where
  | cent_0_10
  | cent_10_30
  | cent_30_50
  | cent_50_80
deriving DecidableEq, Repr

/-- The member named after the discrete cell (region, ptRange, centrality). -/
def discField : Region → PtRange → Centrality → Field
  | .Barrel, .pt_20_30, .cent_0_10 => .mPtRecoOverGen_B_20_30_Cent_0_10
  | .Barrel, .pt_20_30, .cent_10_30 => .mPtRecoOverGen_B_20_30_Cent_10_30
  | .Barrel, .pt_20_30, .cent_30_50 => .mPtRecoOverGen_B_20_30_Cent_30_50
  | .Barrel, .pt_20_30, .cent_50_80 => .mPtRecoOverGen_B_20_30_Cent_50_80
  | .Barrel, .pt_30_50, .cent_0_10 => .mPtRecoOverGen_B_30_50_Cent_0_10
  | .Barrel, .pt_30_50, .cent_10_30 => .mPtRecoOverGen_B_30_50_Cent_10_30
  | .Barrel, .pt_30_50, .cent_30_50 => .mPtRecoOverGen_B_30_50_Cent_30_50
  | .Barrel, .pt_30_50, .cent_50_80 => .mPtRecoOverGen_B_30_50_Cent_50_80
  | .Barrel, .pt_50_80, .cent_0_10 => .mPtRecoOverGen_B_50_80_Cent_0_10
  | .Barrel, .pt_50_80, .cent_10_30 => .mPtRecoOverGen_B_50_80_Cent_10_30
  | .Barrel, .pt_50_80, .cent_30_50 => .mPtRecoOverGen_B_50_80_Cent_30_50
  | .Barrel, .pt_50_80, .cent_50_80 => .mPtRecoOverGen_B_50_80_Cent_50_80
  | .Barrel, .pt_80_120, .cent_0_10 => .mPtRecoOverGen_B_80_120_Cent_0_10
  | .Barrel, .pt_80_120, .cent_10_30 => .mPtRecoOverGen_B_80_120_Cent_10_30
  | .Barrel, .pt_80_120, .cent_30_50 => .mPtRecoOverGen_B_80_120_Cent_30_50
  | .Barrel, .pt_80_120, .cent_50_80 => .mPtRecoOverGen_B_80_120_Cent_50_80
  | .Barrel, .pt_120_180, .cent_0_10 => .mPtRecoOverGen_B_120_180_Cent_0_10
  | .Barrel, .pt_120_180, .cent_10_30 => .mPtRecoOverGen_B_120_180_Cent_10_30
  | .Barrel, .pt_120_180, .cent_30_50 => .mPtRecoOverGen_B_120_180_Cent_30_50
  | .Barrel, .pt_120_180, .cent_50_80 => .mPtRecoOverGen_B_120_180_Cent_50_80
  | .Barrel, .pt_180_300, .cent_0_10 => .mPtRecoOverGen_B_180_300_Cent_0_10
  | .Barrel, .pt_180_300, .cent_10_30 => .mPtRecoOverGen_B_180_300_Cent_10_30
  | .Barrel, .pt_180_300, .cent_30_50 => .mPtRecoOverGen_B_180_300_Cent_30_50
  | .Barrel, .pt_180_300, .cent_50_80 => .mPtRecoOverGen_B_180_300_Cent_50_80
  | .Barrel, .pt_300_Inf, .cent_0_10 => .mPtRecoOverGen_B_300_Inf_Cent_0_10
  | .Barrel, .pt_300_Inf, .cent_10_30 => .mPtRecoOverGen_B_300_Inf_Cent_10_30
  | .Barrel, .pt_300_Inf, .cent_30_50 => .mPtRecoOverGen_B_300_Inf_Cent_30_50
  | .Barrel, .pt_300_Inf, .cent_50_80 => .mPtRecoOverGen_B_300_Inf_Cent_50_80
  | .Endcap, .pt_20_30, .cent_0_10 => .mPtRecoOverGen_E_20_30_Cent_0_10
  | .Endcap, .pt_20_30, .cent_10_30 => .mPtRecoOverGen_E_20_30_Cent_10_30
  | .Endcap, .pt_20_30, .cent_30_50 => .mPtRecoOverGen_E_20_30_Cent_30_50
  | .Endcap, .pt_20_30, .cent_50_80 => .mPtRecoOverGen_E_20_30_Cent_50_80
  | .Endcap, .pt_30_50, .cent_0_10 => .mPtRecoOverGen_E_30_50_Cent_0_10
  | .Endcap, .pt_30_50, .cent_10_30 => .mPtRecoOverGen_E_30_50_Cent_10_30
  | .Endcap, .pt_30_50, .cent_30_50 => .mPtRecoOverGen_E_30_50_Cent_30_50
  | .Endcap, .pt_30_50, .cent_50_80 => .mPtRecoOverGen_E_30_50_Cent_50_80
  | .Endcap, .pt_50_80, .cent_0_10 => .mPtRecoOverGen_E_50_80_Cent_0_10
  | .Endcap, .pt_50_80, .cent_10_30 => .mPtRecoOverGen_E_50_80_Cent_10_30
  | .Endcap, .pt_50_80, .cent_30_50 => .mPtRecoOverGen_E_50_80_Cent_30_50
  | .Endcap, .pt_50_80, .cent_50_80 => .mPtRecoOverGen_E_50_80_Cent_50_80
  | .Endcap, .pt_80_120, .cent_0_10 => .mPtRecoOverGen_E_80_120_Cent_0_10
  | .Endcap, .pt_80_120, .cent_10_30 => .mPtRecoOverGen_E_80_120_Cent_10_30
  | .Endcap, .pt_80_120, .cent_30_50 => .mPtRecoOverGen_E_80_120_Cent_30_50
  | .Endcap, .pt_80_120, .cent_50_80 => .mPtRecoOverGen_E_80_120_Cent_50_80
  | .Endcap, .pt_120_180, .cent_0_10 => .mPtRecoOverGen_E_120_180_Cent_0_10
  | .Endcap, .pt_120_180, .cent_10_30 => .mPtRecoOverGen_E_120_180_Cent_10_30
  | .Endcap, .pt_120_180, .cent_30_50 => .mPtRecoOverGen_E_120_180_Cent_30_50
  | .Endcap, .pt_120_180, .cent_50_80 => .mPtRecoOverGen_E_120_180_Cent_50_80
  | .Endcap, .pt_180_300, .cent_0_10 => .mPtRecoOverGen_E_180_300_Cent_0_10
  | .Endcap, .pt_180_300, .cent_10_30 => .mPtRecoOverGen_E_180_300_Cent_10_30
  | .Endcap, .pt_180_300, .cent_30_50 => .mPtRecoOverGen_E_180_300_Cent_30_50
  | .Endcap, .pt_180_300, .cent_50_80 => .mPtRecoOverGen_E_180_300_Cent_50_80
  | .Endcap, .pt_300_Inf, .cent_0_10 => .mPtRecoOverGen_E_300_Inf_Cent_0_10
  | .Endcap, .pt_300_Inf, .cent_10_30 => .mPtRecoOverGen_E_300_Inf_Cent_10_30
  | .Endcap, .pt_300_Inf, .cent_30_50 => .mPtRecoOverGen_E_300_Inf_Cent_30_50
  | .Endcap, .pt_300_Inf, .cent_50_80 => .mPtRecoOverGen_E_300_Inf_Cent_50_80
  | .Forward, .pt_20_30, .cent_0_10 => .mPtRecoOverGen_F_20_30_Cent_0_10
  | .Forward, .pt_20_30, .cent_10_30 => .mPtRecoOverGen_F_20_30_Cent_10_30
  | .Forward, .pt_20_30, .cent_30_50 => .mPtRecoOverGen_F_20_30_Cent_30_50
  | .Forward, .pt_20_30, .cent_50_80 => .mPtRecoOverGen_F_20_30_Cent_50_80
  | .Forward, .pt_30_50, .cent_0_10 => .mPtRecoOverGen_F_30_50_Cent_0_10
  | .Forward, .pt_30_50, .cent_10_30 => .mPtRecoOverGen_F_30_50_Cent_10_30
  | .Forward, .pt_30_50, .cent_30_50 => .mPtRecoOverGen_F_30_50_Cent_30_50
  | .Forward, .pt_30_50, .cent_50_80 => .mPtRecoOverGen_F_30_50_Cent_50_80
  | .Forward, .pt_50_80, .cent_0_10 => .mPtRecoOverGen_F_50_80_Cent_0_10
  | .Forward, .pt_50_80, .cent_10_30 => .mPtRecoOverGen_F_50_80_Cent_10_30
  | .Forward, .pt_50_80, .cent_30_50 => .mPtRecoOverGen_F_50_80_Cent_30_50
  | .Forward, .pt_50_80, .cent_50_80 => .mPtRecoOverGen_F_50_80_Cent_50_80
  | .Forward, .pt_80_120, .cent_0_10 => .mPtRecoOverGen_F_80_120_Cent_0_10
  | .Forward, .pt_80_120, .cent_10_30 => .mPtRecoOverGen_F_80_120_Cent_10_30
  | .Forward, .pt_80_120, .cent_30_50 => .mPtRecoOverGen_F_80_120_Cent_30_50
  | .Forward, .pt_80_120, .cent_50_80 => .mPtRecoOverGen_F_80_120_Cent_50_80
  | .Forward, .pt_120_180, .cent_0_10 => .mPtRecoOverGen_F_120_180_Cent_0_10
  | .Forward, .pt_120_180, .cent_10_30 => .mPtRecoOverGen_F_120_180_Cent_10_30
  | .Forward, .pt_120_180, .cent_30_50 => .mPtRecoOverGen_F_120_180_Cent_30_50
  | .Forward, .pt_120_180, .cent_50_80 => .mPtRecoOverGen_F_120_180_Cent_50_80
  | .Forward, .pt_180_300, .cent_0_10 => .mPtRecoOverGen_F_180_300_Cent_0_10
  | .Forward, .pt_180_300, .cent_10_30 => .mPtRecoOverGen_F_180_300_Cent_10_30
  | .Forward, .pt_180_300, .cent_30_50 => .mPtRecoOverGen_F_180_300_Cent_30_50
  | .Forward, .pt_180_300, .cent_50_80 => .mPtRecoOverGen_F_180_300_Cent_50_80
  | .Forward, .pt_300_Inf, .cent_0_10 => .mPtRecoOverGen_F_300_Inf_Cent_0_10
  | .Forward, .pt_300_Inf, .cent_10_30 => .mPtRecoOverGen_F_300_Inf_Cent_10_30
  | .Forward, .pt_300_Inf, .cent_30_50 => .mPtRecoOverGen_F_300_Inf_Cent_30_50
  | .Forward, .pt_300_Inf, .cent_50_80 => .mPtRecoOverGen_F_300_Inf_Cent_50_80

/-- The member named after the pT-profile cell (region, centrality). -/
def genPtField : Region → Centrality → Field
  | .Barrel, .cent_0_10 => .mPtRecoOverGen_GenPt_B_Cent_0_10
  | .Barrel, .cent_10_30 => .mPtRecoOverGen_GenPt_B_Cent_10_30
  | .Barrel, .cent_30_50 => .mPtRecoOverGen_GenPt_B_Cent_30_50
  | .Barrel, .cent_50_80 => .mPtRecoOverGen_GenPt_B_Cent_50_80
  | .Endcap, .cent_0_10 => .mPtRecoOverGen_GenPt_E_Cent_0_10
  | .Endcap, .cent_10_30 => .mPtRecoOverGen_GenPt_E_Cent_10_30
  | .Endcap, .cent_30_50 => .mPtRecoOverGen_GenPt_E_Cent_30_50
  | .Endcap, .cent_50_80 => .mPtRecoOverGen_GenPt_E_Cent_50_80
  | .Forward, .cent_0_10 => .mPtRecoOverGen_GenPt_F_Cent_0_10
  | .Forward, .cent_10_30 => .mPtRecoOverGen_GenPt_F_Cent_10_30
  | .Forward, .cent_30_50 => .mPtRecoOverGen_GenPt_F_Cent_30_50
  | .Forward, .cent_50_80 => .mPtRecoOverGen_GenPt_F_Cent_50_80

/-- The member named after the eta-profile cell (ptRange, centrality). -/
def genEtaField : PtRange → Centrality → Field
  | .pt_20_30, .cent_0_10 => .mPtRecoOverGen_GenEta_20_30_Cent_0_10
  | .pt_20_30, .cent_10_30 => .mPtRecoOverGen_GenEta_20_30_Cent_10_30
  | .pt_20_30, .cent_30_50 => .mPtRecoOverGen_GenEta_20_30_Cent_30_50
  | .pt_20_30, .cent_50_80 => .mPtRecoOverGen_GenEta_20_30_Cent_50_80
  | .pt_30_50, .cent_0_10 => .mPtRecoOverGen_GenEta_30_50_Cent_0_10
  | .pt_30_50, .cent_10_30 => .mPtRecoOverGen_GenEta_30_50_Cent_10_30
  | .pt_30_50, .cent_30_50 => .mPtRecoOverGen_GenEta_30_50_Cent_30_50
  | .pt_30_50, .cent_50_80 => .mPtRecoOverGen_GenEta_30_50_Cent_50_80
  | .pt_50_80, .cent_0_10 => .mPtRecoOverGen_GenEta_50_80_Cent_0_10
  | .pt_50_80, .cent_10_30 => .mPtRecoOverGen_GenEta_50_80_Cent_10_30
  | .pt_50_80, .cent_30_50 => .mPtRecoOverGen_GenEta_50_80_Cent_30_50
  | .pt_50_80, .cent_50_80 => .mPtRecoOverGen_GenEta_50_80_Cent_50_80
  | .pt_80_120, .cent_0_10 => .mPtRecoOverGen_GenEta_80_120_Cent_0_10
  | .pt_80_120, .cent_10_30 => .mPtRecoOverGen_GenEta_80_120_Cent_10_30
  | .pt_80_120, .cent_30_50 => .mPtRecoOverGen_GenEta_80_120_Cent_30_50
  | .pt_80_120, .cent_50_80 => .mPtRecoOverGen_GenEta_80_120_Cent_50_80
  | .pt_120_180, .cent_0_10 => .mPtRecoOverGen_GenEta_120_180_Cent_0_10
  | .pt_120_180, .cent_10_30 => .mPtRecoOverGen_GenEta_120_180_Cent_10_30
  | .pt_120_180, .cent_30_50 => .mPtRecoOverGen_GenEta_120_180_Cent_30_50
  | .pt_120_180, .cent_50_80 => .mPtRecoOverGen_GenEta_120_180_Cent_50_80
  | .pt_180_300, .cent_0_10 => .mPtRecoOverGen_GenEta_180_300_Cent_0_10
  | .pt_180_300, .cent_10_30 => .mPtRecoOverGen_GenEta_180_300_Cent_10_30
  | .pt_180_300, .cent_30_50 => .mPtRecoOverGen_GenEta_180_300_Cent_30_50
  | .pt_180_300, .cent_50_80 => .mPtRecoOverGen_GenEta_180_300_Cent_50_80
  | .pt_300_Inf, .cent_0_10 => .mPtRecoOverGen_GenEta_300_Inf_Cent_0_10
  | .pt_300_Inf, .cent_10_30 => .mPtRecoOverGen_GenEta_300_Inf_Cent_10_30
  | .pt_300_Inf, .cent_30_50 => .mPtRecoOverGen_GenEta_300_Inf_Cent_30_50
  | .pt_300_Inf, .cent_50_80 => .mPtRecoOverGen_GenEta_300_Inf_Cent_50_80

/-- Region classification of the specification: the region whose flag, and no other,
`analyze` sets for this eta; `none` when no flag or more than one is set. -/
def regionOf (cfg : Config) (eta : ℚ) : Option Region :=
  match inBarrel cfg eta, inEndcap cfg eta, inForward cfg eta with
  | true, false, false => some Region.Barrel
  | false, true, false => some Region.Endcap
  | false, false, true => some Region.Forward
  | _, _, _ => none

/-- Centrality classification of the specification: the range whose flag, and no other,
`analyze` sets for this `hibin`; `none` when no flag or more than one is set. -/
def centralityOf (hibin : Int) : Option Centrality :=
  match isCentral hibin, ismidCentral hibin, ismidPeripheral hibin, isPeripheral hibin with
  | true, false, false, false => some Centrality.cent_0_10
  | false, true, false, false => some Centrality.cent_10_30
  | false, false, true, false => some Centrality.cent_30_50
  | false, false, false, true => some Centrality.cent_50_80
  | _, _, _, _ => none

/-- The pT-range conditions that hold for the range `p` alone, in the order of `ptConditions`. -/
def ptRangeFlags : PtRange → List Bool
  | PtRange.pt_20_30 => [true, false, false, false, false, false, false]
  | PtRange.pt_30_50 => [false, true, false, false, false, false, false]
  | PtRange.pt_50_80 => [false, false, true, false, false, false, false]
  | PtRange.pt_80_120 => [false, false, false, true, false, false, false]
  | PtRange.pt_120_180 => [false, false, false, false, true, false, false]
  | PtRange.pt_180_300 => [false, false, false, false, false, true, false]
  | PtRange.pt_300_Inf => [false, false, false, false, false, false, true]

/-- The pT ranges, in the order of `ptConditions`. -/
def allPtRanges : List PtRange :=
  [PtRange.pt_20_30, PtRange.pt_30_50, PtRange.pt_50_80, PtRange.pt_80_120,
   PtRange.pt_120_180, PtRange.pt_180_300, PtRange.pt_300_Inf]

/-- pT-range classification of the specification: the range whose condition, and no other,
holds for `genpt`; `none` when no condition or more than one holds. -/
def ptRangeOf (genpt : ℚ) : Option PtRange :=
  allPtRanges.find? (fun p => decide (ptConditions genpt = ptRangeFlags p))

/-- A value of the members as `analyze` can find it: the same members are null as after
the constructor and `bookHistograms` (a `Fill` call never changes which ones are). -/
def Booked (h : Hists) : Prop :=
  ∀ f : Field, (h f).isSome = (bookHistograms f).isSome

/-- The `Fill` calls the specification describes for a jet classified as
(region `r`, centrality `c`) and pT range `p` or no pT range. -/
def cellFills (r : Region) (c : Centrality) (p : Option PtRange)
    (genpt geneta response : ℚ) : List (Field × FillArgs) :=
  (genPtField r c, FillArgs.log10xy genpt response) ::
    (match p with
     | none => []
     | some p => [(genEtaField p c, FillArgs.xy geneta response),
                  (discField r p c, FillArgs.x response)])

/-! ## Path conditions of the generator-jet loop -/

/-- The three `continue` tests of lines 1411-1413, in source order: `true` when none of
them fires and the generator jet goes on to the matching loop. -/
def consideredForMatching (cfg : Config) (recoJets : List Jet) (gjet : Jet) : Bool :=
  !(decide (|gjet.eta| > 6)) && !(decide (gjet.pt < cfg.mMatchGenPtThreshold)) &&
    !(decide (recoJets.length ≤ 0))

/-- Path condition of line 1445, `double response = JetPtBest / genpt;`: the jet passed
the three `continue` tests, the test `iMatch<0` of line 1439 did not fire and
`deltaRBest < mRThreshold` holds. -/
def responseComputed (deltaR : ℚ → ℚ → ℚ → ℚ → ℚ) (cfg : Config) (recoJets : List Jet)
    (gjet : Jet) : Bool :=
  consideredForMatching cfg recoJets gjet &&
    !(decide ((matchLoop deltaR gjet recoJets).iMatch < 0)) &&
    decide ((matchLoop deltaR gjet recoJets).deltaRBest < cfg.mRThreshold)

/-- The `Fill` calls `analyze` performs for one generator jet: those of the response
block when line 1445 is reached, none otherwise. -/
def fillsOf (deltaR : ℚ → ℚ → ℚ → ℚ → ℚ) (cfg : Config) (hibin : Int)
    (recoJets : List Jet) (gjet : Jet) : List (Field × FillArgs) :=
  if responseComputed deltaR cfg recoJets gjet then
    responseFills (inBarrel cfg gjet.eta) (inEndcap cfg gjet.eta) (inForward cfg gjet.eta)
      (isCentral hibin) (ismidCentral hibin) (ismidPeripheral hibin) (isPeripheral hibin)
      gjet.pt gjet.eta ((matchLoop deltaR gjet recoJets).JetPtBest / gjet.pt)
  else []

/-- The response value passed in a `Fill` call. -/
def FillArgs.response : FillArgs → ℚ
  | FillArgs.x response => response
  | FillArgs.log10xy _ response => response
  | FillArgs.xy _ response => response

/-- The arguments of the calls of `calls` that go to the member `f`, in call order. -/
def entriesFor (f : Field) (calls : List (Field × FillArgs)) : List FillArgs :=
  (calls.filter (fun call => decide (call.1 = f))).map Prod.snd

/-- Two values of one member hold the same entries up to their order. -/
def sameCell : Option (List FillArgs) → Option (List FillArgs) → Prop
  | none, none => True
  | some es1, some es2 => List.Perm es1 es2
  | _, _ => False

/-- Two runs end alike: both on a null pointer, or both normally with every member
holding the same entries up to their order. -/
def sameOutcome : Except AnalyzeError Hists → Except AnalyzeError Hists → Prop
  | Except.ok h1, Except.ok h2 => ∀ f : Field, sameCell (h1 f) (h2 f)
  | Except.error _, Except.error _ => True
  | _, _ => False

/-- A configuration with `matchGenPtThreshold` = 0, otherwise as `exampleConfig`. -/
def zeroThresholdConfig : Config :=
  { mMatchGenPtThreshold := 0, mRThreshold := 3 / 10, BarrelEta := 2, EndcapEta := 3,
    ForwardEta := 5 }

/-- The body of the generator-jet loop run for a first jet and then, on the members it
leaves, for a second one; each jet comes with the `hibin` and the reconstructed jets of
its event. -/
def analyzeTwo (deltaR : ℚ → ℚ → ℚ → ℚ → ℚ) (cfg : Config)
    (hibin1 : Int) (recoJets1 : List Jet) (gjet1 : Jet)
    (hibin2 : Int) (recoJets2 : List Jet) (gjet2 : Jet) (h : Hists) :
    Except AnalyzeError Hists :=
  match analyzeGenJet deltaR cfg hibin1 recoJets1 h gjet1 with
  | Except.error e => Except.error e
  | Except.ok h1 => analyzeGenJet deltaR cfg hibin2 recoJets2 h1 gjet2

/-! ## The event: handles, early returns and the reconstructed-jet histograms

`analyze` from the centrality handle (line 893) to its end. Two parts are not embedded
here and are taken to run to their end: the vertex part before it (lines 837-868) and the
candidate section of lines 924-1324, which reads the candidate, tower and background
collections, fills other members and contains no `return`. -/

/-- Collections that `analyze` reads through an `edm::Handle`. -/
inductive Collection where
  | cent
  | cbin
  | caloJets
  | jptJets
  | basicJets
  | pfJets
  | genJets
deriving DecidableEq, Repr

/-- A reconstructed jet (`reco::Jet`) with the attributes that `analyze` fills. -/
structure RecoJet extends Jet where
  pileup : ℚ
  jetArea : ℚ
  energy : ℚ
  p : ℚ
  mass : ℚ
  nConstituents : Int
deriving DecidableEq, Repr

/-- What one event gives for each `getByToken`: `none` is a handle that is not valid.
`cent` is `EtHFtowerSum()` of the centrality product, `ptHat` is `binningValues()[0]`
when `myGenEvt` is valid and has binning values. -/
structure Event where
  isRealData : Bool
  cent : Option ℚ
  cbin : Option Int
  caloJets : Option (List RecoJet)
  jptJets : Option (List RecoJet)
  basicJets : Option (List RecoJet)
  pfJets : Option (List RecoJet)
  ptHat : Option ℚ
  genJets : Option (List Jet)

/-- Module parameters read by this part of `analyze`, next to those of `Config`. -/
structure JetConfig where
  JetType : String
  UEAlgo : String
  mRecoJetPtThreshold : ℚ
  mInputGenCollection_label : String

/-- Constructor line 30: `isCaloJet = (std::string("calo")==JetType)`. -/
def isCaloJet (jc : JetConfig) : Bool := decide ("calo" = jc.JetType)

/-- Constructor line 31: `isJPTJet = (std::string("jpt") ==JetType)`. -/
def isJPTJet (jc : JetConfig) : Bool := decide ("jpt" = jc.JetType)

/-- Constructor line 32: `isPFJet = (std::string("pf")  ==JetType)`. -/
def isPFJet (jc : JetConfig) : Bool := decide ("pf" = jc.JetType)

/-- The event, reconstructed-jet and generator-jet members filled by this part of
`analyze`. -/
inductive EventField where
  | mHF
  | mNJets
  | mEta
  | mjetpileup
  | mJetArea
  | mPhi
  | mEnergy
  | mP
  | mPt
  | mMass
  | mConstituents
  | mNJets_40
  | mPtHat
  | mGenEta
  | mGenPhi
  | mGenPt
deriving DecidableEq, Repr

/-- Value of these members: `none` is a null pointer, `some xs` a booked histogram with
the values it has received. -/
abbrev EventHists := EventField → Option (List ℚ)

/-- These members after the constructor (lines 238-261, all set to 0) and
`bookHistograms` (lines 631-648): `mPtHat`, `mGenEta`, `mGenPhi` and `mGenPt` are never
booked, the others are booked once. -/
def bookedEventHists : EventHists
  | EventField.mPtHat => none
  | EventField.mGenEta => none
  | EventField.mGenPhi => none
  | EventField.mGenPt => none
  | _ => some []

/-- All the members of the embedding. -/
structure AnalyzerState where
  event : EventHists
  response : Hists

/-- Failure of a run of `analyze` on an event. -/
inductive EventError where
  /-- A read through a handle that is not valid: `edm::Handle` does not return from it. -/
  | invalidHandle (c : Collection)
  /-- A `->Fill` through an event member that holds the null pointer. -/
  | nullMember (f : EventField)
  /-- A failure inside the generator-jet loop. -/
  | response (e : AnalyzeError)
deriving DecidableEq, Repr

/-- A read `handle->...` or `*handle`. -/
def derefHandle {α : Type} (c : Collection) : Option α → Except EventError α
  | none => Except.error (EventError.invalidHandle c)
  | some product => Except.ok product

/-- The call `f->Fill(x)` without a test of `f`. -/
def FillEvent (eh : EventHists) (f : EventField) (x : ℚ) : Except EventError EventHists :=
  match eh f with
  | none => Except.error (EventError.nullMember f)
  | some xs => Except.ok (Function.update eh f (some (xs ++ [x])))

/-- The statement `if (f) f->Fill(x);`. -/
def FillEventIf (eh : EventHists) (f : EventField) (x : ℚ) : EventHists :=
  match eh f with
  | none => eh
  | some xs => Function.update eh f (some (xs ++ [x]))

/-- Lines 1326-1343: the jets of the collection selected by `JetType` and `UEAlgo` are
pushed onto `recoJets`, read through the handle without a test of its validity. -/
def collectRecoJets (jc : JetConfig) (ev : Event) : Except EventError (List RecoJet) :=
  (if isCaloJet jc then derefHandle Collection.caloJets ev.caloJets
   else Except.ok []).bind fun fromCalo =>
  (if isJPTJet jc then derefHandle Collection.jptJets ev.jptJets
   else Except.ok []).bind fun fromJpt =>
  (if isPFJet jc then
    (if decide ("Pu" = jc.UEAlgo) then derefHandle Collection.basicJets ev.basicJets
     else Except.ok []).bind fun fromBasic =>
    (if decide ("Vs" = jc.UEAlgo) then derefHandle Collection.pfJets ev.pfJets
     else Except.ok []).bind fun fromPf => Except.ok (fromBasic ++ fromPf)
   else Except.ok []).bind fun fromPF =>
  Except.ok (fromCalo ++ fromJpt ++ fromPF)

/-- Lines 1345-1350: `true` when one of the `return` statements fires. -/
def recoCollectionInvalid (jc : JetConfig) (ev : Event) : Bool :=
  (isCaloJet jc && ev.caloJets.isNone) || (isJPTJet jc && ev.jptJets.isNone) ||
    (isPFJet jc && ((decide ("Pu" = jc.UEAlgo) && ev.basicJets.isNone) ||
      (decide ("Vs" = jc.UEAlgo) && ev.pfJets.isNone)))

/-- Body of the loop of lines 1356-1375 for one jet, on the counter `nJet_40` and the
members. -/
def recoJetStep (mRecoJetPtThreshold : ℚ) (acc : Int × EventHists) (rj : RecoJet) :
    Int × EventHists :=
  if rj.pt > mRecoJetPtThreshold then
    let nJet_40 := if rj.pt > 40 then acc.1 + 1 else acc.1
    let eh1 := FillEventIf acc.2 EventField.mEta rj.eta
    let eh2 := FillEventIf eh1 EventField.mjetpileup rj.pileup
    let eh3 := FillEventIf eh2 EventField.mJetArea rj.jetArea
    let eh4 := FillEventIf eh3 EventField.mPhi rj.phi
    let eh5 := FillEventIf eh4 EventField.mEnergy rj.energy
    let eh6 := FillEventIf eh5 EventField.mP rj.p
    let eh7 := FillEventIf eh6 EventField.mPt rj.pt
    let eh8 := FillEventIf eh7 EventField.mMass rj.mass
    let eh9 := FillEventIf eh8 EventField.mConstituents (rj.nConstituents : ℚ)
    (nJet_40, eh9)
  else acc

/-- Lines 1352-1377: `mNJets`, the per-jet histograms and `mNJets_40`. -/
def fillRecoJetHists (mRecoJetPtThreshold : ℚ) (recoJets : List RecoJet) (eh : EventHists) :
    Except EventError EventHists :=
  (FillEvent eh EventField.mNJets (recoJets.length : ℚ)).bind fun eh1 =>
  let after := recoJets.foldl (recoJetStep mRecoJetPtThreshold) ((0 : Int), eh1)
  Except.ok (FillEventIf after.2 EventField.mNJets_40 (after.1 : ℚ))

/-- Lines 1385-1394: the `mPtHat` fill. -/
def fillPtHat (ev : Event) (eh : EventHists) : EventHists :=
  match ev.ptHat with
  | none => eh
  | some ptHat => FillEventIf eh EventField.mPtHat ptHat

/-- Body of the loop of lines 1401-1407 for one generator jet. -/
def genJetStep (cfg : Config) (eh : EventHists) (gjet : Jet) : EventHists :=
  if gjet.pt > cfg.mMatchGenPtThreshold then
    let eh1 := FillEventIf eh EventField.mGenEta gjet.eta
    let eh2 := FillEventIf eh1 EventField.mGenPhi gjet.phi
    FillEventIf eh2 EventField.mGenPt gjet.pt
  else eh

/-- Lines 1381-1758: the generator-level part. -/
def analyzeGen (deltaR : ℚ → ℚ → ℚ → ℚ → ℚ) (jc : JetConfig) (cfg : Config) (hibin : Int)
    (recoJets : List RecoJet) (ev : Event) (s : AnalyzerState) :
    Except EventError AnalyzerState :=
  if ev.isRealData then Except.ok s
  else
    let eh1 := fillPtHat ev s.event
    match ev.genJets with
    | none => Except.ok { event := eh1, response := s.response }
    | some genJets =>
      let eh2 := genJets.foldl (genJetStep cfg) eh1
      if jc.mInputGenCollection_label.isEmpty then
        Except.ok { event := eh2, response := s.response }
      else
        match analyzeGenJets deltaR cfg hibin (recoJets.map RecoJet.toJet) genJets
            s.response with
        | Except.error e => Except.error (EventError.response e)
        | Except.ok response => Except.ok { event := eh2, response := response }

/-- Lines 893-915 and 1326-1758 of `analyze`, statement by statement. -/
def analyze (deltaR : ℚ → ℚ → ℚ → ℚ → ℚ) (jc : JetConfig) (cfg : Config) (ev : Event)
    (s : AnalyzerState) : Except EventError AnalyzerState :=
  (derefHandle Collection.cent ev.cent).bind fun EtHFtowerSum =>
  (FillEvent s.event EventField.mHF EtHFtowerSum).bind fun eh1 =>
  if ev.cent.isNone then Except.ok { event := eh1, response := s.response }
  else
    (if ev.cent.isSome then derefHandle Collection.cbin ev.cbin
     else Except.ok (-999)).bind fun hibin =>
    (collectRecoJets jc ev).bind fun recoJets =>
    if recoCollectionInvalid jc ev then Except.ok { event := eh1, response := s.response }
    else
      (fillRecoJetHists jc.mRecoJetPtThreshold recoJets eh1).bind fun eh2 =>
      analyzeGen deltaR jc cfg hibin recoJets ev { event := eh2, response := s.response }

/-- The members as the constructor and `bookHistograms` leave them. -/
def bookedState : AnalyzerState :=
  { event := bookedEventHists, response := bookHistograms }

/-- An example of module parameters: calorimeter jets, reconstructed jets from pt 20. -/
def exampleJetConfig : JetConfig :=
  { JetType := "calo", UEAlgo := "Pu", mRecoJetPtThreshold := 20,
    mInputGenCollection_label := "ak4HiGenJets" }

/-- An example of a reconstructed jet with the given pt and eta, at phi 0. -/
def exampleRecoJet (pt eta : ℚ) : RecoJet :=
  { pt := pt, eta := eta, phi := 0, pileup := 1, jetArea := 1 / 2, energy := 2 * pt,
    p := 2 * pt, mass := 5, nConstituents := 12 }

/-- An example of a simulated event: two calorimeter jets, valid centrality with
`hibin` 10, and the given generator-jet handle. -/
def exampleEvent (genJets : Option (List Jet)) : Event :=
  { isRealData := false, cent := some 1500, cbin := some 10,
    caloJets := some [exampleRecoJet 50 (1 / 10), exampleRecoJet 15 (5 / 2)],
    jptJets := none, basicJets := none, pfJets := none, ptHat := some 80,
    genJets := genJets }

/-! ## The vertex position (analyze, lines 837-853) -/

/-- A vertex of the `hiSelectedVertex` collection as `analyze` reads it: `tracksSize()`
and `position()`. -/
structure Vertex where
  tracksSize : Nat
  position : ℚ × ℚ × ℚ
deriving DecidableEq, Repr

/-- Failure of lines 837-853: `(*vtxs)[index]` with `index` outside a collection of
`size` elements (C++ does not check the index; the read is outside the vector). -/
inductive VertexError where
  | outOfRange (index size : Nat)
deriving DecidableEq, Repr

/-- The read `(*vtxs)[i]`. -/
def vertexAt (vtxs : List Vertex) (i : Nat) : Except VertexError Vertex :=
  match vtxs[i]? with
  | some v => Except.ok v
  | none => Except.error (VertexError.outOfRange i vtxs.length)

/-- Lines 845-848, for the remaining values of `i` and the current `greatestvtx`:
`daughter = (*vtxs)[i].tracksSize();`
`if (daughter > (*vtxs)[greatestvtx].tracksSize()) greatestvtx = i;`. -/
def greatestvtxLoop (vtxs : List Vertex) : List Nat → Nat → Except VertexError Nat
  | [], greatestvtx => Except.ok greatestvtx
  | i :: rest, greatestvtx =>
    (vertexAt vtxs i).bind fun vi =>
    let daughter := vi.tracksSize
    (vertexAt vtxs greatestvtx).bind fun vg =>
    greatestvtxLoop vtxs rest (if daughter > vg.tracksSize then i else greatestvtx)

/-- Lines 842-848: `int greatestvtx = 0;` and the loop over `i < vtxs->size()`. -/
def greatestvtx (vtxs : List Vertex) : Except VertexError Nat :=
  greatestvtxLoop vtxs (List.range vtxs.length) 0

/-- Lines 837-853, the value of the local `vtx` after line 853, for a valid handle
`vtxs`. Line 837 and the assignment under `if(nVertex<=0)` (lines 850-852) store the
origin; line 853, `vtx = (*vtxs)[greatestvtx].position();`, follows without an `else`
and stores over it whatever `nVertex` is. -/
def vtxOfEvent (vtxs : List Vertex) : Except VertexError (ℚ × ℚ × ℚ) :=
  let vtx0 : ℚ × ℚ × ℚ := (0, 0, 0)
  let nVertex : Int := (vtxs.length : Int)
  (greatestvtx vtxs).bind fun g =>
  let _vtx1 : ℚ × ℚ × ℚ := if nVertex ≤ 0 then (0, 0, 0) else vtx0
  (vertexAt vtxs g).bind fun v =>
  Except.ok v.position

/-! ## Particle-flow candidates (analyze, lines 1137-1239 and 1281-1311)

The locals `pfPt`, `pfEta`, `SumPFPt[k]` and `Evt_SumPFPt` are `Float_t` (lines 942-943,
1120, 1243): a value stored into one of them is narrowed by `Float_t`, the conversion to
IEEE binary32, and a sum of two of them is the `Float_t` of the exact sum. The candidate's
`pt()` and `eta()` and the edges are `double`, rational numbers as elsewhere; the edges
carry their decimal values, which compare with every binary32 value as the nearest
`double` does (no binary32 value lies within 2^-50 of an edge without being equal to
it, and none is equal). -/

/-- The integer nearest to `x`, the even one of the two when `x` lies half-way. -/
def roundHalfEven (x : ℚ) : Int :=
  let f := ⌊x⌋
  let r := x - f
  if r < 1 / 2 then f
  else if 1 / 2 < r then f + 1
  else if f % 2 = 0 then f
  else f + 1

/-- The value of a `Float_t` (ROOT's name of `float`, IEEE binary32) that receives `x`:
`x` rounded to 24 significant bits, to the nearest value and to the even significand on
a tie. For `2^e <= |x| < 2^(e+1)` the spacing of the values is `2^(e-23)`. Overflow to
infinity and the subnormal range below `2^-126` are not represented. -/
def Float_t (x : ℚ) : ℚ :=
  if x = 0 then 0
  else
    let e := Int.log 2 |x|
    (roundHalfEven (x / 2 ^ (e - 23)) : ℚ) * 2 ^ (e - 23)

/-- A particle-flow candidate as the loop reads it: `pt()`, `eta()`, `phi()` and
`particleId()`. -/
structure PFCandidate where
  pt : ℚ
  eta : ℚ
  phi : ℚ
  particleId : Int
deriving DecidableEq, Repr

/-- The `mPFCandpT_*` members (constructor lines 125-159, booked at lines 513-547
inside `if(isPFJet)`, each once). -/
inductive PFCandField where
  | mPFCandpT_vs_eta_Unknown
  | mPFCandpT_vs_eta_ChargedHadron
  | mPFCandpT_vs_eta_electron
  | mPFCandpT_vs_eta_muon
  | mPFCandpT_vs_eta_photon
  | mPFCandpT_vs_eta_NeutralHadron
  | mPFCandpT_vs_eta_HadE_inHF
  | mPFCandpT_vs_eta_EME_inHF
  | mPFCandpT_Barrel_Unknown
  | mPFCandpT_Barrel_ChargedHadron
  | mPFCandpT_Barrel_electron
  | mPFCandpT_Barrel_muon
  | mPFCandpT_Barrel_photon
  | mPFCandpT_Barrel_NeutralHadron
  | mPFCandpT_Barrel_HadE_inHF
  | mPFCandpT_Barrel_EME_inHF
  | mPFCandpT_Endcap_Unknown
  | mPFCandpT_Endcap_ChargedHadron
  | mPFCandpT_Endcap_electron
  | mPFCandpT_Endcap_muon
  | mPFCandpT_Endcap_photon
  | mPFCandpT_Endcap_NeutralHadron
  | mPFCandpT_Endcap_HadE_inHF
  | mPFCandpT_Endcap_EME_inHF
  | mPFCandpT_Forward_Unknown
  | mPFCandpT_Forward_ChargedHadron
  | mPFCandpT_Forward_electron
  | mPFCandpT_Forward_muon
  | mPFCandpT_Forward_photon
  | mPFCandpT_Forward_NeutralHadron
  | mPFCandpT_Forward_HadE_inHF
  | mPFCandpT_Forward_EME_inHF
deriving DecidableEq, Repr

/-- Arguments of one `Fill` call on a `mPFCandpT_*` member. -/
inductive PFFillArgs where
  /-- The call `Fill(pfPt)` on a 1D histogram. -/
  | x (pfPt : ℚ)
  /-- The call `Fill(pfPt, pfEta)` on a 2D histogram. -/
  | xy (pfPt pfEta : ℚ)
deriving DecidableEq, Repr

/-- The statements run from the label `case 7 :` on, to the end of the `switch`. -/
def case_7 (inBarrel inEndcap inForward : Bool) (pfPt pfEta : ℚ) :
    List (PFCandField × PFFillArgs) :=
  [(PFCandField.mPFCandpT_vs_eta_EME_inHF, PFFillArgs.xy pfPt pfEta)] ++
    onlyIf inBarrel [(PFCandField.mPFCandpT_Barrel_EME_inHF, PFFillArgs.x pfPt)] ++
    onlyIf inEndcap [(PFCandField.mPFCandpT_Endcap_EME_inHF, PFFillArgs.x pfPt)] ++
    onlyIf inForward [(PFCandField.mPFCandpT_Forward_EME_inHF, PFFillArgs.x pfPt)]

/-- The statements run from the label `case 6 :` on: those under the label, then,
there being no `break`, those from `case 7 :` on. -/
def case_6 (inBarrel inEndcap inForward : Bool) (pfPt pfEta : ℚ) :
    List (PFCandField × PFFillArgs) :=
  [(PFCandField.mPFCandpT_vs_eta_HadE_inHF, PFFillArgs.xy pfPt pfEta)] ++
    onlyIf inBarrel [(PFCandField.mPFCandpT_Barrel_HadE_inHF, PFFillArgs.x pfPt)] ++
    onlyIf inEndcap [(PFCandField.mPFCandpT_Endcap_HadE_inHF, PFFillArgs.x pfPt)] ++
    onlyIf inForward [(PFCandField.mPFCandpT_Forward_HadE_inHF, PFFillArgs.x pfPt)] ++
    case_7 inBarrel inEndcap inForward pfPt pfEta

/-- The statements run from the label `case 5 :` on: those under the label, then,
there being no `break`, those from `case 6 :` on. -/
def case_5 (inBarrel inEndcap inForward : Bool) (pfPt pfEta : ℚ) :
    List (PFCandField × PFFillArgs) :=
  [(PFCandField.mPFCandpT_vs_eta_NeutralHadron, PFFillArgs.xy pfPt pfEta)] ++
    onlyIf inBarrel [(PFCandField.mPFCandpT_Barrel_NeutralHadron, PFFillArgs.x pfPt)] ++
    onlyIf inEndcap [(PFCandField.mPFCandpT_Endcap_NeutralHadron, PFFillArgs.x pfPt)] ++
    onlyIf inForward [(PFCandField.mPFCandpT_Forward_NeutralHadron, PFFillArgs.x pfPt)] ++
    case_6 inBarrel inEndcap inForward pfPt pfEta

/-- The statements run from the label `case 4 :` on: those under the label, then,
there being no `break`, those from `case 5 :` on. -/
def case_4 (inBarrel inEndcap inForward : Bool) (pfPt pfEta : ℚ) :
    List (PFCandField × PFFillArgs) :=
  [(PFCandField.mPFCandpT_vs_eta_photon, PFFillArgs.xy pfPt pfEta)] ++
    onlyIf inBarrel [(PFCandField.mPFCandpT_Barrel_photon, PFFillArgs.x pfPt)] ++
    onlyIf inEndcap [(PFCandField.mPFCandpT_Endcap_photon, PFFillArgs.x pfPt)] ++
    onlyIf inForward [(PFCandField.mPFCandpT_Forward_photon, PFFillArgs.x pfPt)] ++
    case_5 inBarrel inEndcap inForward pfPt pfEta

/-- The statements run from the label `case 3 :` on: those under the label, then,
there being no `break`, those from `case 4 :` on. -/
def case_3 (inBarrel inEndcap inForward : Bool) (pfPt pfEta : ℚ) :
    List (PFCandField × PFFillArgs) :=
  [(PFCandField.mPFCandpT_vs_eta_muon, PFFillArgs.xy pfPt pfEta)] ++
    onlyIf inBarrel [(PFCandField.mPFCandpT_Barrel_muon, PFFillArgs.x pfPt)] ++
    onlyIf inEndcap [(PFCandField.mPFCandpT_Endcap_muon, PFFillArgs.x pfPt)] ++
    onlyIf inForward [(PFCandField.mPFCandpT_Forward_muon, PFFillArgs.x pfPt)] ++
    case_4 inBarrel inEndcap inForward pfPt pfEta

/-- The statements run from the label `case 2 :` on: those under the label, then,
there being no `break`, those from `case 3 :` on. -/
def case_2 (inBarrel inEndcap inForward : Bool) (pfPt pfEta : ℚ) :
    List (PFCandField × PFFillArgs) :=
  [(PFCandField.mPFCandpT_vs_eta_electron, PFFillArgs.xy pfPt pfEta)] ++
    onlyIf inBarrel [(PFCandField.mPFCandpT_Barrel_electron, PFFillArgs.x pfPt)] ++
    onlyIf inEndcap [(PFCandField.mPFCandpT_Endcap_electron, PFFillArgs.x pfPt)] ++
    onlyIf inForward [(PFCandField.mPFCandpT_Forward_electron, PFFillArgs.x pfPt)] ++
    case_3 inBarrel inEndcap inForward pfPt pfEta

/-- The statements run from the label `case 1 :` on: those under the label, then,
there being no `break`, those from `case 2 :` on. -/
def case_1 (inBarrel inEndcap inForward : Bool) (pfPt pfEta : ℚ) :
    List (PFCandField × PFFillArgs) :=
  [(PFCandField.mPFCandpT_vs_eta_ChargedHadron, PFFillArgs.xy pfPt pfEta)] ++
    onlyIf inBarrel [(PFCandField.mPFCandpT_Barrel_ChargedHadron, PFFillArgs.x pfPt)] ++
    onlyIf inEndcap [(PFCandField.mPFCandpT_Endcap_ChargedHadron, PFFillArgs.x pfPt)] ++
    onlyIf inForward [(PFCandField.mPFCandpT_Forward_ChargedHadron, PFFillArgs.x pfPt)] ++
    case_2 inBarrel inEndcap inForward pfPt pfEta

/-- The statements run from the label `case 0 :` on: those under the label, then,
there being no `break`, those from `case 1 :` on. -/
def case_0 (inBarrel inEndcap inForward : Bool) (pfPt pfEta : ℚ) :
    List (PFCandField × PFFillArgs) :=
  [(PFCandField.mPFCandpT_vs_eta_Unknown, PFFillArgs.xy pfPt pfEta)] ++
    onlyIf inBarrel [(PFCandField.mPFCandpT_Barrel_Unknown, PFFillArgs.x pfPt)] ++
    onlyIf inEndcap [(PFCandField.mPFCandpT_Endcap_Unknown, PFFillArgs.x pfPt)] ++
    onlyIf inForward [(PFCandField.mPFCandpT_Forward_Unknown, PFFillArgs.x pfPt)] ++
    case_1 inBarrel inEndcap inForward pfPt pfEta

/-- The statement `switch(pfID)` of lines 1167-1208: control goes to the label equal to
`pfID`; there is no `default` label, so any other value runs nothing. -/
def switchPfID (pfID : Int) (inBarrel inEndcap inForward : Bool) (pfPt pfEta : ℚ) :
    List (PFCandField × PFFillArgs) :=
  if pfID = 0 then case_0 inBarrel inEndcap inForward pfPt pfEta
  else if pfID = 1 then case_1 inBarrel inEndcap inForward pfPt pfEta
  else if pfID = 2 then case_2 inBarrel inEndcap inForward pfPt pfEta
  else if pfID = 3 then case_3 inBarrel inEndcap inForward pfPt pfEta
  else if pfID = 4 then case_4 inBarrel inEndcap inForward pfPt pfEta
  else if pfID = 5 then case_5 inBarrel inEndcap inForward pfPt pfEta
  else if pfID = 6 then case_6 inBarrel inEndcap inForward pfPt pfEta
  else if pfID = 7 then case_7 inBarrel inEndcap inForward pfPt pfEta
  else []

/-- The `Fill` calls on the `mPFCandpT_*` members for one candidate (lines 1145-1208):
none after `if(pfCandidate.pt() < 0.5) continue;`, a test on the `double`; otherwise
`pfPt = pfCandidate.pt();` and `pfEta = pfCandidate.eta();` (lines 1154-1155) narrow the
values to `Float_t`, the flags of lines 1159-1165 test `fabs(pfEta)` (the same tests as
for a generator jet), and the `switch` fills with `pfPt` and `pfEta`. -/
def pfCandidateFills (cfg : Config) (pfCandidate : PFCandidate) :
    List (PFCandField × PFFillArgs) :=
  if pfCandidate.pt < 1 / 2 then []
  else
    let pfPt := Float_t pfCandidate.pt
    let pfEta := Float_t pfCandidate.eta
    let pfID := pfCandidate.particleId
    switchPfID pfID (inBarrel cfg pfEta) (inEndcap cfg pfEta) (inForward cfg pfEta) pfPt pfEta

/-- The particle-id categories the members are named after. -/
inductive PFCategory where
  | Unknown
  | ChargedHadron
  | electron
  | muon
  | photon
  | NeutralHadron
  | HadE_inHF
  | EME_inHF
deriving DecidableEq, Repr

/-- The particle id of a category: the `case` label its `Fill` calls stand under (also
the comments `pf id - k` of lines 125-159). -/
def PFCategory.id : PFCategory → Int
  | PFCategory.Unknown => 0
  | PFCategory.ChargedHadron => 1
  | PFCategory.electron => 2
  | PFCategory.muon => 3
  | PFCategory.photon => 4
  | PFCategory.NeutralHadron => 5
  | PFCategory.HadE_inHF => 6
  | PFCategory.EME_inHF => 7

/-- The four histograms of a category: pT versus eta, and pT in each region. -/
inductive PFHistKind where
  | vs_eta
  | Barrel
  | Endcap
  | Forward
deriving DecidableEq, Repr

/-- The member `mPFCandpT_<kind>_<category>`. -/
def pfCandField : PFHistKind → PFCategory → PFCandField
  | PFHistKind.vs_eta, PFCategory.Unknown => PFCandField.mPFCandpT_vs_eta_Unknown
  | PFHistKind.vs_eta, PFCategory.ChargedHadron => PFCandField.mPFCandpT_vs_eta_ChargedHadron
  | PFHistKind.vs_eta, PFCategory.electron => PFCandField.mPFCandpT_vs_eta_electron
  | PFHistKind.vs_eta, PFCategory.muon => PFCandField.mPFCandpT_vs_eta_muon
  | PFHistKind.vs_eta, PFCategory.photon => PFCandField.mPFCandpT_vs_eta_photon
  | PFHistKind.vs_eta, PFCategory.NeutralHadron => PFCandField.mPFCandpT_vs_eta_NeutralHadron
  | PFHistKind.vs_eta, PFCategory.HadE_inHF => PFCandField.mPFCandpT_vs_eta_HadE_inHF
  | PFHistKind.vs_eta, PFCategory.EME_inHF => PFCandField.mPFCandpT_vs_eta_EME_inHF
  | PFHistKind.Barrel, PFCategory.Unknown => PFCandField.mPFCandpT_Barrel_Unknown
  | PFHistKind.Barrel, PFCategory.ChargedHadron => PFCandField.mPFCandpT_Barrel_ChargedHadron
  | PFHistKind.Barrel, PFCategory.electron => PFCandField.mPFCandpT_Barrel_electron
  | PFHistKind.Barrel, PFCategory.muon => PFCandField.mPFCandpT_Barrel_muon
  | PFHistKind.Barrel, PFCategory.photon => PFCandField.mPFCandpT_Barrel_photon
  | PFHistKind.Barrel, PFCategory.NeutralHadron => PFCandField.mPFCandpT_Barrel_NeutralHadron
  | PFHistKind.Barrel, PFCategory.HadE_inHF => PFCandField.mPFCandpT_Barrel_HadE_inHF
  | PFHistKind.Barrel, PFCategory.EME_inHF => PFCandField.mPFCandpT_Barrel_EME_inHF
  | PFHistKind.Endcap, PFCategory.Unknown => PFCandField.mPFCandpT_Endcap_Unknown
  | PFHistKind.Endcap, PFCategory.ChargedHadron => PFCandField.mPFCandpT_Endcap_ChargedHadron
  | PFHistKind.Endcap, PFCategory.electron => PFCandField.mPFCandpT_Endcap_electron
  | PFHistKind.Endcap, PFCategory.muon => PFCandField.mPFCandpT_Endcap_muon
  | PFHistKind.Endcap, PFCategory.photon => PFCandField.mPFCandpT_Endcap_photon
  | PFHistKind.Endcap, PFCategory.NeutralHadron => PFCandField.mPFCandpT_Endcap_NeutralHadron
  | PFHistKind.Endcap, PFCategory.HadE_inHF => PFCandField.mPFCandpT_Endcap_HadE_inHF
  | PFHistKind.Endcap, PFCategory.EME_inHF => PFCandField.mPFCandpT_Endcap_EME_inHF
  | PFHistKind.Forward, PFCategory.Unknown => PFCandField.mPFCandpT_Forward_Unknown
  | PFHistKind.Forward, PFCategory.ChargedHadron => PFCandField.mPFCandpT_Forward_ChargedHadron
  | PFHistKind.Forward, PFCategory.electron => PFCandField.mPFCandpT_Forward_electron
  | PFHistKind.Forward, PFCategory.muon => PFCandField.mPFCandpT_Forward_muon
  | PFHistKind.Forward, PFCategory.photon => PFCandField.mPFCandpT_Forward_photon
  | PFHistKind.Forward, PFCategory.NeutralHadron => PFCandField.mPFCandpT_Forward_NeutralHadron
  | PFHistKind.Forward, PFCategory.HadE_inHF => PFCandField.mPFCandpT_Forward_HadE_inHF
  | PFHistKind.Forward, PFCategory.EME_inHF => PFCandField.mPFCandpT_Forward_EME_inHF

/-- Whether the histogram of a kind is selected for a candidate at `pfEta`: always for
pT versus eta, by the region flag for the others. -/
def kindSelected (cfg : Config) (pfEta : ℚ) : PFHistKind → Bool
  | PFHistKind.vs_eta => true
  | PFHistKind.Barrel => inBarrel cfg pfEta
  | PFHistKind.Endcap => inEndcap cfg pfEta
  | PFHistKind.Forward => inForward cfg pfEta

/-- The arguments a histogram of a kind is filled with. -/
def kindArgs (pfPt pfEta : ℚ) : PFHistKind → PFFillArgs
  | PFHistKind.vs_eta => PFFillArgs.xy pfPt pfEta
  | _ => PFFillArgs.x pfPt

/-- The members `mSumPFPt_<lo>_<hi>` (constructor lines 109-123, booked at lines
497-511 inside `if(isPFJet)`). -/
inductive SumPFPtField where
  | mSumPFPt_n5p191_n2p650
  | mSumPFPt_n2p650_n2p043
  | mSumPFPt_n2p043_n1p740
  | mSumPFPt_n1p740_n1p479
  | mSumPFPt_n1p479_n1p131
  | mSumPFPt_n1p131_n0p783
  | mSumPFPt_n0p783_n0p522
  | mSumPFPt_n0p522_0p522
  | mSumPFPt_0p522_0p783
  | mSumPFPt_0p783_1p131
  | mSumPFPt_1p131_1p479
  | mSumPFPt_1p479_1p740
  | mSumPFPt_1p740_2p043
  | mSumPFPt_2p043_2p650
  | mSumPFPt_2p650_5p191
deriving DecidableEq, Repr

/-- The eta range named in the title a member is booked with (lines 497-511),
"Sum PFPt  in the eta range lo to hi". -/
def titleRange : SumPFPtField → ℚ × ℚ
  | SumPFPtField.mSumPFPt_n5p191_n2p650 => (-5191 / 1000, -2650 / 1000)
  | SumPFPtField.mSumPFPt_n2p650_n2p043 => (-2650 / 1000, -2043 / 1000)
  | SumPFPtField.mSumPFPt_n2p043_n1p740 => (-2043 / 1000, -1740 / 1000)
  | SumPFPtField.mSumPFPt_n1p740_n1p479 => (-1740 / 1000, -1479 / 1000)
  | SumPFPtField.mSumPFPt_n1p479_n1p131 => (-1479 / 1000, -1131 / 1000)
  | SumPFPtField.mSumPFPt_n1p131_n0p783 => (-1131 / 1000, -783 / 1000)
  | SumPFPtField.mSumPFPt_n0p783_n0p522 => (-783 / 1000, -522 / 1000)
  | SumPFPtField.mSumPFPt_n0p522_0p522 => (-522 / 1000, 522 / 1000)
  | SumPFPtField.mSumPFPt_0p522_0p783 => (522 / 1000, 783 / 1000)
  | SumPFPtField.mSumPFPt_0p783_1p131 => (783 / 1000, 1131 / 1000)
  | SumPFPtField.mSumPFPt_1p131_1p479 => (1131 / 1000, 1479 / 1000)
  | SumPFPtField.mSumPFPt_1p479_1p740 => (1479 / 1000, 1740 / 1000)
  | SumPFPtField.mSumPFPt_1p740_2p043 => (1740 / 1000, 2043 / 1000)
  | SumPFPtField.mSumPFPt_2p043_2p650 => (2043 / 1000, 2650 / 1000)
  | SumPFPtField.mSumPFPt_2p650_5p191 => (2650 / 1000, 5191 / 1000)

/-- Lines 1281-1295: `mSumPFPt_<lo>_<hi>->Fill(SumPFPt[k]);`, the members with the
value each receives, in execution order. -/
def sumPFPtFills (SumPFPt : Nat → ℚ) : List (SumPFPtField × ℚ) :=
  [(SumPFPtField.mSumPFPt_n5p191_n2p650, SumPFPt 0),
   (SumPFPtField.mSumPFPt_n2p650_n2p043, SumPFPt 1),
   (SumPFPtField.mSumPFPt_n2p043_n1p740, SumPFPt 2),
   (SumPFPtField.mSumPFPt_n1p740_n1p479, SumPFPt 3),
   (SumPFPtField.mSumPFPt_n1p479_n1p131, SumPFPt 4),
   (SumPFPtField.mSumPFPt_n1p131_n0p783, SumPFPt 5),
   (SumPFPtField.mSumPFPt_n0p783_n0p522, SumPFPt 6),
   (SumPFPtField.mSumPFPt_n0p522_0p522, SumPFPt 7),
   (SumPFPtField.mSumPFPt_0p522_0p783, SumPFPt 8),
   (SumPFPtField.mSumPFPt_0p783_1p131, SumPFPt 9),
   (SumPFPtField.mSumPFPt_1p131_1p479, SumPFPt 10),
   (SumPFPtField.mSumPFPt_1p479_1p740, SumPFPt 11),
   (SumPFPtField.mSumPFPt_1p740_2p043, SumPFPt 12),
   (SumPFPtField.mSumPFPt_2p043_2p650, SumPFPt 13),
   (SumPFPtField.mSumPFPt_2p650_5p191, SumPFPt 14)]

/-- Line 951: `double edge_pseudorapidity[etaBins_ +1] = {...}`, the decimal values of
the initialiser. -/
def edge_pseudorapidity : List ℚ :=
  [-5191 / 1000, -2650 / 1000, -2043 / 1000, -1740 / 1000, -1479 / 1000, -1131 / 1000, -783 / 1000, -522 / 1000, 522 / 1000, 783 / 1000, 1131 / 1000, 1479 / 1000, 1740 / 1000, 2043 / 1000, 2650 / 1000, 5191 / 1000]

/-- The read `edge_pseudorapidity[k]`. -/
def edgeAt (k : Nat) : ℚ :=
  edge_pseudorapidity.getD k 0

/-- Body of the loop of lines 1216-1228 for one `k`, on the array `SumPFPt`:
`if(pfEta >= edge_pseudorapidity[k] && pfEta < edge_pseudorapidity[k+1])`
`SumPFPt[k] = SumPFPt[k] + pfPt;`. The `Float_t` value `pfEta` is compared with the
`double` edges; the sum of the two `Float_t` values is stored into a `Float_t`. -/
def etaBinStep (pfEta pfPt : ℚ) (SumPFPt : Nat → ℚ) (k : Nat) : Nat → ℚ :=
  if pfEta ≥ edgeAt k ∧ pfEta < edgeAt (k + 1) then
    Function.update SumPFPt k (Float_t (SumPFPt k + pfPt))
  else SumPFPt

/-- The loop `for(size_t k = 0;k<nedge_pseudorapidity-1; k++)` of lines 1216-1228. The
constant `nedge_pseudorapidity` (JetTester_HeavyIons.h) is not among the sources and
enters as a parameter. -/
def etaBinLoop (nedge_pseudorapidity : Nat) (pfEta pfPt : ℚ) (SumPFPt : Nat → ℚ) : Nat → ℚ :=
  (List.range (nedge_pseudorapidity - 1)).foldl (etaBinStep pfEta pfPt) SumPFPt

/-- Body of the candidate loop as far as it writes `SumPFPt`: nothing after
`if(pfCandidate.pt() < 0.5) continue;`, a test on the `double`; otherwise the eta-bin
loop on `pfPt` and `pfEta`, the values of `pt()` and `eta()` narrowed to `Float_t`
(lines 1154-1155). -/
def sumPFPtStep (nedge_pseudorapidity : Nat) (SumPFPt : Nat → ℚ) (pfCandidate : PFCandidate) :
    Nat → ℚ :=
  if pfCandidate.pt < 1 / 2 then SumPFPt
  else
    let pfPt := Float_t pfCandidate.pt
    let pfEta := Float_t pfCandidate.eta
    etaBinLoop nedge_pseudorapidity pfEta pfPt SumPFPt

/-- The array `SumPFPt` after the candidate loop (lines 1137-1239), from the zeros of
lines 1126-1135. -/
def sumPFPtLoop (nedge_pseudorapidity : Nat) (pfCandidateColl : List PFCandidate) : Nat → ℚ :=
  pfCandidateColl.foldl (sumPFPtStep nedge_pseudorapidity) (fun _ => 0)

/-- Lines 1243 and 1297-1307: `Float_t Evt_SumPFPt = 0` and
`Evt_SumPFPt = Evt_SumPFPt + SumPFPt[k]` for `k < nedge_pseudorapidity-1`, each sum
stored into the `Float_t`. -/
def Evt_SumPFPt (nedge_pseudorapidity : Nat) (SumPFPt : Nat → ℚ) : ℚ :=
  (List.range (nedge_pseudorapidity - 1)).foldl (fun acc k => Float_t (acc + SumPFPt k)) 0

/-- The kind of histogram a member is. -/
def kindOf : PFCandField → PFHistKind
  | PFCandField.mPFCandpT_vs_eta_Unknown => PFHistKind.vs_eta
  | PFCandField.mPFCandpT_vs_eta_ChargedHadron => PFHistKind.vs_eta
  | PFCandField.mPFCandpT_vs_eta_electron => PFHistKind.vs_eta
  | PFCandField.mPFCandpT_vs_eta_muon => PFHistKind.vs_eta
  | PFCandField.mPFCandpT_vs_eta_photon => PFHistKind.vs_eta
  | PFCandField.mPFCandpT_vs_eta_NeutralHadron => PFHistKind.vs_eta
  | PFCandField.mPFCandpT_vs_eta_HadE_inHF => PFHistKind.vs_eta
  | PFCandField.mPFCandpT_vs_eta_EME_inHF => PFHistKind.vs_eta
  | PFCandField.mPFCandpT_Barrel_Unknown => PFHistKind.Barrel
  | PFCandField.mPFCandpT_Barrel_ChargedHadron => PFHistKind.Barrel
  | PFCandField.mPFCandpT_Barrel_electron => PFHistKind.Barrel
  | PFCandField.mPFCandpT_Barrel_muon => PFHistKind.Barrel
  | PFCandField.mPFCandpT_Barrel_photon => PFHistKind.Barrel
  | PFCandField.mPFCandpT_Barrel_NeutralHadron => PFHistKind.Barrel
  | PFCandField.mPFCandpT_Barrel_HadE_inHF => PFHistKind.Barrel
  | PFCandField.mPFCandpT_Barrel_EME_inHF => PFHistKind.Barrel
  | PFCandField.mPFCandpT_Endcap_Unknown => PFHistKind.Endcap
  | PFCandField.mPFCandpT_Endcap_ChargedHadron => PFHistKind.Endcap
  | PFCandField.mPFCandpT_Endcap_electron => PFHistKind.Endcap
  | PFCandField.mPFCandpT_Endcap_muon => PFHistKind.Endcap
  | PFCandField.mPFCandpT_Endcap_photon => PFHistKind.Endcap
  | PFCandField.mPFCandpT_Endcap_NeutralHadron => PFHistKind.Endcap
  | PFCandField.mPFCandpT_Endcap_HadE_inHF => PFHistKind.Endcap
  | PFCandField.mPFCandpT_Endcap_EME_inHF => PFHistKind.Endcap
  | PFCandField.mPFCandpT_Forward_Unknown => PFHistKind.Forward
  | PFCandField.mPFCandpT_Forward_ChargedHadron => PFHistKind.Forward
  | PFCandField.mPFCandpT_Forward_electron => PFHistKind.Forward
  | PFCandField.mPFCandpT_Forward_muon => PFHistKind.Forward
  | PFCandField.mPFCandpT_Forward_photon => PFHistKind.Forward
  | PFCandField.mPFCandpT_Forward_NeutralHadron => PFHistKind.Forward
  | PFCandField.mPFCandpT_Forward_HadE_inHF => PFHistKind.Forward
  | PFCandField.mPFCandpT_Forward_EME_inHF => PFHistKind.Forward

/-- The particle-id category a member is named after. -/
def categoryOf : PFCandField → PFCategory
  | PFCandField.mPFCandpT_vs_eta_Unknown => PFCategory.Unknown
  | PFCandField.mPFCandpT_vs_eta_ChargedHadron => PFCategory.ChargedHadron
  | PFCandField.mPFCandpT_vs_eta_electron => PFCategory.electron
  | PFCandField.mPFCandpT_vs_eta_muon => PFCategory.muon
  | PFCandField.mPFCandpT_vs_eta_photon => PFCategory.photon
  | PFCandField.mPFCandpT_vs_eta_NeutralHadron => PFCategory.NeutralHadron
  | PFCandField.mPFCandpT_vs_eta_HadE_inHF => PFCategory.HadE_inHF
  | PFCandField.mPFCandpT_vs_eta_EME_inHF => PFCategory.EME_inHF
  | PFCandField.mPFCandpT_Barrel_Unknown => PFCategory.Unknown
  | PFCandField.mPFCandpT_Barrel_ChargedHadron => PFCategory.ChargedHadron
  | PFCandField.mPFCandpT_Barrel_electron => PFCategory.electron
  | PFCandField.mPFCandpT_Barrel_muon => PFCategory.muon
  | PFCandField.mPFCandpT_Barrel_photon => PFCategory.photon
  | PFCandField.mPFCandpT_Barrel_NeutralHadron => PFCategory.NeutralHadron
  | PFCandField.mPFCandpT_Barrel_HadE_inHF => PFCategory.HadE_inHF
  | PFCandField.mPFCandpT_Barrel_EME_inHF => PFCategory.EME_inHF
  | PFCandField.mPFCandpT_Endcap_Unknown => PFCategory.Unknown
  | PFCandField.mPFCandpT_Endcap_ChargedHadron => PFCategory.ChargedHadron
  | PFCandField.mPFCandpT_Endcap_electron => PFCategory.electron
  | PFCandField.mPFCandpT_Endcap_muon => PFCategory.muon
  | PFCandField.mPFCandpT_Endcap_photon => PFCategory.photon
  | PFCandField.mPFCandpT_Endcap_NeutralHadron => PFCategory.NeutralHadron
  | PFCandField.mPFCandpT_Endcap_HadE_inHF => PFCategory.HadE_inHF
  | PFCandField.mPFCandpT_Endcap_EME_inHF => PFCategory.EME_inHF
  | PFCandField.mPFCandpT_Forward_Unknown => PFCategory.Unknown
  | PFCandField.mPFCandpT_Forward_ChargedHadron => PFCategory.ChargedHadron
  | PFCandField.mPFCandpT_Forward_electron => PFCategory.electron
  | PFCandField.mPFCandpT_Forward_muon => PFCategory.muon
  | PFCandField.mPFCandpT_Forward_photon => PFCategory.photon
  | PFCandField.mPFCandpT_Forward_NeutralHadron => PFCategory.NeutralHadron
  | PFCandField.mPFCandpT_Forward_HadE_inHF => PFCategory.HadE_inHF
  | PFCandField.mPFCandpT_Forward_EME_inHF => PFCategory.EME_inHF

/-! ## DeltaR over the real numbers -/

/-- Modelled from the spec: `deltaPhi` of DataFormats/Math/interface/deltaPhi.h is
missing from the sources; the spec takes the phi difference "on the shortest-arc
convention, i.e. wrapped into (−π, π]". This is the representative of `phi1 - phi2`
modulo 2π in that interval, over the real numbers. -/
noncomputable def deltaPhiReal (phi1 phi2 : ℝ) : ℝ :=
  (phi1 - phi2) - 2 * Real.pi * (⌈((phi1 - phi2) - Real.pi) / (2 * Real.pi)⌉ : ℤ)

/-- Modelled from the spec: `deltaR` of DataFormats/Math/interface/deltaR.h is missing
from the sources; the spec gives ΔR = sqrt(Δη² + Δφ²) with φ wrapped to the shortest
arc. This is that value over the real numbers. -/
noncomputable def deltaRReal (eta1 phi1 eta2 phi2 : ℝ) : ℝ :=
  Real.sqrt ((eta1 - eta2) ^ 2 + (deltaPhiReal phi1 phi2) ^ 2)

end JetTesterHeavyIons

/-! # CSCGeometryAsChambers: the displayed azimuth

Shallow embedding of lines 165-188 of `CSCGeometryAsChambers::analyze`
(Geometry/CSCGeometry/test/stubs/CSCGeometryAsChambers.cc); a `double` is a rational
number, and the literal `1.e-06` is its decimal value. -/

namespace CSCGeometryAsChambers

/-- Lines 165-180: the local `cphiDeg` as it is printed at line 188, from its initial
value `gCentre.phi().degrees()`. -/
def cphiDeg (degrees : ℚ) : ℚ :=
  if |degrees| < 1 / 1000000 then 0
  else if degrees < 0 then degrees + 360
  else if degrees ≥ 360 then 0
  else degrees

end CSCGeometryAsChambers

/-! # CTPPSDiamondRecHitProducerAlgorithm: rec-hits from digis

Shallow embedding of `CTPPSDiamondRecHitProducerAlgorithm::build`
(RecoCTPPS/TotemRPLocal/src/CTPPSDiamondRecHitProducerAlgorithm.cc, lines 18-36).

* An `int` is an integer in the range of 32 bits. The difference `t-t_shift_` is kept in
  that range by `toInt32` (wrap-around; C++ leaves the overflow undefined); `%` and `/`
  on `int` truncate towards zero (`Int.tmod`, `Int.tdiv`).
* A `double` is a rational number; the conversion of an `int` to `double` is exact.
* The classes `CTPPSDiamondDigi` and `CTPPSDiamondRecHit` are not among the sources: a
  digi is the pair of values `build` reads with whatever else it holds, a rec-hit the
  seven constructor arguments of line 32.
* An `edm::DetSet` is the list of its elements; `push_back` appends at the end. -/

namespace CTPPSDiamondRecHitProducerAlgorithm

/-- A digi as `build` reads it: `getLeadingEdge()` as the `int` it is stored into at
line 23, `getTrailingEdge()`, and the rest of its content, which `build` does not
read. -/
structure CTPPSDiamondDigi where
  getLeadingEdge : Int
  getTrailingEdge : Int
  others : List Int
deriving DecidableEq, Repr

/-- The arguments of the constructor call of line 32, in order: `x_pos`, `x_width`,
`y_pos`, `y_width`, `t_lead`, the time over threshold `( t_lead-t_trail )`, and
`time_slice`. -/
structure CTPPSDiamondRecHit where
  x_pos : ℚ
  x_width : ℚ
  y_pos : ℚ
  y_width : ℚ
  t_lead : ℚ
  tot : ℚ
  time_slice : Int
deriving DecidableEq, Repr

/-- The value of an `int` expression whose mathematical value is `x`: `x` itself inside
the range of 32 bits, wrapped into it otherwise. -/
def toInt32 (x : Int) : Int :=
  (x + 2 ^ 31) % 2 ^ 32 - 2 ^ 31

/-- Line 24: `t0 = ( t-t_shift_ ) % 1024`. -/
def t0 (t_shift_ : Int) (t : Int) : Int :=
  Int.tmod (toInt32 (t - t_shift_)) 1024

/-- Line 25: `time_slice = ( t-t_shift_ ) / 1024`. -/
def time_slice (t_shift_ : Int) (t : Int) : Int :=
  Int.tdiv (toInt32 (t - t_shift_)) 1024

/-- Lines 23-32: the rec-hit built from the digi `*it`. -/
def rechit (ts_to_ns_ : ℚ) (t_shift_ : Int) (it : CTPPSDiamondDigi) : CTPPSDiamondRecHit :=
  let t := it.getLeadingEdge
  let t_lead : ℚ := (t0 t_shift_ t : ℚ) * ts_to_ns_
  let t_trail : ℚ := (it.getTrailingEdge : ℚ) * ts_to_ns_
  { x_pos := 0, x_width := 0, y_pos := 0, y_width := 0,
    t_lead := t_lead, tot := t_lead - t_trail, time_slice := time_slice t_shift_ t }

/-- Lines 18-36: the loop over `input`, each iteration ending in
`output.push_back( rechit )`; the result is `output` after the call. -/
def build (ts_to_ns_ : ℚ) (t_shift_ : Int) (input : List CTPPSDiamondDigi)
    (output : List CTPPSDiamondRecHit) : List CTPPSDiamondRecHit :=
  input.foldl (fun out it => out ++ [rechit ts_to_ns_ t_shift_ it]) output

end CTPPSDiamondRecHitProducerAlgorithm

namespace JetTesterHeavyIons

/-! ## The matching loop -/

theorem matchStep_deltaRBest_le (deltaR : ℚ → ℚ → ℚ → ℚ → ℚ) (gjet : Jet) (st : MatchState)
    (ijet : Nat) (rj : Jet) :
    (matchStep deltaR gjet st ijet rj).deltaRBest ≤ st.deltaRBest := by
  unfold matchStep
  by_cases hpt : rj.pt > 10
  · by_cases hlt : deltaR gjet.eta gjet.phi rj.eta rj.phi < st.deltaRBest
    · simp [hpt, hlt, le_of_lt hlt]
    · simp [hpt, hlt]
  · simp [hpt]

theorem matchStep_deltaRBest_le_delR (deltaR : ℚ → ℚ → ℚ → ℚ → ℚ) (gjet : Jet) (st : MatchState)
    (ijet : Nat) (rj : Jet) (hpt : rj.pt > 10) :
    (matchStep deltaR gjet st ijet rj).deltaRBest ≤ delRTo deltaR gjet rj := by
  unfold matchStep delRTo
  by_cases hlt : deltaR gjet.eta gjet.phi rj.eta rj.phi < st.deltaRBest
  · simp [hpt, hlt]
  · simp [hpt, hlt]
    exact not_lt.mp hlt

theorem matchLoopFrom_deltaRBest_le (deltaR : ℚ → ℚ → ℚ → ℚ → ℚ) (gjet : Jet) :
    ∀ (rest : List Jet) (i : Nat) (st : MatchState),
      (matchLoopFrom deltaR gjet i rest st).deltaRBest ≤ st.deltaRBest := by
  intro rest
  induction rest with
  | nil => intro i st; simp [matchLoopFrom]
  | cons rj rest ih =>
    intro i st
    simp only [matchLoopFrom]
    exact le_trans (ih (i + 1) _) (matchStep_deltaRBest_le deltaR gjet st i rj)

theorem matchLoopFrom_deltaRBest_le_delR (deltaR : ℚ → ℚ → ℚ → ℚ → ℚ) (gjet : Jet) :
    ∀ (rest : List Jet) (i : Nat) (st : MatchState) (rj : Jet), rj ∈ rest → rj.pt > 10 →
      (matchLoopFrom deltaR gjet i rest st).deltaRBest ≤ delRTo deltaR gjet rj := by
  intro rest
  induction rest with
  | nil => intro i st rj hmem; simp at hmem
  | cons r rest ih =>
    intro i st rj hmem hpt
    simp only [matchLoopFrom]
    rcases List.mem_cons.mp hmem with heq | hin
    · subst heq
      exact le_trans (matchLoopFrom_deltaRBest_le deltaR gjet rest (i + 1) _)
        (matchStep_deltaRBest_le_delR deltaR gjet st i rj hpt)
    · exact ih (i + 1) _ rj hin hpt

theorem matchStep_cases (deltaR : ℚ → ℚ → ℚ → ℚ → ℚ) (gjet : Jet) (st : MatchState)
    (ijet : Nat) (rj : Jet) :
    (rj.pt > 10 ∧ delRTo deltaR gjet rj < st.deltaRBest ∧
        matchStep deltaR gjet st ijet rj
          = { iMatch := (ijet : Int), deltaRBest := delRTo deltaR gjet rj, JetPtBest := rj.pt }) ∨
    (¬ (rj.pt > 10 ∧ delRTo deltaR gjet rj < st.deltaRBest) ∧
        matchStep deltaR gjet st ijet rj = st) := by
  unfold matchStep delRTo
  by_cases hpt : rj.pt > 10
  · by_cases hlt : deltaR gjet.eta gjet.phi rj.eta rj.phi < st.deltaRBest
    · left; simp [hpt, hlt]
    · right; simp [hpt, hlt]
  · right; simp [hpt]

theorem matchLoopFrom_iMatch_nonneg (deltaR : ℚ → ℚ → ℚ → ℚ → ℚ) (gjet : Jet) :
    ∀ (rest : List Jet) (i : Nat) (st : MatchState),
      (0 ≤ st.iMatch ∨ ∃ rj ∈ rest, rj.pt > 10 ∧ delRTo deltaR gjet rj < st.deltaRBest) →
      0 ≤ (matchLoopFrom deltaR gjet i rest st).iMatch := by
  intro rest
  induction rest with
  | nil =>
    intro i st h
    rcases h with h | ⟨rj, hmem, _⟩
    · simpa [matchLoopFrom] using h
    · simp at hmem
  | cons r rest ih =>
    intro i st h
    simp only [matchLoopFrom]
    apply ih
    rcases matchStep_cases deltaR gjet st i r with ⟨_, _, heq⟩ | ⟨hno, heq⟩
    · left; rw [heq]; exact Int.ofNat_nonneg i
    · rw [heq]
      rcases h with h | ⟨rj, hmem, hpt, hlt⟩
      · left; exact h
      · rcases List.mem_cons.mp hmem with heq2 | hin
        · subst heq2; exact absurd ⟨hpt, hlt⟩ hno
        · right; exact ⟨rj, hin, hpt, hlt⟩

theorem matchLoopFrom_stable (deltaR : ℚ → ℚ → ℚ → ℚ → ℚ) (gjet : Jet) :
    ∀ (rest : List Jet) (i : Nat) (st : MatchState),
      (∀ rj ∈ rest, rj.pt > 10 → st.deltaRBest ≤ delRTo deltaR gjet rj) →
      matchLoopFrom deltaR gjet i rest st = st := by
  intro rest
  induction rest with
  | nil => intro i st _; simp [matchLoopFrom]
  | cons r rest ih =>
    intro i st h
    simp only [matchLoopFrom]
    rcases matchStep_cases deltaR gjet st i r with ⟨hpt, hlt, _⟩ | ⟨_, heq⟩
    · exact absurd hlt (not_lt.mpr (h r (List.mem_cons_self r rest) hpt))
    · rw [heq]
      exact ih (i + 1) st (fun rj hin hpt => h rj (List.mem_cons_of_mem r hin) hpt)

theorem matchLoopFrom_first_minimum (deltaR : ℚ → ℚ → ℚ → ℚ → ℚ) (gjet : Jet) :
    ∀ (rest : List Jet) (n i : Nat) (st : MatchState) (rj : Jet),
      rest[i]? = some rj → rj.pt > 10 → delRTo deltaR gjet rj < st.deltaRBest →
      (∀ (j : Nat) (r : Jet), rest[j]? = some r → r.pt > 10 →
          delRTo deltaR gjet rj ≤ delRTo deltaR gjet r) →
      (∀ (j : Nat) (r : Jet), j < i → rest[j]? = some r → r.pt > 10 →
          delRTo deltaR gjet r ≠ delRTo deltaR gjet rj) →
      matchLoopFrom deltaR gjet n rest st
        = { iMatch := ((n + i : Nat) : Int), deltaRBest := delRTo deltaR gjet rj,
            JetPtBest := rj.pt } := by
  intro rest
  induction rest with
  | nil => intro n i st rj hi; simp at hi
  | cons r rest ih =>
    intro n i st rj hi hpt hlt hmin hfirst
    simp only [matchLoopFrom]
    cases i with
    | zero =>
      simp only [List.getElem?_cons_zero, Option.some.injEq] at hi
      subst hi
      rcases matchStep_cases deltaR gjet st n r with ⟨_, _, heq⟩ | ⟨hno, _⟩
      · rw [heq]
        apply matchLoopFrom_stable
        intro r2 hin hpt2
        obtain ⟨j, hj⟩ := List.getElem?_of_mem hin
        exact hmin (j + 1) r2 (by simpa using hj) hpt2
      · exact absurd ⟨hpt, hlt⟩ hno
    | succ k =>
      simp only [List.getElem?_cons_succ] at hi
      have hlt2 : delRTo deltaR gjet rj < (matchStep deltaR gjet st n r).deltaRBest := by
        rcases matchStep_cases deltaR gjet st n r with ⟨hptr, _, heq⟩ | ⟨_, heq⟩
        · rw [heq]
          have h1 := hmin 0 r (by simp) hptr
          have h2 := hfirst 0 r (Nat.succ_pos k) (by simp) hptr
          exact lt_of_le_of_ne h1 (Ne.symm h2)
        · rw [heq]; exact hlt
      have := ih (n + 1) k (matchStep deltaR gjet st n r) rj hi hpt hlt2
        (fun j r2 hj hp => hmin (j + 1) r2 (by simpa using hj) hp)
        (fun j r2 hjk hj hp => hfirst (j + 1) r2 (Nat.succ_lt_succ hjk) (by simpa using hj) hp)
      rw [this]
      congr 2
      omega

/-- C1 (as amended): when some reconstructed jet with pt > 10 lies at a DeltaR below 999
(the initial `deltaRBest`), the matching loop yields a match (`iMatch >= 0`), and the
retained `deltaRBest` is at most the DeltaR of every reconstructed jet with pt > 10. -/
theorem matchLoop_match_and_minimal (deltaR : ℚ → ℚ → ℚ → ℚ → ℚ) (gjet : Jet)
    (recoJets : List Jet)
    (h : ∃ rj ∈ recoJets, rj.pt > 10 ∧ delRTo deltaR gjet rj < 999) :
    0 ≤ (matchLoop deltaR gjet recoJets).iMatch ∧
    ∀ rj ∈ recoJets, rj.pt > 10 →
      (matchLoop deltaR gjet recoJets).deltaRBest ≤ delRTo deltaR gjet rj := by
  constructor
  · exact matchLoopFrom_iMatch_nonneg deltaR gjet recoJets 0 matchInit (Or.inr h)
  · intro rj hmem hpt
    exact matchLoopFrom_deltaRBest_le_delR deltaR gjet recoJets 0 matchInit rj hmem hpt

/-- C1 (witness of the amended claim): one reconstructed jet with pt 50 at DeltaR 1. -/
theorem matchLoop_match_and_minimal_witness :
    (∃ rj ∈ [({ pt := 50, eta := 1, phi := 0 } : Jet)],
        rj.pt > 10 ∧ delRTo deltaRSamePhi { pt := 50, eta := 0, phi := 0 } rj < 999) ∧
    (0 ≤ (matchLoop deltaRSamePhi { pt := 50, eta := 0, phi := 0 }
            [{ pt := 50, eta := 1, phi := 0 }]).iMatch ∧
      ∀ rj ∈ [({ pt := 50, eta := 1, phi := 0 } : Jet)], rj.pt > 10 →
        (matchLoop deltaRSamePhi { pt := 50, eta := 0, phi := 0 }
            [{ pt := 50, eta := 1, phi := 0 }]).deltaRBest
          ≤ delRTo deltaRSamePhi { pt := 50, eta := 0, phi := 0 } rj) :=
  have hex : ∃ rj ∈ [({ pt := 50, eta := 1, phi := 0 } : Jet)],
      rj.pt > 10 ∧ delRTo deltaRSamePhi { pt := 50, eta := 0, phi := 0 } rj < 999 :=
    ⟨{ pt := 50, eta := 1, phi := 0 }, by simp, by norm_num, by
      norm_num [delRTo, deltaRSamePhi]⟩
  ⟨hex, matchLoop_match_and_minimal deltaRSamePhi _ _ hex⟩

/-- C1 (counterexample): a generator jet at eta 0, phi 0 inside the acceptance and a
list whose only jet has pt 50 > 10 but lies at DeltaR 1000 (eta 1000, same phi): the
loop yields no match, `iMatch` stays -1. -/
theorem matchLoop_no_match_beyond_999 :
    ¬ (|(0 : ℚ)| > 6) ∧
    (∃ rj ∈ [({ pt := 50, eta := 1000, phi := 0 } : Jet)], rj.pt > 10) ∧
    (matchLoop deltaRSamePhi { pt := 50, eta := 0, phi := 0 }
        [{ pt := 50, eta := 1000, phi := 0 }]).iMatch = -1 := by
  refine ⟨by norm_num, ⟨_, List.mem_singleton.mpr rfl, by norm_num⟩, ?_⟩
  norm_num [matchLoop, matchLoopFrom, matchStep, matchInit, deltaRSamePhi]

/-- C2 (as amended): when the minimal DeltaR over the reconstructed jets with pt > 10 is
below 999 and `i` is the first index with `recoJets[i].pt > 10` attaining it, the loop
ends with `iMatch = i` (and the DeltaR and pt of that jet), whatever the pt of the jets. -/
theorem matchLoop_first_minimum (deltaR : ℚ → ℚ → ℚ → ℚ → ℚ) (gjet : Jet)
    (recoJets : List Jet) (i : Nat) (rj : Jet)
    (hi : recoJets[i]? = some rj) (hpt : rj.pt > 10)
    (hlt : delRTo deltaR gjet rj < 999)
    (hmin : ∀ (j : Nat) (r : Jet), recoJets[j]? = some r → r.pt > 10 →
      delRTo deltaR gjet rj ≤ delRTo deltaR gjet r)
    (hfirst : ∀ (j : Nat) (r : Jet), j < i → recoJets[j]? = some r → r.pt > 10 →
      delRTo deltaR gjet r ≠ delRTo deltaR gjet rj) :
    (matchLoop deltaR gjet recoJets).iMatch = (i : Int) ∧
    (matchLoop deltaR gjet recoJets).deltaRBest = delRTo deltaR gjet rj ∧
    (matchLoop deltaR gjet recoJets).JetPtBest = rj.pt := by
  have h := matchLoopFrom_first_minimum deltaR gjet recoJets 0 i matchInit rj hi hpt
    (by simpa [matchInit] using hlt) hmin hfirst
  unfold matchLoop
  rw [h]
  simp

/-- C2 (witness of the amended claim): four jets, the first below the pt cut, the third and
fourth both at the minimal DeltaR 1; the loop ends with `iMatch = 2`. -/
theorem matchLoop_first_minimum_witness :
    (matchLoop deltaRSamePhi { pt := 50, eta := 0, phi := 0 }
        [{ pt := 5, eta := 0, phi := 0 }, { pt := 20, eta := 2, phi := 0 },
         { pt := 30, eta := 1, phi := 0 }, { pt := 90, eta := -1, phi := 0 }]).iMatch = (2 : Int) ∧
    (matchLoop deltaRSamePhi { pt := 50, eta := 0, phi := 0 }
        [{ pt := 5, eta := 0, phi := 0 }, { pt := 20, eta := 2, phi := 0 },
         { pt := 30, eta := 1, phi := 0 }, { pt := 90, eta := -1, phi := 0 }]).deltaRBest
      = delRTo deltaRSamePhi { pt := 50, eta := 0, phi := 0 } { pt := 30, eta := 1, phi := 0 } ∧
    (matchLoop deltaRSamePhi { pt := 50, eta := 0, phi := 0 }
        [{ pt := 5, eta := 0, phi := 0 }, { pt := 20, eta := 2, phi := 0 },
         { pt := 30, eta := 1, phi := 0 }, { pt := 90, eta := -1, phi := 0 }]).JetPtBest
      = (30 : ℚ) :=
  matchLoop_first_minimum deltaRSamePhi { pt := 50, eta := 0, phi := 0 }
    [{ pt := 5, eta := 0, phi := 0 }, { pt := 20, eta := 2, phi := 0 },
     { pt := 30, eta := 1, phi := 0 }, { pt := 90, eta := -1, phi := 0 }] 2
    { pt := 30, eta := 1, phi := 0 } (by simp) (by norm_num)
    (by norm_num [delRTo, deltaRSamePhi])
    (by
      intro j r hj hp
      match j, hj with
      | 0, hj => simp at hj; subst hj; norm_num at hp
      | 1, hj => simp at hj; subst hj; norm_num [delRTo, deltaRSamePhi]
      | 2, hj => simp at hj; subst hj; norm_num [delRTo, deltaRSamePhi]
      | 3, hj => simp at hj; subst hj; norm_num [delRTo, deltaRSamePhi]
      | (k + 4), hj => simp at hj)
    (by
      intro j r hlt hj hp
      match j, hlt, hj with
      | 0, _, hj => simp at hj; subst hj; norm_num at hp
      | 1, _, hj => simp at hj; subst hj; norm_num [delRTo, deltaRSamePhi]
      | (k + 2), hlt, _ => omega)

/-- C2 (counterexample): two reconstructed jets with pt > 10 both attain the minimal
DeltaR 1000 to the generator jet (eta 1000 and eta -1000 at the same phi); the loop
selects neither, `iMatch` is -1 and not the first index 0. -/
theorem matchLoop_tie_beyond_999_unselected :
    (∀ rj ∈ [({ pt := 50, eta := 1000, phi := 0 } : Jet), { pt := 20, eta := -1000, phi := 0 }],
      rj.pt > 10 ∧ delRTo deltaRSamePhi { pt := 50, eta := 0, phi := 0 } rj = 1000) ∧
    (matchLoop deltaRSamePhi { pt := 50, eta := 0, phi := 0 }
        [{ pt := 50, eta := 1000, phi := 0 }, { pt := 20, eta := -1000, phi := 0 }]).iMatch ≠ 0 ∧
    (matchLoop deltaRSamePhi { pt := 50, eta := 0, phi := 0 }
        [{ pt := 50, eta := 1000, phi := 0 }, { pt := 20, eta := -1000, phi := 0 }]).iMatch = -1 := by
  refine ⟨?_, ?_, ?_⟩
  · intro rj hmem
    simp only [List.mem_cons, List.mem_singleton, List.not_mem_nil, or_false] at hmem
    rcases hmem with h | h <;> subst h <;> norm_num [delRTo, deltaRSamePhi]
  · norm_num [matchLoop, matchLoopFrom, matchStep, matchInit, deltaRSamePhi]
  · norm_num [matchLoop, matchLoopFrom, matchStep, matchInit, deltaRSamePhi]

/-! ## Booking of the response histograms -/

theorem onlyIf_true {α : Type} (stmts : List α) : onlyIf true stmts = stmts := rfl

theorem onlyIf_false {α : Type} (stmts : List α) : onlyIf false stmts = [] := rfl

theorem Fill_of_null (h : Hists) (f : Field) (args : FillArgs) (hf : h f = none) :
    Fill h f args = Except.error (AnalyzeError.nullPointer f) := by
  simp [Fill, hf]

theorem Fill_of_booked (h : Hists) (f : Field) (args : FillArgs) (es : List FillArgs)
    (hf : h f = some es) :
    Fill h f args = Except.ok (Function.update h f (some (es ++ [args]))) := by
  simp [Fill, hf]

set_option maxRecDepth 100000 in
/-- C3 (the code at the failing input): after the constructor and `bookHistograms`, the
members of the cells (Barrel|Endcap|Forward, [30,50), 50-80%) and of the eta-profile cell
([30,50), 50-80%) are still null, the members of the corresponding [50,80) cells have been
assigned twice, every other member has been assigned once; and for a generator jet with
pt 35, eta 0.1 matched to a reconstructed jet with pt 36 in an event with hibin 120,
`analyze` calls `Fill` through the null member `mPtRecoOverGen_GenEta_30_50_Cent_50_80`. -/
theorem bookHistograms_members_null_or_twice :
    bookHistograms Field.mPtRecoOverGen_B_30_50_Cent_50_80 = none ∧
    bookHistograms Field.mPtRecoOverGen_E_30_50_Cent_50_80 = none ∧
    bookHistograms Field.mPtRecoOverGen_F_30_50_Cent_50_80 = none ∧
    bookHistograms Field.mPtRecoOverGen_GenEta_30_50_Cent_50_80 = none ∧
    timesBooked Field.mPtRecoOverGen_B_50_80_Cent_50_80 = 2 ∧
    timesBooked Field.mPtRecoOverGen_E_50_80_Cent_50_80 = 2 ∧
    timesBooked Field.mPtRecoOverGen_F_50_80_Cent_50_80 = 2 ∧
    timesBooked Field.mPtRecoOverGen_GenEta_50_80_Cent_50_80 = 2 ∧
    (∀ f : Field,
      f ≠ Field.mPtRecoOverGen_B_30_50_Cent_50_80 → f ≠ Field.mPtRecoOverGen_E_30_50_Cent_50_80 →
      f ≠ Field.mPtRecoOverGen_F_30_50_Cent_50_80 →
      f ≠ Field.mPtRecoOverGen_GenEta_30_50_Cent_50_80 →
      f ≠ Field.mPtRecoOverGen_B_50_80_Cent_50_80 → f ≠ Field.mPtRecoOverGen_E_50_80_Cent_50_80 →
      f ≠ Field.mPtRecoOverGen_F_50_80_Cent_50_80 →
      f ≠ Field.mPtRecoOverGen_GenEta_50_80_Cent_50_80 →
      timesBooked f = 1 ∧ bookHistograms f = some []) ∧
    analyzeGenJet deltaRSamePhi exampleConfig
        120 [{ pt := 36, eta := 1 / 10, phi := 0 }] bookHistograms
        { pt := 35, eta := 1 / 10, phi := 0 }
      = Except.error (AnalyzeError.nullPointer Field.mPtRecoOverGen_GenEta_30_50_Cent_50_80) := by
  refine ⟨by decide, by decide, by decide, by decide, by decide, by decide, by decide,
    by decide, ?_, ?_⟩
  · intro f
    cases f <;> decide
  · have h1 : bookHistograms Field.mPtRecoOverGen_GenPt_B_Cent_50_80 = some [] := by decide
    have h2 : bookHistograms Field.mPtRecoOverGen_GenEta_30_50_Cent_50_80 = none := by decide
    norm_num [analyzeGenJet, exampleConfig, matchLoop, matchLoopFrom, matchStep, matchInit, deltaRSamePhi,
      inBarrel, inEndcap, inForward, isCentral, ismidCentral, ismidPeripheral, isPeripheral,
      responseFills, ptIn_20_30, ptIn_30_50, ptIn_50_80, ptIn_80_120, ptIn_120_180,
      ptIn_180_300, ptIn_300_Inf, onlyIf, runFills, Fill, h1, h2, abs_of_pos]
    rw [Function.update_noteq (by decide), h2]

/-! ## Classification flags -/

/-- C8: for thresholds with `0 <= BarrelEta < EndcapEta < ForwardEta`, the region flags of
`analyze` are the half-open bands of |eta|: `inBarrel` iff |eta| < BarrelEta, `inEndcap`
iff BarrelEta <= |eta| < EndcapEta, `inForward` iff EndcapEta <= |eta| < ForwardEta; no two
flags are set together, none is set iff |eta| >= ForwardEta, and eta = BarrelEta is
Endcap, not Barrel. -/
theorem region_flags_partition (cfg : Config) (eta : ℚ)
    (h0 : 0 ≤ cfg.BarrelEta) (h1 : cfg.BarrelEta < cfg.EndcapEta)
    (h2 : cfg.EndcapEta < cfg.ForwardEta) :
    (inBarrel cfg eta = true ↔ |eta| < cfg.BarrelEta) ∧
    (inEndcap cfg eta = true ↔ cfg.BarrelEta ≤ |eta| ∧ |eta| < cfg.EndcapEta) ∧
    (inForward cfg eta = true ↔ cfg.EndcapEta ≤ |eta| ∧ |eta| < cfg.ForwardEta) ∧
    ¬ (inBarrel cfg eta = true ∧ inEndcap cfg eta = true) ∧
    ¬ (inBarrel cfg eta = true ∧ inForward cfg eta = true) ∧
    ¬ (inEndcap cfg eta = true ∧ inForward cfg eta = true) ∧
    ((inBarrel cfg eta = false ∧ inEndcap cfg eta = false ∧ inForward cfg eta = false)
      ↔ |eta| ≥ cfg.ForwardEta) ∧
    (eta = cfg.BarrelEta → inEndcap cfg eta = true ∧ inBarrel cfg eta = false) := by
  have hB : inBarrel cfg eta = true ↔ |eta| < cfg.BarrelEta := by simp [inBarrel]
  have hE : inEndcap cfg eta = true ↔ cfg.BarrelEta ≤ |eta| ∧ |eta| < cfg.EndcapEta := by
    simp [inEndcap]
  have hF : inForward cfg eta = true ↔ cfg.EndcapEta ≤ |eta| ∧ |eta| < cfg.ForwardEta := by
    simp [inForward]
  refine ⟨hB, hE, hF, ?_, ?_, ?_, ?_, ?_⟩
  · rw [hB, hE]; rintro ⟨ha, hb, _⟩; linarith
  · rw [hB, hF]; rintro ⟨ha, hb, _⟩; linarith
  · rw [hE, hF]; rintro ⟨⟨_, ha⟩, hb, _⟩; linarith
  · rw [← Bool.not_eq_true, ← Bool.not_eq_true, ← Bool.not_eq_true, hB, hE, hF]
    constructor
    · rintro ⟨ha, hb, hc⟩
      by_contra hlt
      push_neg at ha hb hc hlt
      by_cases hEta : cfg.EndcapEta ≤ |eta|
      · exact absurd hlt (not_lt.mpr (hc hEta))
      · push_neg at hEta
        exact absurd hEta (not_lt.mpr (hb ha))
    · intro hge
      refine ⟨?_, ?_, ?_⟩
      · intro h; linarith
      · rintro ⟨_, h⟩; linarith
      · rintro ⟨_, h⟩; linarith
  · intro he
    rw [← Bool.not_eq_true, hB, hE]
    subst he
    rw [abs_of_nonneg h0]
    exact ⟨⟨le_refl _, h1⟩, lt_irrefl _⟩

/-- C8 (witness): the example configuration at eta = BarrelEta = 2. -/
theorem region_flags_partition_witness :
    (inBarrel exampleConfig 2 = true ↔ |(2 : ℚ)| < exampleConfig.BarrelEta) ∧
    (inEndcap exampleConfig 2 = true
      ↔ exampleConfig.BarrelEta ≤ |(2 : ℚ)| ∧ |(2 : ℚ)| < exampleConfig.EndcapEta) ∧
    (inForward exampleConfig 2 = true
      ↔ exampleConfig.EndcapEta ≤ |(2 : ℚ)| ∧ |(2 : ℚ)| < exampleConfig.ForwardEta) ∧
    ¬ (inBarrel exampleConfig 2 = true ∧ inEndcap exampleConfig 2 = true) ∧
    ¬ (inBarrel exampleConfig 2 = true ∧ inForward exampleConfig 2 = true) ∧
    ¬ (inEndcap exampleConfig 2 = true ∧ inForward exampleConfig 2 = true) ∧
    ((inBarrel exampleConfig 2 = false ∧ inEndcap exampleConfig 2 = false ∧
        inForward exampleConfig 2 = false)
      ↔ |(2 : ℚ)| ≥ exampleConfig.ForwardEta) ∧
    ((2 : ℚ) = exampleConfig.BarrelEta →
      inEndcap exampleConfig 2 = true ∧ inBarrel exampleConfig 2 = false) :=
  region_flags_partition exampleConfig 2
    (by norm_num [exampleConfig]) (by norm_num [exampleConfig]) (by norm_num [exampleConfig])

/-- C9: for every integer `hibin` the centrality flags of `analyze` are `isCentral` iff
hibin < 20 (negative values included), `ismidCentral` iff 20 <= hibin < 60,
`ismidPeripheral` iff 60 <= hibin < 100, `isPeripheral` iff 100 <= hibin < 160; at most
one flag is set and none is set iff hibin >= 160. -/
theorem centrality_flags_partition (hibin : Int) :
    (isCentral hibin = true ↔ hibin < 20) ∧
    (ismidCentral hibin = true ↔ 20 ≤ hibin ∧ hibin < 60) ∧
    (ismidPeripheral hibin = true ↔ 60 ≤ hibin ∧ hibin < 100) ∧
    (isPeripheral hibin = true ↔ 100 ≤ hibin ∧ hibin < 160) ∧
    ([isCentral hibin, ismidCentral hibin, ismidPeripheral hibin, isPeripheral hibin].count true
      ≤ 1) ∧
    ((isCentral hibin = false ∧ ismidCentral hibin = false ∧ ismidPeripheral hibin = false ∧
        isPeripheral hibin = false) ↔ hibin ≥ 160) ∧
    (hibin < 0 → isCentral hibin = true) := by
  refine ⟨by simp [isCentral], by simp [ismidCentral], by simp [ismidPeripheral],
    by simp [isPeripheral], ?_, ?_, ?_⟩
  · cases a : isCentral hibin <;> cases b : ismidCentral hibin <;>
      cases c : ismidPeripheral hibin <;> cases d : isPeripheral hibin <;>
      simp only [isCentral, ismidCentral, ismidPeripheral, isPeripheral, decide_eq_true_eq,
        decide_eq_false_iff_not] at a b c d <;>
      first
        | decide
        | omega
  · simp only [isCentral, ismidCentral, ismidPeripheral, isPeripheral, decide_eq_false_iff_not]
    omega
  · intro h
    simp only [isCentral, decide_eq_true_eq]
    omega

theorem ptConditions_count_of_ge (genPt : ℚ) (h20 : 20 ≤ genPt) :
    (ptConditions genPt).count true = 1 := by
  unfold ptConditions ptIn_20_30 ptIn_30_50 ptIn_50_80 ptIn_80_120 ptIn_120_180 ptIn_180_300
    ptIn_300_Inf
  rcases lt_or_le genPt 30 with h30 | h30
  · have l20 : (genPt ≥ 20) = True := eq_true (by linarith)
    have l30 : (genPt ≥ 30) = False := eq_false (by linarith)
    have u30 : (genPt < 30) = True := eq_true (by linarith)
    have l50 : (genPt ≥ 50) = False := eq_false (by linarith)
    have u50 : (genPt < 50) = True := eq_true (by linarith)
    have l80 : (genPt ≥ 80) = False := eq_false (by linarith)
    have u80 : (genPt < 80) = True := eq_true (by linarith)
    have l120 : (genPt ≥ 120) = False := eq_false (by linarith)
    have u120 : (genPt < 120) = True := eq_true (by linarith)
    have l180 : (genPt ≥ 180) = False := eq_false (by linarith)
    have u180 : (genPt < 180) = True := eq_true (by linarith)
    have l300 : (genPt ≥ 300) = False := eq_false (by linarith)
    have u300 : (genPt < 300) = True := eq_true (by linarith)
    simp only [l20, l30, u30, l50, u50, l80, u80, l120, u120, l180, u180, l300, u300, and_self, and_true, and_false, false_and, true_and,
      decide_True, decide_False]
    decide
  · rcases lt_or_le genPt 50 with h50 | h50
    · have l20 : (genPt ≥ 20) = True := eq_true (by linarith)
      have l30 : (genPt ≥ 30) = True := eq_true (by linarith)
      have u30 : (genPt < 30) = False := eq_false (by linarith)
      have l50 : (genPt ≥ 50) = False := eq_false (by linarith)
      have u50 : (genPt < 50) = True := eq_true (by linarith)
      have l80 : (genPt ≥ 80) = False := eq_false (by linarith)
      have u80 : (genPt < 80) = True := eq_true (by linarith)
      have l120 : (genPt ≥ 120) = False := eq_false (by linarith)
      have u120 : (genPt < 120) = True := eq_true (by linarith)
      have l180 : (genPt ≥ 180) = False := eq_false (by linarith)
      have u180 : (genPt < 180) = True := eq_true (by linarith)
      have l300 : (genPt ≥ 300) = False := eq_false (by linarith)
      have u300 : (genPt < 300) = True := eq_true (by linarith)
      simp only [l20, l30, u30, l50, u50, l80, u80, l120, u120, l180, u180, l300, u300, and_self, and_true, and_false, false_and, true_and,
        decide_True, decide_False]
      decide
    · rcases lt_or_le genPt 80 with h80 | h80
      · have l20 : (genPt ≥ 20) = True := eq_true (by linarith)
        have l30 : (genPt ≥ 30) = True := eq_true (by linarith)
        have u30 : (genPt < 30) = False := eq_false (by linarith)
        have l50 : (genPt ≥ 50) = True := eq_true (by linarith)
        have u50 : (genPt < 50) = False := eq_false (by linarith)
        have l80 : (genPt ≥ 80) = False := eq_false (by linarith)
        have u80 : (genPt < 80) = True := eq_true (by linarith)
        have l120 : (genPt ≥ 120) = False := eq_false (by linarith)
        have u120 : (genPt < 120) = True := eq_true (by linarith)
        have l180 : (genPt ≥ 180) = False := eq_false (by linarith)
        have u180 : (genPt < 180) = True := eq_true (by linarith)
        have l300 : (genPt ≥ 300) = False := eq_false (by linarith)
        have u300 : (genPt < 300) = True := eq_true (by linarith)
        simp only [l20, l30, u30, l50, u50, l80, u80, l120, u120, l180, u180, l300, u300, and_self, and_true, and_false, false_and, true_and,
          decide_True, decide_False]
        decide
      · rcases lt_or_le genPt 120 with h120 | h120
        · have l20 : (genPt ≥ 20) = True := eq_true (by linarith)
          have l30 : (genPt ≥ 30) = True := eq_true (by linarith)
          have u30 : (genPt < 30) = False := eq_false (by linarith)
          have l50 : (genPt ≥ 50) = True := eq_true (by linarith)
          have u50 : (genPt < 50) = False := eq_false (by linarith)
          have l80 : (genPt ≥ 80) = True := eq_true (by linarith)
          have u80 : (genPt < 80) = False := eq_false (by linarith)
          have l120 : (genPt ≥ 120) = False := eq_false (by linarith)
          have u120 : (genPt < 120) = True := eq_true (by linarith)
          have l180 : (genPt ≥ 180) = False := eq_false (by linarith)
          have u180 : (genPt < 180) = True := eq_true (by linarith)
          have l300 : (genPt ≥ 300) = False := eq_false (by linarith)
          have u300 : (genPt < 300) = True := eq_true (by linarith)
          simp only [l20, l30, u30, l50, u50, l80, u80, l120, u120, l180, u180, l300, u300, and_self, and_true, and_false, false_and, true_and,
            decide_True, decide_False]
          decide
        · rcases lt_or_le genPt 180 with h180 | h180
          · have l20 : (genPt ≥ 20) = True := eq_true (by linarith)
            have l30 : (genPt ≥ 30) = True := eq_true (by linarith)
            have u30 : (genPt < 30) = False := eq_false (by linarith)
            have l50 : (genPt ≥ 50) = True := eq_true (by linarith)
            have u50 : (genPt < 50) = False := eq_false (by linarith)
            have l80 : (genPt ≥ 80) = True := eq_true (by linarith)
            have u80 : (genPt < 80) = False := eq_false (by linarith)
            have l120 : (genPt ≥ 120) = True := eq_true (by linarith)
            have u120 : (genPt < 120) = False := eq_false (by linarith)
            have l180 : (genPt ≥ 180) = False := eq_false (by linarith)
            have u180 : (genPt < 180) = True := eq_true (by linarith)
            have l300 : (genPt ≥ 300) = False := eq_false (by linarith)
            have u300 : (genPt < 300) = True := eq_true (by linarith)
            simp only [l20, l30, u30, l50, u50, l80, u80, l120, u120, l180, u180, l300, u300, and_self, and_true, and_false, false_and, true_and,
              decide_True, decide_False]
            decide
          · rcases lt_or_le genPt 300 with h300 | h300
            · have l20 : (genPt ≥ 20) = True := eq_true (by linarith)
              have l30 : (genPt ≥ 30) = True := eq_true (by linarith)
              have u30 : (genPt < 30) = False := eq_false (by linarith)
              have l50 : (genPt ≥ 50) = True := eq_true (by linarith)
              have u50 : (genPt < 50) = False := eq_false (by linarith)
              have l80 : (genPt ≥ 80) = True := eq_true (by linarith)
              have u80 : (genPt < 80) = False := eq_false (by linarith)
              have l120 : (genPt ≥ 120) = True := eq_true (by linarith)
              have u120 : (genPt < 120) = False := eq_false (by linarith)
              have l180 : (genPt ≥ 180) = True := eq_true (by linarith)
              have u180 : (genPt < 180) = False := eq_false (by linarith)
              have l300 : (genPt ≥ 300) = False := eq_false (by linarith)
              have u300 : (genPt < 300) = True := eq_true (by linarith)
              simp only [l20, l30, u30, l50, u50, l80, u80, l120, u120, l180, u180, l300, u300, and_self, and_true, and_false, false_and, true_and,
                decide_True, decide_False]
              decide
            · have l20 : (genPt ≥ 20) = True := eq_true (by linarith)
              have l30 : (genPt ≥ 30) = True := eq_true (by linarith)
              have u30 : (genPt < 30) = False := eq_false (by linarith)
              have l50 : (genPt ≥ 50) = True := eq_true (by linarith)
              have u50 : (genPt < 50) = False := eq_false (by linarith)
              have l80 : (genPt ≥ 80) = True := eq_true (by linarith)
              have u80 : (genPt < 80) = False := eq_false (by linarith)
              have l120 : (genPt ≥ 120) = True := eq_true (by linarith)
              have u120 : (genPt < 120) = False := eq_false (by linarith)
              have l180 : (genPt ≥ 180) = True := eq_true (by linarith)
              have u180 : (genPt < 180) = False := eq_false (by linarith)
              have l300 : (genPt ≥ 300) = True := eq_true (by linarith)
              have u300 : (genPt < 300) = False := eq_false (by linarith)
              simp only [l20, l30, u30, l50, u50, l80, u80, l120, u120, l180, u180, l300, u300, and_self, and_true, and_false, false_and, true_and,
                decide_True, decide_False]
              decide

theorem ptConditions_count_of_lt (genPt : ℚ) (h20 : genPt < 20) :
    (ptConditions genPt).count true = 0 := by
  unfold ptConditions ptIn_20_30 ptIn_30_50 ptIn_50_80 ptIn_80_120 ptIn_120_180 ptIn_180_300
    ptIn_300_Inf
  have l20 : (genPt ≥ 20) = False := eq_false (by linarith)
  have l30 : (genPt ≥ 30) = False := eq_false (by linarith)
  have l50 : (genPt ≥ 50) = False := eq_false (by linarith)
  have l80 : (genPt ≥ 80) = False := eq_false (by linarith)
  have l120 : (genPt ≥ 120) = False := eq_false (by linarith)
  have l180 : (genPt ≥ 180) = False := eq_false (by linarith)
  have l300 : (genPt ≥ 300) = False := eq_false (by linarith)
  simp only [l20, l30, l50, l80, l120, l180, l300, false_and, decide_False]
  decide

/-- C10: for every `genPt` the seven pT-range conditions of `analyze` are [20,30), [30,50),
[50,80), [80,120), [120,180), [180,300) and [300,inf); exactly one of them holds when
genPt >= 20 and none when genPt < 20 (so no two hold together), and each boundary value
30, 50, 80, 120, 180, 300 satisfies the condition of the range it opens and not the one
it closes. -/
theorem pt_conditions_partition (genPt : ℚ) :
    (ptIn_20_30 genPt = true ↔ 20 ≤ genPt ∧ genPt < 30) ∧
    (ptIn_30_50 genPt = true ↔ 30 ≤ genPt ∧ genPt < 50) ∧
    (ptIn_50_80 genPt = true ↔ 50 ≤ genPt ∧ genPt < 80) ∧
    (ptIn_80_120 genPt = true ↔ 80 ≤ genPt ∧ genPt < 120) ∧
    (ptIn_120_180 genPt = true ↔ 120 ≤ genPt ∧ genPt < 180) ∧
    (ptIn_180_300 genPt = true ↔ 180 ≤ genPt ∧ genPt < 300) ∧
    (ptIn_300_Inf genPt = true ↔ 300 ≤ genPt) ∧
    ((ptConditions genPt).count true = if 20 ≤ genPt then 1 else 0) ∧
    (ptIn_20_30 20 = true ∧ ptIn_30_50 30 = true ∧ ptIn_50_80 50 = true ∧
      ptIn_80_120 80 = true ∧ ptIn_120_180 120 = true ∧ ptIn_180_300 180 = true ∧
      ptIn_300_Inf 300 = true) ∧
    (ptIn_20_30 30 = false ∧ ptIn_30_50 50 = false ∧ ptIn_50_80 80 = false ∧
      ptIn_80_120 120 = false ∧ ptIn_120_180 180 = false ∧ ptIn_180_300 300 = false) := by
  refine ⟨by simp [ptIn_20_30], by simp [ptIn_30_50], by simp [ptIn_50_80],
    by simp [ptIn_80_120], by simp [ptIn_120_180], by simp [ptIn_180_300],
    by simp [ptIn_300_Inf], ?_, ?_, ?_⟩
  · by_cases h20 : 20 ≤ genPt
    · rw [if_pos h20]; exact ptConditions_count_of_ge genPt h20
    · rw [if_neg h20]; exact ptConditions_count_of_lt genPt (not_le.mp h20)
  · norm_num [ptIn_20_30, ptIn_30_50, ptIn_50_80, ptIn_80_120, ptIn_120_180, ptIn_180_300,
      ptIn_300_Inf]
  · norm_num [ptIn_20_30, ptIn_30_50, ptIn_50_80, ptIn_80_120, ptIn_120_180, ptIn_180_300,
      ptIn_300_Inf]

/-! ## The Fill calls of one generator jet -/

theorem ptConditions_cases (genpt : ℚ) :
    (genpt < 20 ∧
      ptConditions genpt = [false, false, false, false, false, false, false]) ∨
    (20 ≤ genpt ∧ ∃ p : PtRange, ptConditions genpt = ptRangeFlags p) := by
  unfold ptConditions ptIn_20_30 ptIn_30_50 ptIn_50_80 ptIn_80_120 ptIn_120_180 ptIn_180_300
    ptIn_300_Inf
  rcases lt_or_le genpt 20 with h20 | h20
  · have l20 : (genpt ≥ 20) = False := eq_false (by linarith)
    have l30 : (genpt ≥ 30) = False := eq_false (by linarith)
    have l50 : (genpt ≥ 50) = False := eq_false (by linarith)
    have l80 : (genpt ≥ 80) = False := eq_false (by linarith)
    have l120 : (genpt ≥ 120) = False := eq_false (by linarith)
    have l180 : (genpt ≥ 180) = False := eq_false (by linarith)
    have l300 : (genpt ≥ 300) = False := eq_false (by linarith)
    simp only [l20, l30, l50, l80, l120, l180, l300, false_and, decide_False]
    exact Or.inl ⟨h20, trivial⟩
  · refine Or.inr ⟨h20, ?_⟩
    rcases lt_or_le genpt 30 with h30 | h30
    · have l20 : (genpt ≥ 20) = True := eq_true (by linarith)
      have l30 : (genpt ≥ 30) = False := eq_false (by linarith)
      have u30 : (genpt < 30) = True := eq_true (by linarith)
      have l50 : (genpt ≥ 50) = False := eq_false (by linarith)
      have u50 : (genpt < 50) = True := eq_true (by linarith)
      have l80 : (genpt ≥ 80) = False := eq_false (by linarith)
      have u80 : (genpt < 80) = True := eq_true (by linarith)
      have l120 : (genpt ≥ 120) = False := eq_false (by linarith)
      have u120 : (genpt < 120) = True := eq_true (by linarith)
      have l180 : (genpt ≥ 180) = False := eq_false (by linarith)
      have u180 : (genpt < 180) = True := eq_true (by linarith)
      have l300 : (genpt ≥ 300) = False := eq_false (by linarith)
      have u300 : (genpt < 300) = True := eq_true (by linarith)
      simp only [l20, l30, u30, l50, u50, l80, u80, l120, u120, l180, u180, l300, u300, and_self, and_true, and_false, false_and, true_and,
        decide_True, decide_False]
      exact ⟨PtRange.pt_20_30, rfl⟩
    · rcases lt_or_le genpt 50 with h50 | h50
      · have l20 : (genpt ≥ 20) = True := eq_true (by linarith)
        have l30 : (genpt ≥ 30) = True := eq_true (by linarith)
        have u30 : (genpt < 30) = False := eq_false (by linarith)
        have l50 : (genpt ≥ 50) = False := eq_false (by linarith)
        have u50 : (genpt < 50) = True := eq_true (by linarith)
        have l80 : (genpt ≥ 80) = False := eq_false (by linarith)
        have u80 : (genpt < 80) = True := eq_true (by linarith)
        have l120 : (genpt ≥ 120) = False := eq_false (by linarith)
        have u120 : (genpt < 120) = True := eq_true (by linarith)
        have l180 : (genpt ≥ 180) = False := eq_false (by linarith)
        have u180 : (genpt < 180) = True := eq_true (by linarith)
        have l300 : (genpt ≥ 300) = False := eq_false (by linarith)
        have u300 : (genpt < 300) = True := eq_true (by linarith)
        simp only [l20, l30, u30, l50, u50, l80, u80, l120, u120, l180, u180, l300, u300, and_self, and_true, and_false, false_and, true_and,
          decide_True, decide_False]
        exact ⟨PtRange.pt_30_50, rfl⟩
      · rcases lt_or_le genpt 80 with h80 | h80
        · have l20 : (genpt ≥ 20) = True := eq_true (by linarith)
          have l30 : (genpt ≥ 30) = True := eq_true (by linarith)
          have u30 : (genpt < 30) = False := eq_false (by linarith)
          have l50 : (genpt ≥ 50) = True := eq_true (by linarith)
          have u50 : (genpt < 50) = False := eq_false (by linarith)
          have l80 : (genpt ≥ 80) = False := eq_false (by linarith)
          have u80 : (genpt < 80) = True := eq_true (by linarith)
          have l120 : (genpt ≥ 120) = False := eq_false (by linarith)
          have u120 : (genpt < 120) = True := eq_true (by linarith)
          have l180 : (genpt ≥ 180) = False := eq_false (by linarith)
          have u180 : (genpt < 180) = True := eq_true (by linarith)
          have l300 : (genpt ≥ 300) = False := eq_false (by linarith)
          have u300 : (genpt < 300) = True := eq_true (by linarith)
          simp only [l20, l30, u30, l50, u50, l80, u80, l120, u120, l180, u180, l300, u300, and_self, and_true, and_false, false_and, true_and,
            decide_True, decide_False]
          exact ⟨PtRange.pt_50_80, rfl⟩
        · rcases lt_or_le genpt 120 with h120 | h120
          · have l20 : (genpt ≥ 20) = True := eq_true (by linarith)
            have l30 : (genpt ≥ 30) = True := eq_true (by linarith)
            have u30 : (genpt < 30) = False := eq_false (by linarith)
            have l50 : (genpt ≥ 50) = True := eq_true (by linarith)
            have u50 : (genpt < 50) = False := eq_false (by linarith)
            have l80 : (genpt ≥ 80) = True := eq_true (by linarith)
            have u80 : (genpt < 80) = False := eq_false (by linarith)
            have l120 : (genpt ≥ 120) = False := eq_false (by linarith)
            have u120 : (genpt < 120) = True := eq_true (by linarith)
            have l180 : (genpt ≥ 180) = False := eq_false (by linarith)
            have u180 : (genpt < 180) = True := eq_true (by linarith)
            have l300 : (genpt ≥ 300) = False := eq_false (by linarith)
            have u300 : (genpt < 300) = True := eq_true (by linarith)
            simp only [l20, l30, u30, l50, u50, l80, u80, l120, u120, l180, u180, l300, u300, and_self, and_true, and_false, false_and, true_and,
              decide_True, decide_False]
            exact ⟨PtRange.pt_80_120, rfl⟩
          · rcases lt_or_le genpt 180 with h180 | h180
            · have l20 : (genpt ≥ 20) = True := eq_true (by linarith)
              have l30 : (genpt ≥ 30) = True := eq_true (by linarith)
              have u30 : (genpt < 30) = False := eq_false (by linarith)
              have l50 : (genpt ≥ 50) = True := eq_true (by linarith)
              have u50 : (genpt < 50) = False := eq_false (by linarith)
              have l80 : (genpt ≥ 80) = True := eq_true (by linarith)
              have u80 : (genpt < 80) = False := eq_false (by linarith)
              have l120 : (genpt ≥ 120) = True := eq_true (by linarith)
              have u120 : (genpt < 120) = False := eq_false (by linarith)
              have l180 : (genpt ≥ 180) = False := eq_false (by linarith)
              have u180 : (genpt < 180) = True := eq_true (by linarith)
              have l300 : (genpt ≥ 300) = False := eq_false (by linarith)
              have u300 : (genpt < 300) = True := eq_true (by linarith)
              simp only [l20, l30, u30, l50, u50, l80, u80, l120, u120, l180, u180, l300, u300, and_self, and_true, and_false, false_and, true_and,
                decide_True, decide_False]
              exact ⟨PtRange.pt_120_180, rfl⟩
            · rcases lt_or_le genpt 300 with h300 | h300
              · have l20 : (genpt ≥ 20) = True := eq_true (by linarith)
                have l30 : (genpt ≥ 30) = True := eq_true (by linarith)
                have u30 : (genpt < 30) = False := eq_false (by linarith)
                have l50 : (genpt ≥ 50) = True := eq_true (by linarith)
                have u50 : (genpt < 50) = False := eq_false (by linarith)
                have l80 : (genpt ≥ 80) = True := eq_true (by linarith)
                have u80 : (genpt < 80) = False := eq_false (by linarith)
                have l120 : (genpt ≥ 120) = True := eq_true (by linarith)
                have u120 : (genpt < 120) = False := eq_false (by linarith)
                have l180 : (genpt ≥ 180) = True := eq_true (by linarith)
                have u180 : (genpt < 180) = False := eq_false (by linarith)
                have l300 : (genpt ≥ 300) = False := eq_false (by linarith)
                have u300 : (genpt < 300) = True := eq_true (by linarith)
                simp only [l20, l30, u30, l50, u50, l80, u80, l120, u120, l180, u180, l300, u300, and_self, and_true, and_false, false_and, true_and,
                  decide_True, decide_False]
                exact ⟨PtRange.pt_180_300, rfl⟩
              · have l20 : (genpt ≥ 20) = True := eq_true (by linarith)
                have l30 : (genpt ≥ 30) = True := eq_true (by linarith)
                have u30 : (genpt < 30) = False := eq_false (by linarith)
                have l50 : (genpt ≥ 50) = True := eq_true (by linarith)
                have u50 : (genpt < 50) = False := eq_false (by linarith)
                have l80 : (genpt ≥ 80) = True := eq_true (by linarith)
                have u80 : (genpt < 80) = False := eq_false (by linarith)
                have l120 : (genpt ≥ 120) = True := eq_true (by linarith)
                have u120 : (genpt < 120) = False := eq_false (by linarith)
                have l180 : (genpt ≥ 180) = True := eq_true (by linarith)
                have u180 : (genpt < 180) = False := eq_false (by linarith)
                have l300 : (genpt ≥ 300) = True := eq_true (by linarith)
                have u300 : (genpt < 300) = False := eq_false (by linarith)
                simp only [l20, l30, u30, l50, u50, l80, u80, l120, u120, l180, u180, l300, u300, and_self, and_true, and_false, false_and, true_and,
                  decide_True, decide_False]
                exact ⟨PtRange.pt_300_Inf, rfl⟩

theorem regionOf_flags (cfg : Config) (eta : ℚ) (r : Region) (hr : regionOf cfg eta = some r) :
    inBarrel cfg eta = decide (r = Region.Barrel) ∧
    inEndcap cfg eta = decide (r = Region.Endcap) ∧
    inForward cfg eta = decide (r = Region.Forward) := by
  unfold regionOf at hr
  cases h1 : inBarrel cfg eta <;> cases h2 : inEndcap cfg eta <;>
    cases h3 : inForward cfg eta <;> rw [h1, h2, h3] at hr <;>
    simp at hr <;> subst hr <;> decide

theorem centralityOf_flags (hibin : Int) (c : Centrality) (hc : centralityOf hibin = some c) :
    isCentral hibin = decide (c = Centrality.cent_0_10) ∧
    ismidCentral hibin = decide (c = Centrality.cent_10_30) ∧
    ismidPeripheral hibin = decide (c = Centrality.cent_30_50) ∧
    isPeripheral hibin = decide (c = Centrality.cent_50_80) := by
  unfold centralityOf at hc
  cases h1 : isCentral hibin <;> cases h2 : ismidCentral hibin <;>
    cases h3 : ismidPeripheral hibin <;> cases h4 : isPeripheral hibin <;>
    rw [h1, h2, h3, h4] at hc <;> simp at hc <;> subst hc <;> decide

theorem ptRangeOf_eq_none_of_lt (genpt : ℚ) (h : genpt < 20) : ptRangeOf genpt = none := by
  rcases ptConditions_cases genpt with ⟨_, hc⟩ | ⟨h20, _⟩
  · unfold ptRangeOf
    rw [hc]
    decide
  · exact absurd h (not_lt.mpr h20)

theorem ptRangeOf_isSome_of_ge (genpt : ℚ) (h : 20 ≤ genpt) :
    ∃ p, ptRangeOf genpt = some p := by
  rcases ptConditions_cases genpt with ⟨hlt, _⟩ | ⟨_, p, hc⟩
  · exact absurd hlt (not_lt.mpr h)
  · refine ⟨p, ?_⟩
    unfold ptRangeOf
    rw [hc]
    cases p <;> decide

theorem responseFills_no_range (b1 b2 b3 c1 c2 c3 c4 : Bool) (genpt geneta response : ℚ)
    (h : ptConditions genpt = [false, false, false, false, false, false, false]) :
    responseFills b1 b2 b3 c1 c2 c3 c4 genpt geneta response
      = onlyIf b1 (
          onlyIf c1 [(Field.mPtRecoOverGen_GenPt_B_Cent_0_10, FillArgs.log10xy genpt response)] ++
          onlyIf c2 [(Field.mPtRecoOverGen_GenPt_B_Cent_10_30, FillArgs.log10xy genpt response)] ++
          onlyIf c3 [(Field.mPtRecoOverGen_GenPt_B_Cent_30_50, FillArgs.log10xy genpt response)] ++
          onlyIf c4 [(Field.mPtRecoOverGen_GenPt_B_Cent_50_80, FillArgs.log10xy genpt response)]) ++
        onlyIf b2 (
          onlyIf c1 [(Field.mPtRecoOverGen_GenPt_E_Cent_0_10, FillArgs.log10xy genpt response)] ++
          onlyIf c2 [(Field.mPtRecoOverGen_GenPt_E_Cent_10_30, FillArgs.log10xy genpt response)] ++
          onlyIf c3 [(Field.mPtRecoOverGen_GenPt_E_Cent_30_50, FillArgs.log10xy genpt response)] ++
          onlyIf c4 [(Field.mPtRecoOverGen_GenPt_E_Cent_50_80, FillArgs.log10xy genpt response)]) ++
        onlyIf b3 (
          onlyIf c1 [(Field.mPtRecoOverGen_GenPt_F_Cent_0_10, FillArgs.log10xy genpt response)] ++
          onlyIf c2 [(Field.mPtRecoOverGen_GenPt_F_Cent_10_30, FillArgs.log10xy genpt response)] ++
          onlyIf c3 [(Field.mPtRecoOverGen_GenPt_F_Cent_30_50, FillArgs.log10xy genpt response)] ++
          onlyIf c4 [(Field.mPtRecoOverGen_GenPt_F_Cent_50_80, FillArgs.log10xy genpt response)]) := by
  simp only [ptConditions, List.cons.injEq, and_true] at h
  obtain ⟨p1, p2, p3, p4, p5, p6, p7⟩ := h
  unfold responseFills
  rw [p1, p2, p3, p4, p5, p6, p7]
  simp only [onlyIf_false, List.append_nil]

set_option maxHeartbeats 4000000 in
/-- The `Fill` calls of the response block are those of the cell the jet is classified in:
the pT profile of (region, centrality) always, and the eta profile of (pT range,
centrality) with the discrete histogram of (region, pT range, centrality) when `genpt`
lies in a pT range. -/
theorem responseFills_eq_cellFills (cfg : Config) (eta : ℚ) (hibin : Int)
    (genpt geneta response : ℚ) (r : Region) (c : Centrality)
    (hr : regionOf cfg eta = some r) (hc : centralityOf hibin = some c) :
    responseFills (inBarrel cfg eta) (inEndcap cfg eta) (inForward cfg eta)
        (isCentral hibin) (ismidCentral hibin) (ismidPeripheral hibin) (isPeripheral hibin)
        genpt geneta response
      = cellFills r c (ptRangeOf genpt) genpt geneta response := by
  obtain ⟨r1, r2, r3⟩ := regionOf_flags cfg eta r hr
  obtain ⟨c1, c2, c3, c4⟩ := centralityOf_flags hibin c hc
  rw [r1, r2, r3, c1, c2, c3, c4]
  rcases ptConditions_cases genpt with ⟨_, hpc⟩ | ⟨_, p, hpc⟩
  · have hp : ptRangeOf genpt = none := by unfold ptRangeOf; rw [hpc]; decide
    rw [hp, responseFills_no_range _ _ _ _ _ _ _ _ _ _ hpc]
    cases r <;> cases c <;> rfl
  · have hp : ptRangeOf genpt = some p := by
      unfold ptRangeOf; rw [hpc]; cases p <;> decide
    rw [hp]
    unfold responseFills
    simp only [ptConditions] at hpc
    cases p <;> simp only [ptRangeFlags, List.cons.injEq, and_true] at hpc <;>
      obtain ⟨p1, p2, p3, p4, p5, p6, p7⟩ := hpc <;>
      rw [p1, p2, p3, p4, p5, p6, p7] <;>
      simp only [onlyIf_false, onlyIf_true, List.append_nil, List.nil_append] <;>
      cases r <;> cases c <;> rfl

theorem matchLoop_nil (deltaR : ℚ → ℚ → ℚ → ℚ → ℚ) (gjet : Jet) :
    matchLoop deltaR gjet [] = matchInit := rfl

theorem analyzeGenJet_of_match (deltaR : ℚ → ℚ → ℚ → ℚ → ℚ) (cfg : Config) (hibin : Int)
    (recoJets : List Jet) (h : Hists) (gjet : Jet)
    (hacc : |gjet.eta| ≤ 6) (hthr : cfg.mMatchGenPtThreshold ≤ gjet.pt)
    (hm : 0 ≤ (matchLoop deltaR gjet recoJets).iMatch)
    (hdr : (matchLoop deltaR gjet recoJets).deltaRBest < cfg.mRThreshold) :
    analyzeGenJet deltaR cfg hibin recoJets h gjet
      = runFills
          (responseFills (inBarrel cfg gjet.eta) (inEndcap cfg gjet.eta) (inForward cfg gjet.eta)
            (isCentral hibin) (ismidCentral hibin) (ismidPeripheral hibin) (isPeripheral hibin)
            gjet.pt gjet.eta ((matchLoop deltaR gjet recoJets).JetPtBest / gjet.pt)) h := by
  have hne : ¬ recoJets.length ≤ 0 := by
    intro hlen
    have hnil : recoJets = [] := List.length_eq_zero.mp (Nat.le_zero.mp hlen)
    rw [hnil, matchLoop_nil] at hm
    exact absurd hm (by decide)
  unfold analyzeGenJet
  rw [if_neg (not_lt.mpr hacc), if_neg (not_lt.mpr hthr), if_neg hne]
  simp only [if_neg (not_lt.mpr hm), if_pos hdr]

set_option maxRecDepth 100000 in
theorem bookHistograms_genPtField (r : Region) (c : Centrality) :
    bookHistograms (genPtField r c) = some [] := by
  cases r <;> cases c <;> decide

theorem Booked_genPtField (h : Hists) (hb : Booked h) (r : Region) (c : Centrality) :
    ∃ es, h (genPtField r c) = some es := by
  have h1 := hb (genPtField r c)
  rw [bookHistograms_genPtField] at h1
  exact Option.isSome_iff_exists.mp h1

/-- C5: for a matched generator jet that passes the DeltaR cut, with
`matchGenPtThreshold <= genPt < 20` and a valid region and centrality, `analyze` ends
normally and changes exactly one member, the pT profile of (region, centrality), which
receives the one entry (log10(genPt), response); every other member, so every eta
profile and every discrete histogram, is as before. -/
theorem analyze_below_20_fills_pt_profile_only (deltaR : ℚ → ℚ → ℚ → ℚ → ℚ) (cfg : Config)
    (hibin : Int) (recoJets : List Jet) (h : Hists) (gjet : Jet) (r : Region) (c : Centrality)
    (hb : Booked h)
    (hacc : |gjet.eta| ≤ 6) (hthr : cfg.mMatchGenPtThreshold ≤ gjet.pt) (hpt : gjet.pt < 20)
    (hm : 0 ≤ (matchLoop deltaR gjet recoJets).iMatch)
    (hdr : (matchLoop deltaR gjet recoJets).deltaRBest < cfg.mRThreshold)
    (hr : regionOf cfg gjet.eta = some r) (hc : centralityOf hibin = some c) :
    ∃ es, h (genPtField r c) = some es ∧
      analyzeGenJet deltaR cfg hibin recoJets h gjet
        = Except.ok (Function.update h (genPtField r c)
            (some (es ++ [FillArgs.log10xy gjet.pt
              ((matchLoop deltaR gjet recoJets).JetPtBest / gjet.pt)]))) := by
  obtain ⟨es, hes⟩ := Booked_genPtField h hb r c
  refine ⟨es, hes, ?_⟩
  rw [analyzeGenJet_of_match deltaR cfg hibin recoJets h gjet hacc hthr hm hdr,
    responseFills_eq_cellFills cfg gjet.eta hibin _ _ _ r c hr hc,
    ptRangeOf_eq_none_of_lt gjet.pt hpt]
  simp only [cellFills, runFills, Fill_of_booked h _ _ es hes]

theorem regionOf_example_barrel : regionOf exampleConfig (1 / 10) = some Region.Barrel := by
  have e1 : inBarrel exampleConfig (1 / 10) = true := by
    norm_num [inBarrel, exampleConfig, abs_lt]
  have e2 : inEndcap exampleConfig (1 / 10) = false := by
    norm_num [inEndcap, exampleConfig, abs_lt, le_abs]
  have e3 : inForward exampleConfig (1 / 10) = false := by
    norm_num [inForward, exampleConfig, abs_lt, le_abs]
  unfold regionOf
  rw [e1, e2, e3]

theorem matchLoop_example_single (gpt rpt eta : ℚ) (hr : rpt > 10) :
    matchLoop deltaRSamePhi { pt := gpt, eta := eta, phi := 0 }
        [{ pt := rpt, eta := eta, phi := 0 }]
      = { iMatch := 0, deltaRBest := 0, JetPtBest := rpt } := by
  simp [matchLoop, matchLoopFrom, matchStep, matchInit, deltaRSamePhi, hr]

/-- C5 (witness): generator jet with pt 15 in the Barrel, matched to a jet with pt 16, hibin 10,
on the members as `bookHistograms` leaves them. -/
theorem analyze_below_20_fills_pt_profile_only_witness :
    ∃ es, bookHistograms (genPtField Region.Barrel Centrality.cent_0_10) = some es ∧
      analyzeGenJet deltaRSamePhi exampleConfig 10 [{ pt := 16, eta := 1 / 10, phi := 0 }]
          bookHistograms { pt := 15, eta := 1 / 10, phi := 0 }
        = Except.ok (Function.update bookHistograms
            (genPtField Region.Barrel Centrality.cent_0_10)
            (some (es ++ [FillArgs.log10xy
              ({ pt := 15, eta := 1 / 10, phi := 0 } : Jet).pt
              ((matchLoop deltaRSamePhi { pt := 15, eta := 1 / 10, phi := 0 }
                  [{ pt := 16, eta := 1 / 10, phi := 0 }]).JetPtBest
                / ({ pt := 15, eta := 1 / 10, phi := 0 } : Jet).pt)]))) :=
  analyze_below_20_fills_pt_profile_only deltaRSamePhi exampleConfig 10
    [{ pt := 16, eta := 1 / 10, phi := 0 }] bookHistograms { pt := 15, eta := 1 / 10, phi := 0 }
    Region.Barrel Centrality.cent_0_10
    (fun _ => rfl)
    (by norm_num [abs_le])
    (by norm_num [exampleConfig])
    (by norm_num)
    (by rw [matchLoop_example_single 15 16 (1 / 10) (by norm_num)])
    (by rw [matchLoop_example_single 15 16 (1 / 10) (by norm_num)]; norm_num [exampleConfig])
    regionOf_example_barrel
    (by decide)

set_option maxRecDepth 100000 in
theorem bookHistograms_no_entries (f : Field) : (bookHistograms f).getD [] = [] := by
  cases f <;> decide

/-- C7 (as amended): for a generated jet that passes the pT and DeltaR cuts with a valid
region and centrality, `analyze` performs the `Fill` calls of `cellFills`: first the
response-vs-generator-pT entry, in the pT profile selected by (region, centrality) only
and whatever `genPt` is; the response-vs-pseudorapidity entry goes to the eta profile
selected by (pT range, centrality), not by region, and is filled only when `genPt` lies
in one of the 7 pT ranges, so never for `genPt < 20`. -/
theorem analyze_fills_of_classified (deltaR : ℚ → ℚ → ℚ → ℚ → ℚ) (cfg : Config)
    (hibin : Int) (recoJets : List Jet) (h : Hists) (gjet : Jet) (r : Region) (c : Centrality)
    (hacc : |gjet.eta| ≤ 6) (hthr : cfg.mMatchGenPtThreshold ≤ gjet.pt)
    (hm : 0 ≤ (matchLoop deltaR gjet recoJets).iMatch)
    (hdr : (matchLoop deltaR gjet recoJets).deltaRBest < cfg.mRThreshold)
    (hr : regionOf cfg gjet.eta = some r) (hc : centralityOf hibin = some c) :
    analyzeGenJet deltaR cfg hibin recoJets h gjet
        = runFills (cellFills r c (ptRangeOf gjet.pt) gjet.pt gjet.eta
            ((matchLoop deltaR gjet recoJets).JetPtBest / gjet.pt)) h ∧
    (cellFills r c (ptRangeOf gjet.pt) gjet.pt gjet.eta
        ((matchLoop deltaR gjet recoJets).JetPtBest / gjet.pt)).head?
      = some (genPtField r c, FillArgs.log10xy gjet.pt
          ((matchLoop deltaR gjet recoJets).JetPtBest / gjet.pt)) ∧
    (gjet.pt < 20 → ptRangeOf gjet.pt = none) ∧
    (20 ≤ gjet.pt → ∃ p, ptRangeOf gjet.pt = some p) := by
  refine ⟨?_, rfl, ptRangeOf_eq_none_of_lt gjet.pt, ptRangeOf_isSome_of_ge gjet.pt⟩
  rw [analyzeGenJet_of_match deltaR cfg hibin recoJets h gjet hacc hthr hm hdr,
    responseFills_eq_cellFills cfg gjet.eta hibin _ _ _ r c hr hc]

theorem regionOf_example_endcap : regionOf exampleConfig (5 / 2) = some Region.Endcap := by
  have e1 : inBarrel exampleConfig (5 / 2) = false := by
    norm_num [inBarrel, exampleConfig, abs_lt, le_abs]
  have e2 : inEndcap exampleConfig (5 / 2) = true := by
    norm_num [inEndcap, exampleConfig, abs_lt, le_abs]
  have e3 : inForward exampleConfig (5 / 2) = false := by
    norm_num [inForward, exampleConfig, abs_lt, le_abs]
  unfold regionOf
  rw [e1, e2, e3]

/-- C7 (witness of the amended claim): generator jet with pt 55 in the Endcap, matched to a
jet with pt 60, hibin 70. -/
theorem analyze_fills_of_classified_witness :
    analyzeGenJet deltaRSamePhi exampleConfig 70 [{ pt := 60, eta := 5 / 2, phi := 0 }]
          bookHistograms { pt := 55, eta := 5 / 2, phi := 0 }
        = runFills (cellFills Region.Endcap Centrality.cent_30_50
            (ptRangeOf ({ pt := 55, eta := 5 / 2, phi := 0 } : Jet).pt)
            ({ pt := 55, eta := 5 / 2, phi := 0 } : Jet).pt
            ({ pt := 55, eta := 5 / 2, phi := 0 } : Jet).eta
            ((matchLoop deltaRSamePhi { pt := 55, eta := 5 / 2, phi := 0 }
                [{ pt := 60, eta := 5 / 2, phi := 0 }]).JetPtBest
              / ({ pt := 55, eta := 5 / 2, phi := 0 } : Jet).pt)) bookHistograms ∧
    (cellFills Region.Endcap Centrality.cent_30_50
        (ptRangeOf ({ pt := 55, eta := 5 / 2, phi := 0 } : Jet).pt)
        ({ pt := 55, eta := 5 / 2, phi := 0 } : Jet).pt
        ({ pt := 55, eta := 5 / 2, phi := 0 } : Jet).eta
        ((matchLoop deltaRSamePhi { pt := 55, eta := 5 / 2, phi := 0 }
            [{ pt := 60, eta := 5 / 2, phi := 0 }]).JetPtBest
          / ({ pt := 55, eta := 5 / 2, phi := 0 } : Jet).pt)).head?
      = some (genPtField Region.Endcap Centrality.cent_30_50,
          FillArgs.log10xy ({ pt := 55, eta := 5 / 2, phi := 0 } : Jet).pt
            ((matchLoop deltaRSamePhi { pt := 55, eta := 5 / 2, phi := 0 }
                [{ pt := 60, eta := 5 / 2, phi := 0 }]).JetPtBest
              / ({ pt := 55, eta := 5 / 2, phi := 0 } : Jet).pt)) ∧
    (({ pt := 55, eta := 5 / 2, phi := 0 } : Jet).pt < 20 →
      ptRangeOf ({ pt := 55, eta := 5 / 2, phi := 0 } : Jet).pt = none) ∧
    (20 ≤ ({ pt := 55, eta := 5 / 2, phi := 0 } : Jet).pt →
      ∃ p, ptRangeOf ({ pt := 55, eta := 5 / 2, phi := 0 } : Jet).pt = some p) :=
  analyze_fills_of_classified deltaRSamePhi exampleConfig 70
    [{ pt := 60, eta := 5 / 2, phi := 0 }] bookHistograms { pt := 55, eta := 5 / 2, phi := 0 }
    Region.Endcap Centrality.cent_30_50
    (by norm_num [abs_le])
    (by norm_num [exampleConfig])
    (by rw [matchLoop_example_single 55 60 (5 / 2) (by norm_num)])
    (by rw [matchLoop_example_single 55 60 (5 / 2) (by norm_num)]; norm_num [exampleConfig])
    regionOf_example_endcap
    (by decide)

set_option maxRecDepth 100000 in
/-- C7 (counterexample): a generated jet with pt 12 (threshold 10), eta 2.5 (Endcap),
matched at DeltaR 0 to a reconstructed jet with pt 13 in an event with hibin 70
(30-50%): `analyze` ends normally, the pT profile of (Endcap, 30-50%) holds the one
entry (log10(12), 13/12), and no member holds a response-vs-pseudorapidity entry. -/
theorem analyze_below_20_records_no_eta_entry :
    regionOf exampleConfig (5 / 2) = some Region.Endcap ∧
    centralityOf 70 = some Centrality.cent_30_50 ∧
    ∃ h1 : Hists,
      analyzeGenJet deltaRSamePhi exampleConfig 70 [{ pt := 13, eta := 5 / 2, phi := 0 }]
          bookHistograms { pt := 12, eta := 5 / 2, phi := 0 } = Except.ok h1 ∧
      h1 Field.mPtRecoOverGen_GenPt_E_Cent_30_50 = some [FillArgs.log10xy 12 (13 / 12)] ∧
      ∀ (f : Field) (geneta response : ℚ), FillArgs.xy geneta response ∉ (h1 f).getD [] := by
  refine ⟨regionOf_example_endcap, by decide, ?_⟩
  have m := matchLoop_example_single 12 13 (5 / 2) (by norm_num)
  have hbk := bookHistograms_genPtField Region.Endcap Centrality.cent_30_50
  have hrun : analyzeGenJet deltaRSamePhi exampleConfig 70 [{ pt := 13, eta := 5 / 2, phi := 0 }]
      bookHistograms { pt := 12, eta := 5 / 2, phi := 0 }
      = Except.ok (Function.update bookHistograms (genPtField Region.Endcap Centrality.cent_30_50)
          (some [FillArgs.log10xy 12 (13 / 12)])) := by
    rw [analyzeGenJet_of_match deltaRSamePhi exampleConfig 70
        [{ pt := 13, eta := 5 / 2, phi := 0 }] bookHistograms { pt := 12, eta := 5 / 2, phi := 0 }
        (by norm_num [abs_le]) (by norm_num [exampleConfig]) (by rw [m])
        (by rw [m]; norm_num [exampleConfig]),
      responseFills_eq_cellFills exampleConfig _ 70 _ _ _ Region.Endcap Centrality.cent_30_50
        regionOf_example_endcap (by decide), m,
      ptRangeOf_eq_none_of_lt _ (by norm_num)]
    simp only [cellFills, runFills, Fill_of_booked bookHistograms _ _ [] hbk, List.nil_append]
  refine ⟨_, hrun, ?_, ?_⟩
  · simp [genPtField]
  · intro f geneta response
    by_cases hf : f = genPtField Region.Endcap Centrality.cent_30_50
    · subst hf
      simp
    · rw [Function.update_noteq hf, bookHistograms_no_entries]
      simp

theorem cell_fields_distinct (r : Region) (p : PtRange) (c : Centrality) :
    genEtaField p c ≠ genPtField r c ∧ discField r p c ≠ genPtField r c ∧
    discField r p c ≠ genEtaField p c := by
  cases r <;> cases p <;> cases c <;> decide

/-- When the three members of the cell are booked, the `Fill` calls of a jet classified in
(region, pT range, centrality) end normally and append one entry to each of them. -/
theorem runFills_cellFills_booked (h : Hists) (r : Region) (p : PtRange) (c : Centrality)
    (genpt geneta response : ℚ) (e1 e2 e3 : List FillArgs)
    (h1 : h (genPtField r c) = some e1) (h2 : h (genEtaField p c) = some e2)
    (h3 : h (discField r p c) = some e3) :
    runFills (cellFills r c (some p) genpt geneta response) h
      = Except.ok
          (Function.update
            (Function.update
              (Function.update h (genPtField r c)
                (some (e1 ++ [FillArgs.log10xy genpt response])))
              (genEtaField p c) (some (e2 ++ [FillArgs.xy geneta response])))
            (discField r p c) (some (e3 ++ [FillArgs.x response]))) := by
  obtain ⟨d1, d2, d3⟩ := cell_fields_distinct r p c
  have s1 := Fill_of_booked h (genPtField r c) (FillArgs.log10xy genpt response) e1 h1
  have h2b : Function.update h (genPtField r c)
      (some (e1 ++ [FillArgs.log10xy genpt response])) (genEtaField p c) = some e2 := by
    rw [Function.update_noteq d1]; exact h2
  have s2 := Fill_of_booked _ (genEtaField p c) (FillArgs.xy geneta response) e2 h2b
  have h3b : Function.update (Function.update h (genPtField r c)
      (some (e1 ++ [FillArgs.log10xy genpt response]))) (genEtaField p c)
      (some (e2 ++ [FillArgs.xy geneta response])) (discField r p c) = some e3 := by
    rw [Function.update_noteq d3, Function.update_noteq d2]; exact h3
  have s3 := Fill_of_booked _ (discField r p c) (FillArgs.x response) e3 h3b
  simp only [cellFills, runFills, s1, s2, s3]

/-- When a member of the cell is null, the `Fill` calls of a jet classified in
(region, pT range, centrality) end on a null pointer. -/
theorem runFills_cellFills_null (h : Hists) (r : Region) (p : PtRange) (c : Centrality)
    (genpt geneta response : ℚ) (e1 : List FillArgs)
    (h1 : h (genPtField r c) = some e1) (h2 : h (genEtaField p c) = none) :
    runFills (cellFills r c (some p) genpt geneta response) h
      = Except.error (AnalyzeError.nullPointer (genEtaField p c)) := by
  obtain ⟨d1, _, _⟩ := cell_fields_distinct r p c
  have s1 := Fill_of_booked h (genPtField r c) (FillArgs.log10xy genpt response) e1 h1
  have h2b : Function.update h (genPtField r c)
      (some (e1 ++ [FillArgs.log10xy genpt response])) (genEtaField p c) = none := by
    rw [Function.update_noteq d1]; exact h2
  have s2 := Fill_of_null _ (genEtaField p c) (FillArgs.xy geneta response) h2b
  simp only [cellFills, runFills, s1, s2]

theorem ptRangeOf_of_flags (genpt : ℚ) (p : PtRange) (h : ptConditions genpt = ptRangeFlags p) :
    ptRangeOf genpt = some p := by
  unfold ptRangeOf
  rw [h]
  cases p <;> decide

theorem ptRangeOf_25 : ptRangeOf 25 = some PtRange.pt_20_30 :=
  ptRangeOf_of_flags 25 PtRange.pt_20_30 (by
    norm_num [ptConditions, ptRangeFlags, ptIn_20_30, ptIn_30_50, ptIn_50_80, ptIn_80_120,
      ptIn_120_180, ptIn_180_300, ptIn_300_Inf])

theorem ptRangeOf_40 : ptRangeOf 40 = some PtRange.pt_30_50 :=
  ptRangeOf_of_flags 40 PtRange.pt_30_50 (by
    norm_num [ptConditions, ptRangeFlags, ptIn_20_30, ptIn_30_50, ptIn_50_80, ptIn_80_120,
      ptIn_120_180, ptIn_180_300, ptIn_300_Inf])

set_option maxRecDepth 100000 in
/-- C4 (the code at the failing input): with the members as `bookHistograms` leaves them,
the example of the specification holds (genPt 25, eta 0.1, matched pt 26, hibin 10: one
entry with response 26/25 = 1.04 in each of the three members of (Barrel, [20,30),
0-10%)), but a generator jet with pt 40, eta 2.5 (Endcap), matched to a reconstructed
jet with pt 38 in an event with hibin 150 (50-80%) passes every cut and classification
and `analyze` ends on the null member `mPtRecoOverGen_GenEta_30_50_Cent_50_80`. -/
theorem analyze_cell_30_50_cent_50_80_null :
    (analyzeGenJet deltaRSamePhi exampleConfig 10 [{ pt := 26, eta := 1 / 10, phi := 0 }]
        bookHistograms { pt := 25, eta := 1 / 10, phi := 0 }
      = Except.ok
          (Function.update
            (Function.update
              (Function.update bookHistograms Field.mPtRecoOverGen_GenPt_B_Cent_0_10
                (some [FillArgs.log10xy 25 (26 / 25)]))
              Field.mPtRecoOverGen_GenEta_20_30_Cent_0_10
              (some [FillArgs.xy (1 / 10) (26 / 25)]))
            Field.mPtRecoOverGen_B_20_30_Cent_0_10 (some [FillArgs.x (26 / 25)]))) ∧
    ((26 : ℚ) / 25 = 104 / 100) ∧
    regionOf exampleConfig (5 / 2) = some Region.Endcap ∧
    centralityOf 150 = some Centrality.cent_50_80 ∧
    ptRangeOf 40 = some PtRange.pt_30_50 ∧
    0 ≤ (matchLoop deltaRSamePhi { pt := 40, eta := 5 / 2, phi := 0 }
          [{ pt := 38, eta := 5 / 2, phi := 0 }]).iMatch ∧
    (matchLoop deltaRSamePhi { pt := 40, eta := 5 / 2, phi := 0 }
          [{ pt := 38, eta := 5 / 2, phi := 0 }]).deltaRBest < exampleConfig.mRThreshold ∧
    analyzeGenJet deltaRSamePhi exampleConfig 150 [{ pt := 38, eta := 5 / 2, phi := 0 }]
        bookHistograms { pt := 40, eta := 5 / 2, phi := 0 }
      = Except.error (AnalyzeError.nullPointer Field.mPtRecoOverGen_GenEta_30_50_Cent_50_80) := by
  have m1 := matchLoop_example_single 25 26 (1 / 10) (by norm_num)
  have m2 := matchLoop_example_single 40 38 (5 / 2) (by norm_num)
  refine ⟨?_, by norm_num, regionOf_example_endcap, by decide, ptRangeOf_40, ?_, ?_, ?_⟩
  · rw [analyzeGenJet_of_match deltaRSamePhi exampleConfig 10 _ bookHistograms _
        (by norm_num [abs_le]) (by norm_num [exampleConfig]) (by rw [m1])
        (by rw [m1]; norm_num [exampleConfig]),
      responseFills_eq_cellFills exampleConfig _ 10 _ _ _ Region.Barrel Centrality.cent_0_10
        regionOf_example_barrel (by decide), m1]
    simp only [ptRangeOf_25]
    exact runFills_cellFills_booked bookHistograms Region.Barrel PtRange.pt_20_30
      Centrality.cent_0_10 25 (1 / 10) (26 / 25) [] [] [] (by decide) (by decide) (by decide)
  · rw [m2]
  · rw [m2]; norm_num [exampleConfig]
  · rw [analyzeGenJet_of_match deltaRSamePhi exampleConfig 150 _ bookHistograms _
        (by norm_num [abs_le]) (by norm_num [exampleConfig]) (by rw [m2])
        (by rw [m2]; norm_num [exampleConfig]),
      responseFills_eq_cellFills exampleConfig _ 150 _ _ _ Region.Endcap Centrality.cent_50_80
        regionOf_example_endcap (by decide), m2]
    simp only [ptRangeOf_40]
    exact runFills_cellFills_null bookHistograms Region.Endcap PtRange.pt_30_50
      Centrality.cent_50_80 40 (5 / 2) (38 / 40) [] (by decide) (by decide)

set_option maxHeartbeats 4000000 in
/-- For a jet outside the three regions, the only `Fill` call of the response block is the
one on the eta profile of (pT range, centrality), when `genpt` lies in a pT range. -/
theorem responseFills_outside_regions (hibin : Int) (genpt geneta response : ℚ)
    (c : Centrality) (hc : centralityOf hibin = some c) :
    responseFills false false false
        (isCentral hibin) (ismidCentral hibin) (ismidPeripheral hibin) (isPeripheral hibin)
        genpt geneta response
      = (match ptRangeOf genpt with
         | none => []
         | some p => [(genEtaField p c, FillArgs.xy geneta response)]) := by
  obtain ⟨c1, c2, c3, c4⟩ := centralityOf_flags hibin c hc
  rw [c1, c2, c3, c4]
  rcases ptConditions_cases genpt with ⟨_, hpc⟩ | ⟨_, p, hpc⟩
  · have hp : ptRangeOf genpt = none := by unfold ptRangeOf; rw [hpc]; decide
    rw [hp, responseFills_no_range _ _ _ _ _ _ _ _ _ _ hpc]
    rfl
  · have hp : ptRangeOf genpt = some p := ptRangeOf_of_flags genpt p hpc
    rw [hp]
    unfold responseFills
    simp only [ptConditions] at hpc
    cases p <;> simp only [ptRangeFlags, List.cons.injEq, and_true] at hpc <;>
      obtain ⟨p1, p2, p3, p4, p5, p6, p7⟩ := hpc <;>
      rw [p1, p2, p3, p4, p5, p6, p7] <;>
      simp only [onlyIf_false, onlyIf_true, List.append_nil, List.nil_append] <;>
      cases c <;> rfl

set_option maxRecDepth 100000 in
theorem bookHistograms_eq (f : Field) :
    bookHistograms f
      = if f ∈ [Field.mPtRecoOverGen_B_30_50_Cent_50_80, Field.mPtRecoOverGen_E_30_50_Cent_50_80,
                Field.mPtRecoOverGen_F_30_50_Cent_50_80,
                Field.mPtRecoOverGen_GenEta_30_50_Cent_50_80]
        then none else some [] := by
  cases f <;> decide

theorem bookHistograms_GenEta_30_50_Cent_0_10 :
    bookHistograms Field.mPtRecoOverGen_GenEta_30_50_Cent_0_10 = some [] := by
  rw [bookHistograms_eq]; decide

theorem bookHistograms_GenEta_30_50_Cent_50_80 :
    bookHistograms Field.mPtRecoOverGen_GenEta_30_50_Cent_50_80 = none := by
  rw [bookHistograms_eq]; decide

theorem region_flags_example_outside :
    inBarrel exampleConfig (11 / 2) = false ∧ inEndcap exampleConfig (11 / 2) = false ∧
    inForward exampleConfig (11 / 2) = false := by
  refine ⟨?_, ?_, ?_⟩
  · norm_num [inBarrel, exampleConfig, abs_lt, le_abs]
  · norm_num [inEndcap, exampleConfig, abs_lt, le_abs]
  · norm_num [inForward, exampleConfig, abs_lt, le_abs]

theorem ptRangeOf_45 : ptRangeOf 45 = some PtRange.pt_30_50 :=
  ptRangeOf_of_flags 45 PtRange.pt_30_50 (by
    norm_num [ptConditions, ptRangeFlags, ptIn_20_30, ptIn_30_50, ptIn_50_80, ptIn_80_120,
      ptIn_120_180, ptIn_180_300, ptIn_300_Inf])

/-- C6 (the code at the failing input): a generator jet with pt 45 and eta 5.5, between
`ForwardEta` = 5 and 6 so that no region flag is set, matched to a reconstructed jet with
pt 40. With hibin 10 (0-10%) `analyze` ends normally and the eta profile of ([30,50),
0-10%) receives (5.5, 40/45), the only member modified; with hibin 100 (50-80%) the eta
profile of ([30,50), 50-80%) is the null member `mPtRecoOverGen_GenEta_30_50_Cent_50_80`
and `analyze` ends on it. -/
theorem analyze_eta_profile_30_50_cent_50_80_null :
    exampleConfig.ForwardEta ≤ |(11 / 2 : ℚ)| ∧ |(11 / 2 : ℚ)| ≤ 6 ∧
    regionOf exampleConfig (11 / 2) = none ∧
    ptRangeOf 45 = some PtRange.pt_30_50 ∧
    centralityOf 10 = some Centrality.cent_0_10 ∧
    centralityOf 100 = some Centrality.cent_50_80 ∧
    0 ≤ (matchLoop deltaRSamePhi { pt := 45, eta := 11 / 2, phi := 0 }
          [{ pt := 40, eta := 11 / 2, phi := 0 }]).iMatch ∧
    (matchLoop deltaRSamePhi { pt := 45, eta := 11 / 2, phi := 0 }
          [{ pt := 40, eta := 11 / 2, phi := 0 }]).deltaRBest < exampleConfig.mRThreshold ∧
    analyzeGenJet deltaRSamePhi exampleConfig 10 [{ pt := 40, eta := 11 / 2, phi := 0 }]
        bookHistograms { pt := 45, eta := 11 / 2, phi := 0 }
      = Except.ok (Function.update bookHistograms Field.mPtRecoOverGen_GenEta_30_50_Cent_0_10
          (some [FillArgs.xy (11 / 2) (40 / 45)])) ∧
    analyzeGenJet deltaRSamePhi exampleConfig 100 [{ pt := 40, eta := 11 / 2, phi := 0 }]
        bookHistograms { pt := 45, eta := 11 / 2, phi := 0 }
      = Except.error (AnalyzeError.nullPointer Field.mPtRecoOverGen_GenEta_30_50_Cent_50_80) := by
  have m := matchLoop_example_single 45 40 (11 / 2) (by norm_num)
  obtain ⟨f1, f2, f3⟩ := region_flags_example_outside
  have hacc : |(11 / 2 : ℚ)| ≤ 6 := by norm_num [abs_le]
  refine ⟨by norm_num [exampleConfig, le_abs], hacc, ?_, ptRangeOf_45, by decide, by decide,
    ?_, ?_, ?_, ?_⟩
  · unfold regionOf
    rw [f1, f2, f3]
  · rw [m]
  · rw [m]; norm_num [exampleConfig]
  · rw [analyzeGenJet_of_match deltaRSamePhi exampleConfig 10
        [{ pt := 40, eta := 11 / 2, phi := 0 }] bookHistograms { pt := 45, eta := 11 / 2, phi := 0 }
        hacc (by norm_num [exampleConfig]) (by rw [m]) (by rw [m]; norm_num [exampleConfig])]
    simp only [f1, f2, f3]
    rw [responseFills_outside_regions 10 _ _ _ Centrality.cent_0_10 (by decide), m]
    simp only [ptRangeOf_45, genEtaField, runFills]
    rw [Fill_of_booked bookHistograms _ _ [] bookHistograms_GenEta_30_50_Cent_0_10]
    rfl
  · rw [analyzeGenJet_of_match deltaRSamePhi exampleConfig 100
        [{ pt := 40, eta := 11 / 2, phi := 0 }] bookHistograms { pt := 45, eta := 11 / 2, phi := 0 }
        hacc (by norm_num [exampleConfig]) (by rw [m]) (by rw [m]; norm_num [exampleConfig])]
    simp only [f1, f2, f3]
    rw [responseFills_outside_regions 100 _ _ _ Centrality.cent_50_80 (by decide), m]
    simp only [ptRangeOf_45, genEtaField, runFills]
    rw [Fill_of_null bookHistograms _ _ bookHistograms_GenEta_30_50_Cent_50_80]

/-! ## Jets that fill nothing -/

theorem onlyIf_nil {α : Type} (c : Bool) : onlyIf c ([] : List α) = [] := by
  cases c <;> rfl

theorem analyzeGenJet_eq_runFills (deltaR : ℚ → ℚ → ℚ → ℚ → ℚ) (cfg : Config) (hibin : Int)
    (recoJets : List Jet) (h : Hists) (gjet : Jet) :
    analyzeGenJet deltaR cfg hibin recoJets h gjet
      = runFills (fillsOf deltaR cfg hibin recoJets gjet) h := by
  unfold analyzeGenJet fillsOf responseComputed consideredForMatching
  by_cases h1 : |gjet.eta| > 6
  · simp [h1, runFills]
  · by_cases h2 : gjet.pt < cfg.mMatchGenPtThreshold
    · simp [h1, h2, runFills]
    · by_cases h3 : recoJets.length ≤ 0
      · simp only [if_neg h1, if_neg h2, if_pos h3]
        simp [h3, runFills]
      · by_cases h4 : (matchLoop deltaR gjet recoJets).iMatch < 0
        · simp only [if_neg h1, if_neg h2, if_neg h3, if_pos h4]
          simp [h4, runFills]
        · by_cases h5 : (matchLoop deltaR gjet recoJets).deltaRBest < cfg.mRThreshold
          · simp only [if_neg h1, if_neg h2, if_neg h3, if_neg h4, if_pos h5]
            simp [h1, h2, h3, h4, h5]
          · simp only [if_neg h1, if_neg h2, if_neg h3, if_neg h4, if_neg h5]
            simp [h5, runFills]

theorem fillsOf_of_not_computed (deltaR : ℚ → ℚ → ℚ → ℚ → ℚ) (cfg : Config) (hibin : Int)
    (recoJets : List Jet) (gjet : Jet) (hrc : responseComputed deltaR cfg recoJets gjet = false) :
    fillsOf deltaR cfg hibin recoJets gjet = [] := by
  simp [fillsOf, hrc]

theorem responseFills_no_centrality (b1 b2 b3 : Bool) (genpt geneta response : ℚ) :
    responseFills b1 b2 b3 false false false false genpt geneta response = [] := by
  unfold responseFills
  simp only [onlyIf_false, onlyIf_nil, List.append_nil]

theorem centrality_flags_of_ge_160 (hibin : Int) (h160 : 160 ≤ hibin) :
    isCentral hibin = false ∧ ismidCentral hibin = false ∧ ismidPeripheral hibin = false ∧
    isPeripheral hibin = false := by
  simp only [isCentral, ismidCentral, ismidPeripheral, isPeripheral, decide_eq_false_iff_not]
  omega

theorem fillsOf_of_ge_160 (deltaR : ℚ → ℚ → ℚ → ℚ → ℚ) (cfg : Config) (hibin : Int)
    (recoJets : List Jet) (gjet : Jet) (h160 : 160 ≤ hibin) :
    fillsOf deltaR cfg hibin recoJets gjet = [] := by
  obtain ⟨c1, c2, c3, c4⟩ := centrality_flags_of_ge_160 hibin h160
  unfold fillsOf
  rw [c1, c2, c3, c4, responseFills_no_centrality]
  simp

/-- C11: for an event with `hibin >= 160` and any lists of generator and reconstructed
jets, the generator-jet loop of `analyze` ends normally and leaves every member of the
response grid (discrete histograms, pT profiles, eta profiles) exactly as it was,
whatever the region and pT of the jets. -/
theorem analyzeGenJets_hibin_ge_160 (deltaR : ℚ → ℚ → ℚ → ℚ → ℚ) (cfg : Config)
    (hibin : Int) (recoJets genJets : List Jet) (h : Hists) (h160 : 160 ≤ hibin) :
    analyzeGenJets deltaR cfg hibin recoJets genJets h = Except.ok h := by
  induction genJets with
  | nil => rfl
  | cons gjet rest ih =>
    simp only [analyzeGenJets]
    rw [analyzeGenJet_eq_runFills, fillsOf_of_ge_160 deltaR cfg hibin recoJets gjet h160]
    simpa [runFills] using ih

/-- C11 (witness): hibin 200, two generator jets in the Barrel and the Endcap, both
matched at DeltaR 0, on the members as `bookHistograms` leaves them. -/
theorem analyzeGenJets_hibin_ge_160_witness :
    analyzeGenJets deltaRSamePhi exampleConfig 200
        [{ pt := 40, eta := 1 / 10, phi := 0 }, { pt := 90, eta := 5 / 2, phi := 0 }]
        [{ pt := 35, eta := 1 / 10, phi := 0 }, { pt := 100, eta := 5 / 2, phi := 0 }]
        bookHistograms
      = Except.ok bookHistograms :=
  analyzeGenJets_hibin_ge_160 deltaRSamePhi exampleConfig 200 _ _ bookHistograms (by decide)

theorem matchLoop_of_no_pt_above_10 (deltaR : ℚ → ℚ → ℚ → ℚ → ℚ) (gjet : Jet)
    (recoJets : List Jet) (hno : ∀ rj ∈ recoJets, rj.pt ≤ 10) :
    matchLoop deltaR gjet recoJets = matchInit := by
  unfold matchLoop
  apply matchLoopFrom_stable
  intro rj hmem hpt
  exact absurd hpt (not_lt.mpr (hno rj hmem))

/-- C12: for a generator jet whose best match has `deltaRBest >= RThreshold`, equality
included, `analyze` ends normally and leaves every member of the response grid as it
was; so a member changes only when `deltaRBest < RThreshold`. -/
theorem analyzeGenJet_deltaR_cut (deltaR : ℚ → ℚ → ℚ → ℚ → ℚ) (cfg : Config) (hibin : Int)
    (recoJets : List Jet) (h : Hists) (gjet : Jet)
    (hge : cfg.mRThreshold ≤ (matchLoop deltaR gjet recoJets).deltaRBest) :
    analyzeGenJet deltaR cfg hibin recoJets h gjet = Except.ok h := by
  rw [analyzeGenJet_eq_runFills, fillsOf_of_not_computed]
  · rfl
  · simp [responseComputed, not_lt.mpr hge]

theorem matchLoop_example_at_threshold :
    matchLoop deltaRSamePhi { pt := 25, eta := 0, phi := 0 }
        [{ pt := 26, eta := 3 / 10, phi := 0 }]
      = { iMatch := 0, deltaRBest := 3 / 10, JetPtBest := 26 } := by
  have habs : |(0 : ℚ) - 3 / 10| = 3 / 10 := by
    rw [abs_of_neg (by norm_num)]; norm_num
  simp only [matchLoop, matchLoopFrom, matchStep, matchInit, deltaRSamePhi, habs]
  norm_num

/-- C12 (witness): the matched jet lies at DeltaR 0.3 = RThreshold exactly. -/
theorem analyzeGenJet_deltaR_cut_witness :
    analyzeGenJet deltaRSamePhi exampleConfig 10 [{ pt := 26, eta := 3 / 10, phi := 0 }]
        bookHistograms { pt := 25, eta := 0, phi := 0 }
      = Except.ok bookHistograms :=
  analyzeGenJet_deltaR_cut deltaRSamePhi exampleConfig 10
    [{ pt := 26, eta := 3 / 10, phi := 0 }] bookHistograms { pt := 25, eta := 0, phi := 0 }
    (by rw [matchLoop_example_at_threshold]; norm_num [exampleConfig])

/-- C13: when no reconstructed jet has pt > 10 (pt exactly 10 does not count), the
matching loop yields no match and `analyze` skips the generator jet: it ends normally
and no discrete histogram, pT profile or eta profile is modified. -/
theorem analyzeGenJet_no_reco_above_10 (deltaR : ℚ → ℚ → ℚ → ℚ → ℚ) (cfg : Config)
    (hibin : Int) (recoJets : List Jet) (h : Hists) (gjet : Jet)
    (hno : ∀ rj ∈ recoJets, rj.pt ≤ 10) :
    (matchLoop deltaR gjet recoJets).iMatch = -1 ∧
    analyzeGenJet deltaR cfg hibin recoJets h gjet = Except.ok h := by
  have hm := matchLoop_of_no_pt_above_10 deltaR gjet recoJets hno
  refine ⟨by rw [hm]; rfl, ?_⟩
  rw [analyzeGenJet_eq_runFills, fillsOf_of_not_computed]
  · rfl
  · simp [responseComputed, hm, matchInit]

/-- C13 (witness): reconstructed jets with pt exactly 10 and pt 5, both in the direction
of the generator jet. -/
theorem analyzeGenJet_no_reco_above_10_witness :
    (matchLoop deltaRSamePhi { pt := 25, eta := 0, phi := 0 }
        [{ pt := 10, eta := 0, phi := 0 }, { pt := 5, eta := 0, phi := 0 }]).iMatch = -1 ∧
    analyzeGenJet deltaRSamePhi exampleConfig 10
        [{ pt := 10, eta := 0, phi := 0 }, { pt := 5, eta := 0, phi := 0 }]
        bookHistograms { pt := 25, eta := 0, phi := 0 }
      = Except.ok bookHistograms :=
  analyzeGenJet_no_reco_above_10 deltaRSamePhi exampleConfig 10
    [{ pt := 10, eta := 0, phi := 0 }, { pt := 5, eta := 0, phi := 0 }]
    bookHistograms { pt := 25, eta := 0, phi := 0 }
    (by
      intro rj hmem
      simp only [List.mem_cons, List.mem_singleton, List.not_mem_nil, or_false] at hmem
      rcases hmem with h | h <;> subst h <;> norm_num)

/-- C14: a generator jet goes on to the matching loop if and only if `|eta| <= 6`,
`pt >= matchGenPtThreshold` and the reconstructed-jet list is non-empty, so that
`|eta| = 6` and `pt = matchGenPtThreshold` are kept; a jet failing one of the three
conditions leaves every member of the response grid as it was, and `analyze` ends
normally for it. -/
theorem considered_for_matching_iff (deltaR : ℚ → ℚ → ℚ → ℚ → ℚ) (cfg : Config)
    (hibin : Int) (recoJets : List Jet) (h : Hists) (gjet : Jet) :
    (consideredForMatching cfg recoJets gjet = true
      ↔ |gjet.eta| ≤ 6 ∧ cfg.mMatchGenPtThreshold ≤ gjet.pt ∧ recoJets ≠ []) ∧
    (consideredForMatching cfg recoJets gjet = false →
      analyzeGenJet deltaR cfg hibin recoJets h gjet = Except.ok h) ∧
    (consideredForMatching cfg recoJets gjet = true →
      analyzeGenJet deltaR cfg hibin recoJets h gjet
        = if (matchLoop deltaR gjet recoJets).iMatch < 0 then Except.ok h
          else if (matchLoop deltaR gjet recoJets).deltaRBest < cfg.mRThreshold then
            runFills
              (responseFills (inBarrel cfg gjet.eta) (inEndcap cfg gjet.eta)
                (inForward cfg gjet.eta) (isCentral hibin) (ismidCentral hibin)
                (ismidPeripheral hibin) (isPeripheral hibin) gjet.pt gjet.eta
                ((matchLoop deltaR gjet recoJets).JetPtBest / gjet.pt)) h
          else Except.ok h) ∧
    (|gjet.eta| = 6 → gjet.pt = cfg.mMatchGenPtThreshold → recoJets ≠ [] →
      consideredForMatching cfg recoJets gjet = true) := by
  have hiff : consideredForMatching cfg recoJets gjet = true
      ↔ |gjet.eta| ≤ 6 ∧ cfg.mMatchGenPtThreshold ≤ gjet.pt ∧ recoJets ≠ [] := by
    simp [consideredForMatching, and_assoc]
  refine ⟨hiff, ?_, ?_, ?_⟩
  · intro hf
    rw [analyzeGenJet_eq_runFills, fillsOf_of_not_computed]
    · rfl
    · simp [responseComputed, hf]
  · intro ht
    obtain ⟨h1, h2, h3⟩ := hiff.mp ht
    have h3b : ¬ recoJets.length ≤ 0 := by
      intro hlen
      exact h3 (List.length_eq_zero.mp (Nat.le_zero.mp hlen))
    unfold analyzeGenJet
    rw [if_neg (not_lt.mpr h1), if_neg (not_lt.mpr h2), if_neg h3b]
  · intro h1 h2 h3
    exact hiff.mpr ⟨le_of_eq h1, le_of_eq h2.symm, h3⟩

/-! ## The match and the response values -/

theorem matchLoopFrom_selected (deltaR : ℚ → ℚ → ℚ → ℚ → ℚ) (gjet : Jet) :
    ∀ (rest pre : List Jet) (st : MatchState),
      (st.iMatch < 0 ∨ ∃ (k : Nat) (rj : Jet), st.iMatch = (k : Int) ∧
          (pre ++ rest)[k]? = some rj ∧ rj.pt > 10 ∧ st.JetPtBest = rj.pt ∧
          st.deltaRBest = delRTo deltaR gjet rj) →
      ((matchLoopFrom deltaR gjet pre.length rest st).iMatch < 0 ∨
        ∃ (k : Nat) (rj : Jet),
          (matchLoopFrom deltaR gjet pre.length rest st).iMatch = (k : Int) ∧
          (pre ++ rest)[k]? = some rj ∧ rj.pt > 10 ∧
          (matchLoopFrom deltaR gjet pre.length rest st).JetPtBest = rj.pt ∧
          (matchLoopFrom deltaR gjet pre.length rest st).deltaRBest = delRTo deltaR gjet rj) := by
  intro rest
  induction rest with
  | nil => intro pre st hst; simpa [matchLoopFrom] using hst
  | cons r rest ih =>
    intro pre st hst
    simp only [matchLoopFrom]
    have hstep : (matchStep deltaR gjet st pre.length r).iMatch < 0 ∨
        ∃ (k : Nat) (rj : Jet), (matchStep deltaR gjet st pre.length r).iMatch = (k : Int) ∧
          ((pre ++ [r]) ++ rest)[k]? = some rj ∧ rj.pt > 10 ∧
          (matchStep deltaR gjet st pre.length r).JetPtBest = rj.pt ∧
          (matchStep deltaR gjet st pre.length r).deltaRBest = delRTo deltaR gjet rj := by
      rcases matchStep_cases deltaR gjet st pre.length r with ⟨hpt, _, heq⟩ | ⟨_, heq⟩
      · right
        refine ⟨pre.length, r, by rw [heq], ?_, hpt, by rw [heq], by rw [heq]⟩
        rw [List.append_assoc, List.getElem?_append_right (le_refl _)]
        simp
      · rw [heq]
        rcases hst with hneg | ⟨k, rj, h1, h2, h3, h4, h5⟩
        · left; exact hneg
        · right
          exact ⟨k, rj, h1, by simpa using h2, h3, h4, h5⟩
    have := ih (pre ++ [r]) (matchStep deltaR gjet st pre.length r) hstep
    simpa [List.length_append] using this

theorem allResponse_append (response : ℚ) (l1 l2 : List (Field × FillArgs))
    (h1 : ∀ call ∈ l1, call.2.response = response)
    (h2 : ∀ call ∈ l2, call.2.response = response) :
    ∀ call ∈ l1 ++ l2, call.2.response = response := by
  intro call hmem
  rcases List.mem_append.mp hmem with h | h
  · exact h1 call h
  · exact h2 call h

theorem allResponse_onlyIf (response : ℚ) (c : Bool) (l : List (Field × FillArgs))
    (h : ∀ call ∈ l, call.2.response = response) :
    ∀ call ∈ onlyIf c l, call.2.response = response := by
  cases c
  · intro call hmem; simp [onlyIf] at hmem
  · simpa [onlyIf] using h

theorem allResponse_single (response : ℚ) (f : Field) (args : FillArgs)
    (h : args.response = response) :
    ∀ call ∈ [(f, args)], call.2.response = response := by
  intro call hmem
  rw [List.mem_singleton.mp hmem]
  exact h

set_option maxHeartbeats 4000000 in
set_option maxRecDepth 100000 in
/-- Every `Fill` call of the response block passes the value `response`. -/
theorem responseFills_response (b1 b2 b3 c1 c2 c3 c4 : Bool) (genpt geneta response : ℚ) :
    ∀ call ∈ responseFills b1 b2 b3 c1 c2 c3 c4 genpt geneta response,
      call.2.response = response := by
  unfold responseFills
  repeat' first
    | apply allResponse_append
    | apply allResponse_onlyIf
    | exact allResponse_single response _ _ rfl

theorem entriesFor_nil (f : Field) : entriesFor f [] = [] := rfl

theorem entriesFor_cons_self (f : Field) (args : FillArgs) (rest : List (Field × FillArgs)) :
    entriesFor f ((f, args) :: rest) = args :: entriesFor f rest := by
  simp [entriesFor]

theorem entriesFor_cons_of_ne (f g : Field) (args : FillArgs) (rest : List (Field × FillArgs))
    (hne : f ≠ g) :
    entriesFor g ((f, args) :: rest) = entriesFor g rest := by
  simp [entriesFor, hne]

theorem entriesFor_append (f : Field) (l1 l2 : List (Field × FillArgs)) :
    entriesFor f (l1 ++ l2) = entriesFor f l1 ++ entriesFor f l2 := by
  simp [entriesFor]

/-- A sequence of `Fill` calls through booked members ends normally and appends to each
member the entries of its calls, in call order. -/
theorem runFills_of_booked :
    ∀ (calls : List (Field × FillArgs)) (h : Hists),
      (∀ call ∈ calls, (h call.1).isSome = true) →
      runFills calls h
        = Except.ok (fun f => (h f).map (fun es => es ++ entriesFor f calls)) := by
  intro calls
  induction calls with
  | nil =>
    intro h _
    simp only [runFills, entriesFor_nil, List.append_nil]
    congr 1
    funext f
    cases h f <;> rfl
  | cons call rest ih =>
    intro h hall
    obtain ⟨f, args⟩ := call
    obtain ⟨es, hes⟩ := Option.isSome_iff_exists.mp (hall (f, args) (List.mem_cons_self _ _))
    simp only [runFills, Fill_of_booked h f args es hes]
    rw [ih]
    · congr 1
      funext g
      by_cases hg : g = f
      · subst hg
        simp [Function.update_same, hes, entriesFor_cons_self]
      · rw [Function.update_noteq hg, entriesFor_cons_of_ne f g args rest (Ne.symm hg)]
    · intro c hc
      by_cases hg : c.1 = f
      · rw [hg, Function.update_same]; rfl
      · rw [Function.update_noteq hg]
        exact hall c (List.mem_cons_of_mem _ hc)

/-- A sequence of `Fill` calls with a call through a null member ends on a null pointer. -/
theorem runFills_of_null :
    ∀ (calls : List (Field × FillArgs)) (h : Hists),
      (∃ call ∈ calls, h call.1 = none) →
      ∃ e, runFills calls h = Except.error e := by
  intro calls
  induction calls with
  | nil => intro h hex; obtain ⟨c, hc, _⟩ := hex; simp at hc
  | cons call rest ih =>
    intro h hex
    obtain ⟨f, args⟩ := call
    cases hf : h f with
    | none =>
      exact ⟨AnalyzeError.nullPointer f, by simp only [runFills, Fill_of_null h f args hf]⟩
    | some es =>
      simp only [runFills, Fill_of_booked h f args es hf]
      apply ih
      obtain ⟨c, hc, hnone⟩ := hex
      rcases List.mem_cons.mp hc with heq | hin
      · subst heq
        rw [hf] at hnone
        exact absurd hnone (by simp)
      · refine ⟨c, hin, ?_⟩
        by_cases hg : c.1 = f
        · rw [hg, hf] at hnone
          exact absurd hnone (by simp)
        · rw [Function.update_noteq hg]; exact hnone

theorem runFills_ok_entries (calls : List (Field × FillArgs)) (h h1 : Hists)
    (hrun : runFills calls h = Except.ok h1) :
    (∀ call ∈ calls, (h call.1).isSome = true) ∧
    h1 = fun f => (h f).map (fun es => es ++ entriesFor f calls) := by
  have hall : ∀ call ∈ calls, (h call.1).isSome = true := by
    intro c hc
    by_contra hnot
    have hnone : h c.1 = none := by
      cases hv : h c.1 with
      | none => rfl
      | some es => rw [hv] at hnot; exact absurd rfl hnot
    obtain ⟨e, he⟩ := runFills_of_null calls h ⟨c, hc, hnone⟩
    rw [he] at hrun
    exact absurd hrun (by simp)
  refine ⟨hall, ?_⟩
  rw [runFills_of_booked calls h hall] at hrun
  exact (Except.ok.inj hrun).symm

/-- C15: when the matching loop yields a match, `iMatch` is a valid index of `recoJets`
with `recoJets[iMatch].pt > 10`, `JetPtBest` is the pt of that jet and `deltaRBest` its
DeltaR to the generator jet; every `Fill` call made for the generator jet passes the
response `recoJets[iMatch].pt / genPt`, and a run that ends normally appends exactly the
entries of these calls to the members. -/
theorem matched_jet_and_response (deltaR : ℚ → ℚ → ℚ → ℚ → ℚ) (cfg : Config) (hibin : Int)
    (recoJets : List Jet) (gjet : Jet)
    (hm : 0 ≤ (matchLoop deltaR gjet recoJets).iMatch) :
    ∃ (k : Nat) (rj : Jet),
      (matchLoop deltaR gjet recoJets).iMatch = (k : Int) ∧
      recoJets[k]? = some rj ∧ rj.pt > 10 ∧
      (matchLoop deltaR gjet recoJets).JetPtBest = rj.pt ∧
      (matchLoop deltaR gjet recoJets).deltaRBest = delRTo deltaR gjet rj ∧
      (∀ call ∈ fillsOf deltaR cfg hibin recoJets gjet,
        call.2.response = rj.pt / gjet.pt) ∧
      (∀ h h1 : Hists, analyzeGenJet deltaR cfg hibin recoJets h gjet = Except.ok h1 →
        ∀ f : Field, h1 f
          = (h f).map (fun es => es ++ entriesFor f (fillsOf deltaR cfg hibin recoJets gjet))) := by
  have hinv := matchLoopFrom_selected deltaR gjet recoJets [] matchInit
    (Or.inl (by decide))
  simp only [List.length_nil, List.nil_append] at hinv
  rcases hinv with hneg | ⟨k, rj, h1, h2, h3, h4, h5⟩
  · exact absurd hm (not_le.mpr hneg)
  · refine ⟨k, rj, h1, h2, h3, h4, h5, ?_, ?_⟩
    · intro call hmem
      unfold fillsOf at hmem
      split at hmem
      · have := responseFills_response _ _ _ _ _ _ _ _ _ _ call hmem
        have h4b : (matchLoop deltaR gjet recoJets).JetPtBest = rj.pt := h4
        rw [this, h4b]
      · simp at hmem
    · intro h hh hrun f
      rw [analyzeGenJet_eq_runFills] at hrun
      rw [(runFills_ok_entries _ h hh hrun).2]

theorem matchLoop_example_second :
    matchLoop deltaRSamePhi { pt := 50, eta := 0, phi := 0 }
        [{ pt := 5, eta := 0, phi := 0 }, { pt := 30, eta := 0, phi := 0 }]
      = { iMatch := 1, deltaRBest := 0, JetPtBest := 30 } := by
  norm_num [matchLoop, matchLoopFrom, matchStep, matchInit, deltaRSamePhi]

/-- C15 (witness): the first reconstructed jet is below the pt cut, the second one is
matched. -/
theorem matched_jet_and_response_witness :
    ∃ (k : Nat) (rj : Jet),
      (matchLoop deltaRSamePhi { pt := 50, eta := 0, phi := 0 }
        [{ pt := 5, eta := 0, phi := 0 }, { pt := 30, eta := 0, phi := 0 }]).iMatch = (k : Int) ∧
      [({ pt := 5, eta := 0, phi := 0 } : Jet), { pt := 30, eta := 0, phi := 0 }][k]? = some rj ∧
      rj.pt > 10 ∧
      (matchLoop deltaRSamePhi { pt := 50, eta := 0, phi := 0 }
        [{ pt := 5, eta := 0, phi := 0 }, { pt := 30, eta := 0, phi := 0 }]).JetPtBest = rj.pt ∧
      (matchLoop deltaRSamePhi { pt := 50, eta := 0, phi := 0 }
        [{ pt := 5, eta := 0, phi := 0 }, { pt := 30, eta := 0, phi := 0 }]).deltaRBest
        = delRTo deltaRSamePhi { pt := 50, eta := 0, phi := 0 } rj ∧
      (∀ call ∈ fillsOf deltaRSamePhi exampleConfig 10
          [{ pt := 5, eta := 0, phi := 0 }, { pt := 30, eta := 0, phi := 0 }]
          { pt := 50, eta := 0, phi := 0 },
        call.2.response = rj.pt / ({ pt := 50, eta := 0, phi := 0 } : Jet).pt) ∧
      (∀ h h1 : Hists,
        analyzeGenJet deltaRSamePhi exampleConfig 10
          [{ pt := 5, eta := 0, phi := 0 }, { pt := 30, eta := 0, phi := 0 }] h
          { pt := 50, eta := 0, phi := 0 } = Except.ok h1 →
        ∀ f : Field, h1 f
          = (h f).map (fun es => es ++ entriesFor f (fillsOf deltaRSamePhi exampleConfig 10
              [{ pt := 5, eta := 0, phi := 0 }, { pt := 30, eta := 0, phi := 0 }]
              { pt := 50, eta := 0, phi := 0 }))) :=
  matched_jet_and_response deltaRSamePhi exampleConfig 10
    [{ pt := 5, eta := 0, phi := 0 }, { pt := 30, eta := 0, phi := 0 }]
    { pt := 50, eta := 0, phi := 0 }
    (by rw [matchLoop_example_second]; decide)

/-! ## The division by genpt -/

theorem responseComputed_threshold (deltaR : ℚ → ℚ → ℚ → ℚ → ℚ) (cfg : Config)
    (recoJets : List Jet) (gjet : Jet)
    (hrc : responseComputed deltaR cfg recoJets gjet = true) :
    |gjet.eta| ≤ 6 ∧ cfg.mMatchGenPtThreshold ≤ gjet.pt ∧
    0 ≤ (matchLoop deltaR gjet recoJets).iMatch ∧
    (matchLoop deltaR gjet recoJets).deltaRBest < cfg.mRThreshold := by
  simp only [responseComputed, consideredForMatching, Bool.and_eq_true, Bool.not_eq_true',
    decide_eq_false_iff_not, decide_eq_true_eq, not_lt] at hrc
  exact ⟨hrc.1.1.1.1, hrc.1.1.1.2, hrc.1.2, hrc.2⟩

/-- C16 (as amended): for a configuration with `matchGenPtThreshold > 0`, every generator
jet for which the division `JetPtBest / genpt` is executed has
`genpt >= matchGenPtThreshold > 0`, so the divisor is not zero. -/
theorem division_genpt_positive (deltaR : ℚ → ℚ → ℚ → ℚ → ℚ) (cfg : Config)
    (recoJets : List Jet) (gjet : Jet)
    (hpos : 0 < cfg.mMatchGenPtThreshold)
    (hrc : responseComputed deltaR cfg recoJets gjet = true) :
    cfg.mMatchGenPtThreshold ≤ gjet.pt ∧ 0 < gjet.pt ∧ gjet.pt ≠ 0 := by
  obtain ⟨_, hthr, _, _⟩ := responseComputed_threshold deltaR cfg recoJets gjet hrc
  have hp : 0 < gjet.pt := lt_of_lt_of_le hpos hthr
  exact ⟨hthr, hp, ne_of_gt hp⟩

theorem responseComputed_example_single (cfg : Config) (gpt rpt eta : ℚ) (hr : rpt > 10)
    (heta : |eta| ≤ 6) (hthr : cfg.mMatchGenPtThreshold ≤ gpt) (hcut : 0 < cfg.mRThreshold) :
    responseComputed deltaRSamePhi cfg [{ pt := rpt, eta := eta, phi := 0 }]
      { pt := gpt, eta := eta, phi := 0 } = true := by
  simp only [responseComputed, consideredForMatching,
    matchLoop_example_single gpt rpt eta hr]
  simp [heta, hthr, hcut]

/-- C16 (witness of the amended claim): threshold 10, generator jet with pt 15. -/
theorem division_genpt_positive_witness :
    exampleConfig.mMatchGenPtThreshold ≤ ({ pt := 15, eta := 1 / 10, phi := 0 } : Jet).pt ∧
    0 < ({ pt := 15, eta := 1 / 10, phi := 0 } : Jet).pt ∧
    ({ pt := 15, eta := 1 / 10, phi := 0 } : Jet).pt ≠ 0 :=
  division_genpt_positive deltaRSamePhi exampleConfig [{ pt := 16, eta := 1 / 10, phi := 0 }]
    { pt := 15, eta := 1 / 10, phi := 0 }
    (by norm_num [exampleConfig])
    (responseComputed_example_single exampleConfig 15 16 (1 / 10) (by norm_num)
      (by norm_num [abs_le]) (by norm_num [exampleConfig]) (by norm_num [exampleConfig]))

/-- C16 (counterexample): with `matchGenPtThreshold` = 0, a generator jet with pt 0 at
eta 0.1 and a reconstructed jet with pt 16 in the same direction: the jet passes
`pt < matchGenPtThreshold` (0 < 0 is false), is matched at DeltaR 0 < 0.3, and the
division `JetPtBest / genpt` is executed with `genpt` = 0. -/
theorem division_by_zero_reached :
    ¬ (({ pt := 0, eta := 1 / 10, phi := 0 } : Jet).pt
        < zeroThresholdConfig.mMatchGenPtThreshold) ∧
    responseComputed deltaRSamePhi zeroThresholdConfig [{ pt := 16, eta := 1 / 10, phi := 0 }]
      { pt := 0, eta := 1 / 10, phi := 0 } = true ∧
    ¬ (0 < ({ pt := 0, eta := 1 / 10, phi := 0 } : Jet).pt) ∧
    ({ pt := 0, eta := 1 / 10, phi := 0 } : Jet).pt = 0 := by
  refine ⟨by norm_num [zeroThresholdConfig], ?_, by norm_num, rfl⟩
  exact responseComputed_example_single zeroThresholdConfig 0 16 (1 / 10) (by norm_num)
    (by norm_num [abs_le]) (by norm_num [zeroThresholdConfig])
    (by norm_num [zeroThresholdConfig])

/-- C17 (as amended): when a generator jet with `genPt <= 0` reaches the response
computation, no error is signalled: the quotient `JetPtBest / genpt` is computed like for
any other jet and, with a valid region and centrality, `analyze` ends normally after one
`Fill(log10(genpt), response)` on the pT profile of (region, centrality); no other member
is modified. -/
theorem nonpositive_genpt_is_filled (deltaR : ℚ → ℚ → ℚ → ℚ → ℚ) (cfg : Config)
    (hibin : Int) (recoJets : List Jet) (h : Hists) (gjet : Jet) (r : Region) (c : Centrality)
    (hb : Booked h) (hle : gjet.pt ≤ 0)
    (hrc : responseComputed deltaR cfg recoJets gjet = true)
    (hr : regionOf cfg gjet.eta = some r) (hc : centralityOf hibin = some c) :
    ∃ es, h (genPtField r c) = some es ∧
      analyzeGenJet deltaR cfg hibin recoJets h gjet
        = Except.ok (Function.update h (genPtField r c)
            (some (es ++ [FillArgs.log10xy gjet.pt
              ((matchLoop deltaR gjet recoJets).JetPtBest / gjet.pt)]))) := by
  obtain ⟨hacc, hthr, hm, hdr⟩ := responseComputed_threshold deltaR cfg recoJets gjet hrc
  obtain ⟨es, hes⟩ := Booked_genPtField h hb r c
  refine ⟨es, hes, ?_⟩
  rw [analyzeGenJet_of_match deltaR cfg hibin recoJets h gjet hacc hthr hm hdr,
    responseFills_eq_cellFills cfg gjet.eta hibin _ _ _ r c hr hc,
    ptRangeOf_eq_none_of_lt gjet.pt (by linarith)]
  simp only [cellFills, runFills, Fill_of_booked h _ _ es hes]

theorem regionOf_zero_threshold_endcap :
    regionOf zeroThresholdConfig (5 / 2) = some Region.Endcap := by
  have e1 : inBarrel zeroThresholdConfig (5 / 2) = false := by
    norm_num [inBarrel, zeroThresholdConfig, abs_lt, le_abs]
  have e2 : inEndcap zeroThresholdConfig (5 / 2) = true := by
    norm_num [inEndcap, zeroThresholdConfig, abs_lt, le_abs]
  have e3 : inForward zeroThresholdConfig (5 / 2) = false := by
    norm_num [inForward, zeroThresholdConfig, abs_lt, le_abs]
  unfold regionOf
  rw [e1, e2, e3]

theorem regionOf_zero_threshold_barrel :
    regionOf zeroThresholdConfig (1 / 10) = some Region.Barrel := by
  have e1 : inBarrel zeroThresholdConfig (1 / 10) = true := by
    norm_num [inBarrel, zeroThresholdConfig, abs_lt]
  have e2 : inEndcap zeroThresholdConfig (1 / 10) = false := by
    norm_num [inEndcap, zeroThresholdConfig, abs_lt, le_abs]
  have e3 : inForward zeroThresholdConfig (1 / 10) = false := by
    norm_num [inForward, zeroThresholdConfig, abs_lt, le_abs]
  unfold regionOf
  rw [e1, e2, e3]

/-- C17 (witness of the amended claim): threshold 0, generator jet with pt 0 in the
Endcap, matched to a jet with pt 13, hibin 70. -/
theorem nonpositive_genpt_is_filled_witness :
    ∃ es, bookHistograms (genPtField Region.Endcap Centrality.cent_30_50) = some es ∧
      analyzeGenJet deltaRSamePhi zeroThresholdConfig 70
          [{ pt := 13, eta := 5 / 2, phi := 0 }] bookHistograms { pt := 0, eta := 5 / 2, phi := 0 }
        = Except.ok (Function.update bookHistograms
            (genPtField Region.Endcap Centrality.cent_30_50)
            (some (es ++ [FillArgs.log10xy ({ pt := 0, eta := 5 / 2, phi := 0 } : Jet).pt
              ((matchLoop deltaRSamePhi { pt := 0, eta := 5 / 2, phi := 0 }
                  [{ pt := 13, eta := 5 / 2, phi := 0 }]).JetPtBest
                / ({ pt := 0, eta := 5 / 2, phi := 0 } : Jet).pt)]))) :=
  nonpositive_genpt_is_filled deltaRSamePhi zeroThresholdConfig 70
    [{ pt := 13, eta := 5 / 2, phi := 0 }] bookHistograms { pt := 0, eta := 5 / 2, phi := 0 }
    Region.Endcap Centrality.cent_30_50
    (fun _ => rfl) (by norm_num)
    (responseComputed_example_single zeroThresholdConfig 0 13 (5 / 2) (by norm_num)
      (by norm_num [abs_le]) (by norm_num [zeroThresholdConfig])
      (by norm_num [zeroThresholdConfig]))
    regionOf_zero_threshold_endcap (by decide)

/-- C17 (counterexample): threshold 0, generator jet with pt 0 at eta 0.1 (Barrel),
matched at DeltaR 0 to a reconstructed jet with pt 16, hibin 10: the jet reaches the
response computation with `genPt <= 0`, and `analyze` ends normally, without any error,
after the pT profile of (Barrel, 0-10%) has received an entry for it. -/
theorem nonpositive_genpt_no_error :
    ({ pt := 0, eta := 1 / 10, phi := 0 } : Jet).pt ≤ 0 ∧
    responseComputed deltaRSamePhi zeroThresholdConfig [{ pt := 16, eta := 1 / 10, phi := 0 }]
      { pt := 0, eta := 1 / 10, phi := 0 } = true ∧
    ∃ h1 : Hists,
      analyzeGenJet deltaRSamePhi zeroThresholdConfig 10
          [{ pt := 16, eta := 1 / 10, phi := 0 }] bookHistograms
          { pt := 0, eta := 1 / 10, phi := 0 } = Except.ok h1 ∧
      bookHistograms Field.mPtRecoOverGen_GenPt_B_Cent_0_10 = some [] ∧
      (h1 Field.mPtRecoOverGen_GenPt_B_Cent_0_10).map List.length = some 1 := by
  have hrc := responseComputed_example_single zeroThresholdConfig 0 16 (1 / 10) (by norm_num)
    (by norm_num [abs_le]) (by norm_num [zeroThresholdConfig])
    (by norm_num [zeroThresholdConfig])
  obtain ⟨hacc, hthr, hm, hdr⟩ := responseComputed_threshold deltaRSamePhi zeroThresholdConfig
    [{ pt := 16, eta := 1 / 10, phi := 0 }] { pt := 0, eta := 1 / 10, phi := 0 } hrc
  have hbk := bookHistograms_genPtField Region.Barrel Centrality.cent_0_10
  have hrun : analyzeGenJet deltaRSamePhi zeroThresholdConfig 10
      [{ pt := 16, eta := 1 / 10, phi := 0 }] bookHistograms { pt := 0, eta := 1 / 10, phi := 0 }
      = Except.ok (Function.update bookHistograms (genPtField Region.Barrel Centrality.cent_0_10)
          (some ([] ++ [FillArgs.log10xy 0
            ((matchLoop deltaRSamePhi { pt := 0, eta := 1 / 10, phi := 0 }
              [{ pt := 16, eta := 1 / 10, phi := 0 }]).JetPtBest / 0)]))) := by
    rw [analyzeGenJet_of_match deltaRSamePhi zeroThresholdConfig 10
        [{ pt := 16, eta := 1 / 10, phi := 0 }] bookHistograms
        { pt := 0, eta := 1 / 10, phi := 0 } hacc hthr hm hdr,
      responseFills_eq_cellFills zeroThresholdConfig _ 10 _ _ _ Region.Barrel
        Centrality.cent_0_10 regionOf_zero_threshold_barrel (by decide),
      ptRangeOf_eq_none_of_lt _ (by norm_num)]
    simp only [cellFills, runFills, Fill_of_booked bookHistograms _ _ [] hbk]
  refine ⟨by norm_num, hrc, _, hrun, hbk, ?_⟩
  simp [genPtField]

/-! ## Order of accumulation -/

theorem runFills_append :
    ∀ (l1 l2 : List (Field × FillArgs)) (h : Hists),
      runFills (l1 ++ l2) h
        = match runFills l1 h with
          | Except.error e => Except.error e
          | Except.ok h1 => runFills l2 h1 := by
  intro l1
  induction l1 with
  | nil => intro l2 h; rfl
  | cons call rest ih =>
    intro l2 h
    obtain ⟨f, args⟩ := call
    simp only [List.cons_append, runFills]
    cases Fill h f args with
    | error e => rfl
    | ok h1 => exact ih l2 h1

theorem analyzeTwo_eq_runFills (deltaR : ℚ → ℚ → ℚ → ℚ → ℚ) (cfg : Config)
    (hibin1 : Int) (recoJets1 : List Jet) (gjet1 : Jet)
    (hibin2 : Int) (recoJets2 : List Jet) (gjet2 : Jet) (h : Hists) :
    analyzeTwo deltaR cfg hibin1 recoJets1 gjet1 hibin2 recoJets2 gjet2 h
      = runFills (fillsOf deltaR cfg hibin1 recoJets1 gjet1
          ++ fillsOf deltaR cfg hibin2 recoJets2 gjet2) h := by
  unfold analyzeTwo
  rw [runFills_append, analyzeGenJet_eq_runFills]
  cases runFills (fillsOf deltaR cfg hibin1 recoJets1 gjet1) h with
  | error e => rfl
  | ok h1 => simp only [analyzeGenJet_eq_runFills]

theorem runFills_comm (l1 l2 : List (Field × FillArgs)) (h : Hists) :
    sameOutcome (runFills (l1 ++ l2) h) (runFills (l2 ++ l1) h) := by
  by_cases hall : ∀ call ∈ l1 ++ l2, (h call.1).isSome = true
  · have hall2 : ∀ call ∈ l2 ++ l1, (h call.1).isSome = true := by
      intro c hc
      exact hall c (List.mem_append.mpr (List.mem_append.mp hc).symm)
    rw [runFills_of_booked _ h hall, runFills_of_booked _ h hall2]
    intro f
    cases hf : h f with
    | none => simp only [hf, Option.map_none', sameCell]
    | some es =>
      simp only [hf, Option.map_some', sameCell, entriesFor_append]
      exact List.Perm.append_left es List.perm_append_comm
  · push_neg at hall
    obtain ⟨c, hc, hnot⟩ := hall
    have hnone : h c.1 = none := by
      cases hv : h c.1 with
      | none => rfl
      | some es => rw [hv] at hnot; exact absurd rfl hnot
    obtain ⟨e1, he1⟩ := runFills_of_null (l1 ++ l2) h ⟨c, hc, hnone⟩
    obtain ⟨e2, he2⟩ := runFills_of_null (l2 ++ l1) h
      ⟨c, List.mem_append.mpr (List.mem_append.mp hc).symm, hnone⟩
    rw [he1, he2]
    trivial

/-- C20: accumulation commutes. For every value of the members and any two generator
jets, each with the `hibin` and reconstructed jets of its event, running the loop body
for the first and then the second ends like running it for the second and then the
first: both runs end normally and every member holds the same entries up to their order
(the same multiset, hence the same entry count and sums), or both end on a null member. -/
theorem accumulation_commutes (deltaR : ℚ → ℚ → ℚ → ℚ → ℚ) (cfg : Config)
    (hibin1 : Int) (recoJets1 : List Jet) (gjet1 : Jet)
    (hibin2 : Int) (recoJets2 : List Jet) (gjet2 : Jet) (h : Hists) :
    sameOutcome
      (analyzeTwo deltaR cfg hibin1 recoJets1 gjet1 hibin2 recoJets2 gjet2 h)
      (analyzeTwo deltaR cfg hibin2 recoJets2 gjet2 hibin1 recoJets1 gjet1 h) := by
  rw [analyzeTwo_eq_runFills, analyzeTwo_eq_runFills]
  exact runFills_comm _ _ h

/-! ## Invalid collections -/

theorem collectRecoJets_of_invalid (jc : JetConfig) (ev : Event)
    (hinv : recoCollectionInvalid jc ev = true) :
    ∃ c, collectRecoJets jc ev = Except.error (EventError.invalidHandle c) := by
  unfold recoCollectionInvalid at hinv
  unfold collectRecoJets
  cases hc : ev.caloJets <;> cases hj : ev.jptJets <;> cases hb : ev.basicJets <;>
    cases hp : ev.pfJets <;> cases h1 : isCaloJet jc <;> cases h2 : isJPTJet jc <;>
    cases h3 : isPFJet jc <;> cases h4 : decide ("Pu" = jc.UEAlgo) <;>
    cases h5 : decide ("Vs" = jc.UEAlgo) <;>
    simp [hc, hj, hb, hp, h1, h2, h3, h4, h5, derefHandle, Except.bind] at hinv ⊢

theorem collectRecoJets_of_valid (jc : JetConfig) (ev : Event)
    (hval : recoCollectionInvalid jc ev = false) :
    ∃ recoJets, collectRecoJets jc ev = Except.ok recoJets := by
  unfold recoCollectionInvalid at hval
  unfold collectRecoJets
  cases hc : ev.caloJets <;> cases hj : ev.jptJets <;> cases hb : ev.basicJets <;>
    cases hp : ev.pfJets <;> cases h1 : isCaloJet jc <;> cases h2 : isJPTJet jc <;>
    cases h3 : isPFJet jc <;> cases h4 : decide ("Pu" = jc.UEAlgo) <;>
    cases h5 : decide ("Vs" = jc.UEAlgo) <;>
    simp [hc, hj, hb, hp, h1, h2, h3, h4, h5, derefHandle, Except.bind] at hval ⊢

theorem FillEventIf_of_ne (eh : EventHists) (f g : EventField) (x : ℚ) (hne : g ≠ f) :
    FillEventIf eh f x g = eh g := by
  unfold FillEventIf
  cases eh f with
  | none => rfl
  | some xs => exact Function.update_noteq hne _ _

theorem recoJetStep_mNJets (thr : ℚ) (acc : Int × EventHists) (rj : RecoJet) :
    (recoJetStep thr acc rj).2 EventField.mNJets = acc.2 EventField.mNJets := by
  unfold recoJetStep
  by_cases hpt : rj.pt > thr
  · simp only [if_pos hpt]
    repeat rw [FillEventIf_of_ne _ _ _ _ (by decide)]
  · simp only [if_neg hpt]

theorem foldl_recoJetStep_mNJets (thr : ℚ) :
    ∀ (recoJets : List RecoJet) (acc : Int × EventHists),
      (recoJets.foldl (recoJetStep thr) acc).2 EventField.mNJets = acc.2 EventField.mNJets := by
  intro recoJets
  induction recoJets with
  | nil => intro acc; rfl
  | cons rj rest ih =>
    intro acc
    simp only [List.foldl_cons]
    rw [ih, recoJetStep_mNJets]

/-- An event whose centrality, centrality-bin and reconstructed-jet handles are valid,
with `mHF` and `mNJets` booked: the run reaches the generator-level part after the
`mHF` fill and the reconstructed-jet histograms. -/
theorem analyze_of_valid (deltaR : ℚ → ℚ → ℚ → ℚ → ℚ) (jc : JetConfig) (cfg : Config)
    (ev : Event) (s : AnalyzerState) (EtHFtowerSum : ℚ) (hibin : Int) (xs ys : List ℚ)
    (hcent : ev.cent = some EtHFtowerSum) (hcbin : ev.cbin = some hibin)
    (hHF : s.event EventField.mHF = some xs) (hNJ : s.event EventField.mNJets = some ys)
    (hval : recoCollectionInvalid jc ev = false) :
    ∃ (recoJets : List RecoJet) (eh2 : EventHists),
      collectRecoJets jc ev = Except.ok recoJets ∧
      fillRecoJetHists jc.mRecoJetPtThreshold recoJets
          (Function.update s.event EventField.mHF (some (xs ++ [EtHFtowerSum])))
        = Except.ok eh2 ∧
      eh2 EventField.mNJets = some (ys ++ [(recoJets.length : ℚ)]) ∧
      analyze deltaR jc cfg ev s
        = analyzeGen deltaR jc cfg hibin recoJets ev { event := eh2, response := s.response } := by
  obtain ⟨recoJets, hreco⟩ := collectRecoJets_of_valid jc ev hval
  have hNJ1 : Function.update s.event EventField.mHF (some (xs ++ [EtHFtowerSum]))
      EventField.mNJets = some ys := by
    rw [Function.update_noteq (by decide)]; exact hNJ
  have hfill : fillRecoJetHists jc.mRecoJetPtThreshold recoJets
      (Function.update s.event EventField.mHF (some (xs ++ [EtHFtowerSum])))
      = Except.ok (FillEventIf
          (recoJets.foldl (recoJetStep jc.mRecoJetPtThreshold)
            ((0 : Int), Function.update
              (Function.update s.event EventField.mHF (some (xs ++ [EtHFtowerSum])))
              EventField.mNJets (some (ys ++ [(recoJets.length : ℚ)])))).2
          EventField.mNJets_40
          ((recoJets.foldl (recoJetStep jc.mRecoJetPtThreshold)
            ((0 : Int), Function.update
              (Function.update s.event EventField.mHF (some (xs ++ [EtHFtowerSum])))
              EventField.mNJets (some (ys ++ [(recoJets.length : ℚ)])))).1 : ℚ)) := by
    simp only [fillRecoJetHists, FillEvent, hNJ1, Except.bind]
  refine ⟨recoJets, _, hreco, hfill, ?_, ?_⟩
  · rw [FillEventIf_of_ne _ _ _ _ (by decide), foldl_recoJetStep_mNJets]
    simp
  · simp only [analyze, hcent, hcbin, derefHandle, FillEvent, hHF, Except.bind, hreco, hval,
      hfill, Option.isNone_some, Option.isSome_some, Bool.false_eq_true, if_false, if_true]

theorem analyzeGen_of_invalid_genJets (deltaR : ℚ → ℚ → ℚ → ℚ → ℚ) (jc : JetConfig)
    (cfg : Config) (hibin : Int) (recoJets : List RecoJet) (ev : Event) (s : AnalyzerState)
    (hsim : ev.isRealData = false) (hgen : ev.genJets = none) :
    analyzeGen deltaR jc cfg hibin recoJets ev s
      = Except.ok { event := fillPtHat ev s.event, response := s.response } := by
  simp [analyzeGen, hsim, hgen]

/-- C18 (the code at the failing inputs): an event whose centrality handle is invalid ends
on the read `cent->EtHFtowerSum()` of line 896, before the test of line 901; with a valid
centrality, an invalid centrality-bin handle ends on `*cbin` (line 904), and an invalid
reconstructed-jet collection on the read of `->size()` (lines 1326-1343), before the
tests of lines 1345-1350: `analyze` does not return normally. Only the generator-jet
collection is tested (line 1399) before it is read: with it invalid `analyze` returns
normally. -/
theorem analyze_reads_before_validity_test :
    (∀ (deltaR : ℚ → ℚ → ℚ → ℚ → ℚ) (jc : JetConfig) (cfg : Config) (ev : Event)
        (s : AnalyzerState), ev.cent = none →
      analyze deltaR jc cfg ev s = Except.error (EventError.invalidHandle Collection.cent)) ∧
    (∀ (deltaR : ℚ → ℚ → ℚ → ℚ → ℚ) (jc : JetConfig) (cfg : Config) (ev : Event)
        (s : AnalyzerState) (EtHFtowerSum : ℚ) (xs : List ℚ),
      ev.cent = some EtHFtowerSum → s.event EventField.mHF = some xs → ev.cbin = none →
      analyze deltaR jc cfg ev s = Except.error (EventError.invalidHandle Collection.cbin)) ∧
    (∀ (deltaR : ℚ → ℚ → ℚ → ℚ → ℚ) (jc : JetConfig) (cfg : Config) (ev : Event)
        (s : AnalyzerState) (EtHFtowerSum : ℚ) (hibin : Int) (xs : List ℚ),
      ev.cent = some EtHFtowerSum → s.event EventField.mHF = some xs →
      ev.cbin = some hibin → recoCollectionInvalid jc ev = true →
      ∃ c, analyze deltaR jc cfg ev s = Except.error (EventError.invalidHandle c)) ∧
    analyze deltaRSamePhi exampleJetConfig exampleConfig
        { isRealData := false, cent := some 1500, cbin := some 10, caloJets := none,
          jptJets := none, basicJets := none, pfJets := none, ptHat := some 80,
          genJets := some [] } bookedState
      = Except.error (EventError.invalidHandle Collection.caloJets) ∧
    (∃ s1, analyze deltaRSamePhi exampleJetConfig exampleConfig (exampleEvent none) bookedState
      = Except.ok s1) := by
  refine ⟨?_, ?_, ?_, ?_, ?_⟩
  · intro deltaR jc cfg ev s hcent
    simp [analyze, hcent, derefHandle, Except.bind]
  · intro deltaR jc cfg ev s et xs hcent hHF hcbin
    simp [analyze, hcent, hcbin, derefHandle, FillEvent, hHF, Except.bind]
  · intro deltaR jc cfg ev s et hibin xs hcent hHF hcbin hinv
    obtain ⟨c, hc⟩ := collectRecoJets_of_invalid jc ev hinv
    refine ⟨c, ?_⟩
    simp [analyze, hcent, hcbin, derefHandle, FillEvent, hHF, Except.bind, hc]
  · simp [analyze, derefHandle, FillEvent, Except.bind, bookedState, bookedEventHists,
      collectRecoJets, isCaloJet, exampleJetConfig]
  · obtain ⟨recoJets, eh2, _, _, _, hrun⟩ :=
      analyze_of_valid deltaRSamePhi exampleJetConfig exampleConfig (exampleEvent none)
        bookedState 1500 10 [] [] rfl rfl rfl rfl (by decide)
    exact ⟨_, by
      rw [hrun, analyzeGen_of_invalid_genJets _ _ _ _ _ _ _ rfl rfl]⟩

/-! ## The sentinel 999 of the matching loop -/

theorem matchLoopFrom_below_999 (deltaR : ℚ → ℚ → ℚ → ℚ → ℚ) (gjet : Jet) :
    ∀ (rest : List Jet) (i : Nat) (st : MatchState),
      (st.deltaRBest ≤ 999 ∧ (0 ≤ st.iMatch → st.deltaRBest < 999)) →
      ((matchLoopFrom deltaR gjet i rest st).deltaRBest ≤ 999 ∧
        (0 ≤ (matchLoopFrom deltaR gjet i rest st).iMatch →
          (matchLoopFrom deltaR gjet i rest st).deltaRBest < 999)) := by
  intro rest
  induction rest with
  | nil => intro i st hst; simpa [matchLoopFrom] using hst
  | cons r rest ih =>
    intro i st hst
    simp only [matchLoopFrom]
    apply ih
    rcases matchStep_cases deltaR gjet st i r with ⟨_, hlt, heq⟩ | ⟨_, heq⟩
    · rw [heq]
      exact ⟨le_of_lt (lt_of_lt_of_le hlt hst.1), fun _ => lt_of_lt_of_le hlt hst.1⟩
    · rw [heq]
      exact hst

theorem matchLoop_of_all_beyond_999 (deltaR : ℚ → ℚ → ℚ → ℚ → ℚ) (gjet : Jet)
    (recoJets : List Jet)
    (hfar : ∀ rj ∈ recoJets, rj.pt > 10 → 999 ≤ delRTo deltaR gjet rj) :
    matchLoop deltaR gjet recoJets = matchInit := by
  unfold matchLoop
  apply matchLoopFrom_stable
  intro rj hmem hpt
  exact hfar rj hmem hpt

theorem analyzeGenJet_of_no_match (deltaR : ℚ → ℚ → ℚ → ℚ → ℚ) (cfg : Config) (hibin : Int)
    (recoJets : List Jet) (h : Hists) (gjet : Jet)
    (hm : (matchLoop deltaR gjet recoJets).iMatch < 0) :
    analyzeGenJet deltaR cfg hibin recoJets h gjet = Except.ok h := by
  unfold analyzeGenJet
  simp only [hm, if_true]
  split_ifs <;> rfl

/-- C26: the matching loop yields a match (`iMatch >= 0`) exactly when some reconstructed
jet has pt > 10 and DeltaR strictly below the initial value 999 of `deltaRBest`; a jet
with pt > 10 whose DeltaR is 999 or more is never the selected one, and when every jet
with pt > 10 is that far the loop leaves its initial values (`iMatch = -1`) and `analyze`
skips the generator jet, leaving the members as they are. -/
theorem match_iff_some_jet_below_999 (deltaR : ℚ → ℚ → ℚ → ℚ → ℚ) (gjet : Jet)
    (recoJets : List Jet) :
    (0 ≤ (matchLoop deltaR gjet recoJets).iMatch ↔
      ∃ rj ∈ recoJets, rj.pt > 10 ∧ delRTo deltaR gjet rj < 999) ∧
    (∀ (k : Nat) (rj : Jet), recoJets[k]? = some rj → rj.pt > 10 →
      999 ≤ delRTo deltaR gjet rj → (matchLoop deltaR gjet recoJets).iMatch ≠ (k : Int)) ∧
    ((∀ rj ∈ recoJets, rj.pt > 10 → 999 ≤ delRTo deltaR gjet rj) →
      (matchLoop deltaR gjet recoJets).iMatch = -1 ∧
      ∀ (cfg : Config) (hibin : Int) (h : Hists),
        analyzeGenJet deltaR cfg hibin recoJets h gjet = Except.ok h) := by
  have hbelow := matchLoopFrom_below_999 deltaR gjet recoJets 0 matchInit
    ⟨by norm_num [matchInit], fun hneg => absurd hneg (by decide)⟩
  have hsel := matchLoopFrom_selected deltaR gjet recoJets [] matchInit (Or.inl (by decide))
  simp only [List.length_nil, List.nil_append] at hsel
  have hfar : (∀ rj ∈ recoJets, rj.pt > 10 → 999 ≤ delRTo deltaR gjet rj) →
      matchLoop deltaR gjet recoJets = matchInit :=
    matchLoop_of_all_beyond_999 deltaR gjet recoJets
  refine ⟨⟨?_, ?_⟩, ?_, ?_⟩
  · intro hm
    by_contra hno
    have hall : ∀ rj ∈ recoJets, rj.pt > 10 → 999 ≤ delRTo deltaR gjet rj := by
      intro rj hmem hpt
      by_contra hlt
      exact hno ⟨rj, hmem, hpt, not_le.mp hlt⟩
    rw [hfar hall] at hm
    exact absurd hm (by decide)
  · intro hex
    exact matchLoopFrom_iMatch_nonneg deltaR gjet recoJets 0 matchInit (Or.inr hex)
  · intro k rj hk hpt hge hsame
    have hm : 0 ≤ (matchLoop deltaR gjet recoJets).iMatch := by
      rw [hsame]; exact Int.ofNat_nonneg k
    have hlt : (matchLoop deltaR gjet recoJets).deltaRBest < 999 := hbelow.2 hm
    rcases hsel with hneg | ⟨k2, rj2, h1, h2, _, _, h5⟩
    · exact absurd hm (not_le.mpr hneg)
    · have hk2 : (k2 : Int) = (k : Int) := by
        have h1b : (matchLoop deltaR gjet recoJets).iMatch = (k2 : Int) := h1
        rw [← h1b, hsame]
      have hkk : k2 = k := Int.ofNat.inj hk2
      rw [hkk, hk] at h2
      have hrj : rj = rj2 := Option.some.inj h2
      have h5b : (matchLoop deltaR gjet recoJets).deltaRBest = delRTo deltaR gjet rj2 := h5
      rw [h5b, ← hrj] at hlt
      exact absurd hlt (not_lt.mpr hge)
  · intro hall
    have heq := hfar hall
    refine ⟨by rw [heq]; rfl, ?_⟩
    intro cfg hibin h
    apply analyzeGenJet_of_no_match
    rw [heq]
    decide

/-! ## The counter nJet_40 -/

theorem recoJetStep_fst (thr : ℚ) (acc : Int × EventHists) (rj : RecoJet) :
    (recoJetStep thr acc rj).1
      = acc.1 + (if rj.pt > thr ∧ rj.pt > 40 then 1 else 0) := by
  unfold recoJetStep
  by_cases hpt : rj.pt > thr
  · by_cases h40 : rj.pt > 40
    · simp [hpt, h40]
    · simp [hpt, h40]
  · simp [hpt]

theorem foldl_recoJetStep_fst (thr : ℚ) :
    ∀ (recoJets : List RecoJet) (acc : Int × EventHists),
      (recoJets.foldl (recoJetStep thr) acc).1
        = acc.1 + ((recoJets.countP
            (fun rj => decide (rj.pt > thr) && decide (rj.pt > 40)) : Nat) : Int) := by
  intro recoJets
  induction recoJets with
  | nil => intro acc; simp
  | cons rj rest ih =>
    intro acc
    simp only [List.foldl_cons]
    rw [ih, recoJetStep_fst, List.countP_cons]
    by_cases h : rj.pt > thr ∧ rj.pt > 40
    · simp only [h.1, h.2, and_self, if_true, decide_True, Bool.and_self]
      push_cast
      ring
    · rcases not_and_or.mp h with h1 | h1
      · simp [h1]
      · simp [h1]

theorem recoJetStep_mNJets_40 (thr : ℚ) (acc : Int × EventHists) (rj : RecoJet) :
    (recoJetStep thr acc rj).2 EventField.mNJets_40 = acc.2 EventField.mNJets_40 := by
  unfold recoJetStep
  by_cases hpt : rj.pt > thr
  · simp only [if_pos hpt]
    repeat rw [FillEventIf_of_ne _ _ _ _ (by decide)]
  · simp only [if_neg hpt]

theorem foldl_recoJetStep_mNJets_40 (thr : ℚ) :
    ∀ (recoJets : List RecoJet) (acc : Int × EventHists),
      (recoJets.foldl (recoJetStep thr) acc).2 EventField.mNJets_40
        = acc.2 EventField.mNJets_40 := by
  intro recoJets
  induction recoJets with
  | nil => intro acc; rfl
  | cons rj rest ih =>
    intro acc
    simp only [List.foldl_cons]
    rw [ih, recoJetStep_mNJets_40]

/-- With `mNJets` and `mNJets_40` booked, lines 1352-1377 end normally and `mNJets_40`
receives one entry, the number of jets that pass both `pt > mRecoJetPtThreshold` and
`pt > 40`. -/
theorem fillRecoJetHists_mNJets_40 (thr : ℚ) (recoJets : List RecoJet) (eh : EventHists)
    (xs ys : List ℚ) (hN : eh EventField.mNJets = some ys)
    (h40 : eh EventField.mNJets_40 = some xs) :
    ∃ eh2, fillRecoJetHists thr recoJets eh = Except.ok eh2 ∧
      eh2 EventField.mNJets_40
        = some (xs ++ [((recoJets.countP
            (fun rj => decide (rj.pt > thr) && decide (rj.pt > 40)) : Nat) : ℚ)]) := by
  unfold fillRecoJetHists FillEvent
  simp only [hN, Except.bind]
  refine ⟨_, rfl, ?_⟩
  have h1 : (recoJets.foldl (recoJetStep thr)
      ((0 : Int), Function.update eh EventField.mNJets
        (some (ys ++ [(recoJets.length : ℚ)])))).2 EventField.mNJets_40 = some xs := by
    rw [foldl_recoJetStep_mNJets_40]
    show Function.update eh EventField.mNJets (some (ys ++ [(recoJets.length : ℚ)]))
      EventField.mNJets_40 = some xs
    rw [Function.update_noteq (by decide)]
    exact h40
  have h2 := foldl_recoJetStep_fst thr recoJets
    ((0 : Int), Function.update eh EventField.mNJets (some (ys ++ [(recoJets.length : ℚ)])))
  unfold FillEventIf
  rw [h1]
  simp only [Function.update_same]
  rw [h2]
  simp

theorem countP_both_cuts_of_le (thr : ℚ) (hthr : thr ≤ 40) (recoJets : List RecoJet) :
    recoJets.countP (fun rj => decide (rj.pt > thr) && decide (rj.pt > 40))
      = recoJets.countP (fun rj => decide (rj.pt > 40)) := by
  congr 1
  funext rj
  by_cases h40 : rj.pt > 40
  · have : rj.pt > thr := lt_of_le_of_lt hthr h40
    simp [h40, this]
  · simp [h40]

/-- C23 (as amended): with `mNJets` and `mNJets_40` booked, for every list of
reconstructed jets and every `recoJetPtThreshold` the value filled into
NJets_pt_greater_40 is the number of reconstructed jets with `pt > recoJetPtThreshold`
and `pt > 40`; when `recoJetPtThreshold <= 40` this is the number of reconstructed jets
with `pt > 40`. -/
theorem nJet_40_counts_jets_above_both_cuts (thr : ℚ) (recoJets : List RecoJet)
    (eh : EventHists) (xs ys : List ℚ) (hN : eh EventField.mNJets = some ys)
    (h40 : eh EventField.mNJets_40 = some xs) :
    (∃ eh2, fillRecoJetHists thr recoJets eh = Except.ok eh2 ∧
      eh2 EventField.mNJets_40
        = some (xs ++ [((recoJets.countP
            (fun rj => decide (rj.pt > thr) && decide (rj.pt > 40)) : Nat) : ℚ)])) ∧
    (thr ≤ 40 →
      ∃ eh2, fillRecoJetHists thr recoJets eh = Except.ok eh2 ∧
        eh2 EventField.mNJets_40
          = some (xs ++ [((recoJets.countP (fun rj => decide (rj.pt > 40)) : Nat) : ℚ)])) := by
  refine ⟨fillRecoJetHists_mNJets_40 thr recoJets eh xs ys hN h40, ?_⟩
  intro hthr
  rw [← countP_both_cuts_of_le thr hthr recoJets]
  exact fillRecoJetHists_mNJets_40 thr recoJets eh xs ys hN h40

/-- C23 (witness): threshold 20 and jets with pt 50, 30 and 15 on the members as booked:
one jet is counted. -/
theorem nJet_40_counts_jets_above_both_cuts_witness :
    (∃ eh2, fillRecoJetHists 20
        [exampleRecoJet 50 0, exampleRecoJet 30 0, exampleRecoJet 15 0] bookedEventHists
          = Except.ok eh2 ∧
      eh2 EventField.mNJets_40
        = some ([] ++ [(([exampleRecoJet 50 0, exampleRecoJet 30 0, exampleRecoJet 15 0].countP
            (fun rj => decide (rj.pt > 20) && decide (rj.pt > 40)) : Nat) : ℚ)])) ∧
    ((20 : ℚ) ≤ 40 →
      ∃ eh2, fillRecoJetHists 20
          [exampleRecoJet 50 0, exampleRecoJet 30 0, exampleRecoJet 15 0] bookedEventHists
            = Except.ok eh2 ∧
        eh2 EventField.mNJets_40
          = some ([] ++ [(([exampleRecoJet 50 0, exampleRecoJet 30 0,
              exampleRecoJet 15 0].countP (fun rj => decide (rj.pt > 40)) : Nat) : ℚ)])) :=
  nJet_40_counts_jets_above_both_cuts 20
    [exampleRecoJet 50 0, exampleRecoJet 30 0, exampleRecoJet 15 0] bookedEventHists [] []
    rfl rfl

/-- C23 (counterexample): with `recoJetPtThreshold = 50` and one reconstructed jet of
pt 45, one jet has `pt > 40` but the value filled into NJets_pt_greater_40 is 0. -/
theorem nJet_40_misses_jet_below_threshold :
    [exampleRecoJet 45 0].countP (fun rj => decide (rj.pt > 40)) = 1 ∧
    ∃ eh2, fillRecoJetHists 50 [exampleRecoJet 45 0] bookedEventHists = Except.ok eh2 ∧
      eh2 EventField.mNJets_40 = some [0] := by
  constructor
  · norm_num [exampleRecoJet, List.countP_cons]
  · obtain ⟨eh2, hrun, hval⟩ := fillRecoJetHists_mNJets_40 50 [exampleRecoJet 45 0]
      bookedEventHists [] [] rfl rfl
    refine ⟨eh2, hrun, ?_⟩
    rw [hval]
    norm_num [exampleRecoJet]

/-! ## The vertex position -/

theorem vertexAt_of_lt (vtxs : List Vertex) (i : Nat) (hi : i < vtxs.length) :
    ∃ v, vtxs[i]? = some v ∧ vertexAt vtxs i = Except.ok v := by
  refine ⟨vtxs[i], List.getElem?_eq_getElem hi, ?_⟩
  unfold vertexAt
  rw [List.getElem?_eq_getElem hi]

theorem greatestvtxLoop_valid (vtxs : List Vertex) :
    ∀ (is : List Nat) (g : Nat), (∀ i ∈ is, i < vtxs.length) → g < vtxs.length →
      ∃ g2, greatestvtxLoop vtxs is g = Except.ok g2 ∧ g2 < vtxs.length := by
  intro is
  induction is with
  | nil => intro g _ hg; exact ⟨g, rfl, hg⟩
  | cons i rest ih =>
    intro g his hg
    obtain ⟨vi, _, hvi⟩ := vertexAt_of_lt vtxs i (his i (List.mem_cons_self i rest))
    obtain ⟨vg, _, hvg⟩ := vertexAt_of_lt vtxs g hg
    simp only [greatestvtxLoop, hvi, hvg, Except.bind]
    apply ih
    · intro j hj
      exact his j (List.mem_cons_of_mem i hj)
    · split_ifs
      · exact his i (List.mem_cons_self i rest)
      · exact hg

/-- C27: on an empty `hiSelectedVertex` collection `greatestvtx` stays 0 and line 853
reads `(*vtxs)[0]`, an element the collection does not have, so `vtx` is not left at
the origin; on a non-empty collection `greatestvtx` is a valid index and `vtx` is the
position of that vertex. -/
theorem vtx_of_empty_collection_indexes_element_0 :
    greatestvtx [] = Except.ok 0 ∧
    vtxOfEvent [] = Except.error (VertexError.outOfRange 0 0) ∧
    vtxOfEvent [] ≠ Except.ok (0, 0, 0) ∧
    (∀ vtxs : List Vertex, vtxs ≠ [] →
      ∃ (g : Nat) (v : Vertex), greatestvtx vtxs = Except.ok g ∧ g < vtxs.length ∧
        vtxs[g]? = some v ∧ vtxOfEvent vtxs = Except.ok v.position) := by
  refine ⟨rfl, rfl, ?_, ?_⟩
  · rw [show vtxOfEvent [] = Except.error (VertexError.outOfRange 0 0) from rfl]
    exact fun h => Except.noConfusion h
  intro vtxs hne
  have hpos : 0 < vtxs.length := List.length_pos.mpr hne
  obtain ⟨g, hg, hlt⟩ := greatestvtxLoop_valid vtxs (List.range vtxs.length) 0
    (fun i hi => List.mem_range.mp hi) hpos
  obtain ⟨v, hv, hat⟩ := vertexAt_of_lt vtxs g hlt
  refine ⟨g, v, hg, hlt, hv, ?_⟩
  unfold vtxOfEvent
  have hg2 : greatestvtx vtxs = Except.ok g := hg
  simp only [hg2, hat, Except.bind]

/-! ## The conversion to Float_t -/

theorem roundHalfEven_of_near (x : ℚ) (m : Int) (h : |x - m| < 1 / 2) :
    roundHalfEven x = m := by
  rw [abs_lt] at h
  unfold roundHalfEven
  by_cases hle : (m : ℚ) ≤ x
  · have hf : ⌊x⌋ = m := by
      rw [Int.floor_eq_iff]
      constructor
      · exact hle
      · linarith
    simp only [hf]
    rw [if_pos (by linarith)]
  · have hf : ⌊x⌋ = m - 1 := by
      rw [Int.floor_eq_iff]
      push_cast
      constructor
      · linarith
      · linarith
    simp only [hf]
    push_cast
    rw [if_neg (by linarith), if_pos (by linarith)]
    ring

/-- The `Float_t` of `x` in the binade `2^e <= |x| < 2^(e+1)`, when `m` is the integer
within a half of `x / 2^(e-23)`. -/
theorem Float_t_of_near (x : ℚ) (e m : Int) (hlo : (2 : ℚ) ^ e ≤ |x|)
    (hhi : |x| < (2 : ℚ) ^ (e + 1)) (hnear : |x / 2 ^ (e - 23) - m| < 1 / 2) :
    Float_t x = (m : ℚ) * 2 ^ (e - 23) := by
  have hpos : 0 < |x| := lt_of_lt_of_le (zpow_pos (by norm_num) e) hlo
  have hx : x ≠ 0 := abs_pos.mp hpos
  have hlog : Int.log 2 |x| = e := by
    apply le_antisymm
    · have := (Int.lt_zpow_iff_log_lt (by norm_num : 1 < 2) hpos).mp (by exact_mod_cast hhi)
      omega
    · exact (Int.zpow_le_iff_le_log (by norm_num : 1 < 2) hpos).mp (by exact_mod_cast hlo)
  unfold Float_t
  rw [if_neg hx]
  simp only [hlog]
  rw [roundHalfEven_of_near _ m hnear]

theorem Float_t_zero : Float_t 0 = 0 := by
  unfold Float_t
  rw [if_pos rfl]

theorem Float_t_one : Float_t 1 = 1 := by
  rw [Float_t_of_near 1 0 8388608 (by norm_num) (by norm_num) (by norm_num [abs_lt])]
  norm_num

theorem Float_t_two : Float_t 2 = 2 := by
  rw [Float_t_of_near 2 1 8388608 (by norm_num) (by norm_num) (by norm_num [abs_lt])]
  norm_num

/-- The decimal 0.1 is narrowed to 0.100000001490116... -/
theorem Float_t_one_tenth : Float_t (1 / 10) = 13421773 / 134217728 := by
  rw [Float_t_of_near (1 / 10) (-4) 13421773 (by norm_num [abs_of_pos])
    (by norm_num [abs_of_pos]) (by norm_num [abs_lt])]
  norm_num

/-- The last edge 5.191 is narrowed to 5.19099998474121..., a value below it. -/
theorem Float_t_last_edge : Float_t (5191 / 1000) = 2721579 / 524288 := by
  rw [Float_t_of_near (5191 / 1000) 2 10886316 (by norm_num [abs_of_pos])
    (by norm_num [abs_of_pos]) (by norm_num [abs_lt])]
  norm_num

/-- The edge -2.650 is narrowed to -2.65000009536743..., a value below it. -/
theorem Float_t_second_edge : Float_t (-2650 / 1000) = -5557453 / 2097152 := by
  rw [Float_t_of_near (-2650 / 1000) 1 (-11114906) (by norm_num [abs_of_neg])
    (by norm_num [abs_of_neg]) (by norm_num [abs_lt])]
  norm_num

/-! ## The switch on the particle id of a candidate -/

theorem pfCandField_kindOf_categoryOf (f : PFCandField) :
    pfCandField (kindOf f) (categoryOf f) = f := by
  cases f <;> rfl

theorem kindOf_pfCandField (kind : PFHistKind) (cat : PFCategory) :
    kindOf (pfCandField kind cat) = kind := by
  cases kind <;> cases cat <;> rfl

theorem categoryOf_pfCandField (kind : PFHistKind) (cat : PFCategory) :
    categoryOf (pfCandField kind cat) = cat := by
  cases kind <;> cases cat <;> rfl

theorem PFCategory_id_range (cat : PFCategory) : 0 ≤ cat.id ∧ cat.id ≤ 7 := by
  cases cat <;> decide

theorem targets_case_0 (b1 b2 b3 : Bool) (pt eta : ℚ) :
    (case_0 b1 b2 b3 pt eta).map Prod.fst = (case_0 b1 b2 b3 0 0).map Prod.fst := by
  cases b1 <;> cases b2 <;> cases b3 <;> rfl

theorem mem_targets_case_0 (b1 b2 b3 : Bool) (kind : PFHistKind) (cat : PFCategory) :
    pfCandField kind cat ∈ (case_0 b1 b2 b3 0 0).map Prod.fst ↔
      ((0 : Int) ≤ cat.id ∧
        (match kind with
          | PFHistKind.vs_eta => true
          | PFHistKind.Barrel => b1
          | PFHistKind.Endcap => b2
          | PFHistKind.Forward => b3) = true) := by
  cases cat <;> cases kind <;> cases b1 <;> cases b2 <;> cases b3 <;> decide

theorem nodup_targets_case_0 (b1 b2 b3 : Bool) :
    ((case_0 b1 b2 b3 0 0).map Prod.fst).Nodup := by
  cases b1 <;> cases b2 <;> cases b3 <;> decide

theorem args_case_0 (b1 b2 b3 : Bool) (pt eta : ℚ) :
    ∀ call ∈ case_0 b1 b2 b3 pt eta, call.2 = kindArgs pt eta (kindOf call.1) := by
  cases b1 <;> cases b2 <;> cases b3 <;>
    simp [case_0, case_1, case_2, case_3, case_4, case_5, case_6, case_7, onlyIf, kindOf, kindArgs]

theorem targets_case_1 (b1 b2 b3 : Bool) (pt eta : ℚ) :
    (case_1 b1 b2 b3 pt eta).map Prod.fst = (case_1 b1 b2 b3 0 0).map Prod.fst := by
  cases b1 <;> cases b2 <;> cases b3 <;> rfl

theorem mem_targets_case_1 (b1 b2 b3 : Bool) (kind : PFHistKind) (cat : PFCategory) :
    pfCandField kind cat ∈ (case_1 b1 b2 b3 0 0).map Prod.fst ↔
      ((1 : Int) ≤ cat.id ∧
        (match kind with
          | PFHistKind.vs_eta => true
          | PFHistKind.Barrel => b1
          | PFHistKind.Endcap => b2
          | PFHistKind.Forward => b3) = true) := by
  cases cat <;> cases kind <;> cases b1 <;> cases b2 <;> cases b3 <;> decide

theorem nodup_targets_case_1 (b1 b2 b3 : Bool) :
    ((case_1 b1 b2 b3 0 0).map Prod.fst).Nodup := by
  cases b1 <;> cases b2 <;> cases b3 <;> decide

theorem args_case_1 (b1 b2 b3 : Bool) (pt eta : ℚ) :
    ∀ call ∈ case_1 b1 b2 b3 pt eta, call.2 = kindArgs pt eta (kindOf call.1) := by
  cases b1 <;> cases b2 <;> cases b3 <;>
    simp [case_0, case_1, case_2, case_3, case_4, case_5, case_6, case_7, onlyIf, kindOf, kindArgs]

theorem targets_case_2 (b1 b2 b3 : Bool) (pt eta : ℚ) :
    (case_2 b1 b2 b3 pt eta).map Prod.fst = (case_2 b1 b2 b3 0 0).map Prod.fst := by
  cases b1 <;> cases b2 <;> cases b3 <;> rfl

theorem mem_targets_case_2 (b1 b2 b3 : Bool) (kind : PFHistKind) (cat : PFCategory) :
    pfCandField kind cat ∈ (case_2 b1 b2 b3 0 0).map Prod.fst ↔
      ((2 : Int) ≤ cat.id ∧
        (match kind with
          | PFHistKind.vs_eta => true
          | PFHistKind.Barrel => b1
          | PFHistKind.Endcap => b2
          | PFHistKind.Forward => b3) = true) := by
  cases cat <;> cases kind <;> cases b1 <;> cases b2 <;> cases b3 <;> decide

theorem nodup_targets_case_2 (b1 b2 b3 : Bool) :
    ((case_2 b1 b2 b3 0 0).map Prod.fst).Nodup := by
  cases b1 <;> cases b2 <;> cases b3 <;> decide

theorem args_case_2 (b1 b2 b3 : Bool) (pt eta : ℚ) :
    ∀ call ∈ case_2 b1 b2 b3 pt eta, call.2 = kindArgs pt eta (kindOf call.1) := by
  cases b1 <;> cases b2 <;> cases b3 <;>
    simp [case_0, case_1, case_2, case_3, case_4, case_5, case_6, case_7, onlyIf, kindOf, kindArgs]

theorem targets_case_3 (b1 b2 b3 : Bool) (pt eta : ℚ) :
    (case_3 b1 b2 b3 pt eta).map Prod.fst = (case_3 b1 b2 b3 0 0).map Prod.fst := by
  cases b1 <;> cases b2 <;> cases b3 <;> rfl

theorem mem_targets_case_3 (b1 b2 b3 : Bool) (kind : PFHistKind) (cat : PFCategory) :
    pfCandField kind cat ∈ (case_3 b1 b2 b3 0 0).map Prod.fst ↔
      ((3 : Int) ≤ cat.id ∧
        (match kind with
          | PFHistKind.vs_eta => true
          | PFHistKind.Barrel => b1
          | PFHistKind.Endcap => b2
          | PFHistKind.Forward => b3) = true) := by
  cases cat <;> cases kind <;> cases b1 <;> cases b2 <;> cases b3 <;> decide

theorem nodup_targets_case_3 (b1 b2 b3 : Bool) :
    ((case_3 b1 b2 b3 0 0).map Prod.fst).Nodup := by
  cases b1 <;> cases b2 <;> cases b3 <;> decide

theorem args_case_3 (b1 b2 b3 : Bool) (pt eta : ℚ) :
    ∀ call ∈ case_3 b1 b2 b3 pt eta, call.2 = kindArgs pt eta (kindOf call.1) := by
  cases b1 <;> cases b2 <;> cases b3 <;>
    simp [case_0, case_1, case_2, case_3, case_4, case_5, case_6, case_7, onlyIf, kindOf, kindArgs]

theorem targets_case_4 (b1 b2 b3 : Bool) (pt eta : ℚ) :
    (case_4 b1 b2 b3 pt eta).map Prod.fst = (case_4 b1 b2 b3 0 0).map Prod.fst := by
  cases b1 <;> cases b2 <;> cases b3 <;> rfl

theorem mem_targets_case_4 (b1 b2 b3 : Bool) (kind : PFHistKind) (cat : PFCategory) :
    pfCandField kind cat ∈ (case_4 b1 b2 b3 0 0).map Prod.fst ↔
      ((4 : Int) ≤ cat.id ∧
        (match kind with
          | PFHistKind.vs_eta => true
          | PFHistKind.Barrel => b1
          | PFHistKind.Endcap => b2
          | PFHistKind.Forward => b3) = true) := by
  cases cat <;> cases kind <;> cases b1 <;> cases b2 <;> cases b3 <;> decide

theorem nodup_targets_case_4 (b1 b2 b3 : Bool) :
    ((case_4 b1 b2 b3 0 0).map Prod.fst).Nodup := by
  cases b1 <;> cases b2 <;> cases b3 <;> decide

theorem args_case_4 (b1 b2 b3 : Bool) (pt eta : ℚ) :
    ∀ call ∈ case_4 b1 b2 b3 pt eta, call.2 = kindArgs pt eta (kindOf call.1) := by
  cases b1 <;> cases b2 <;> cases b3 <;>
    simp [case_0, case_1, case_2, case_3, case_4, case_5, case_6, case_7, onlyIf, kindOf, kindArgs]

theorem targets_case_5 (b1 b2 b3 : Bool) (pt eta : ℚ) :
    (case_5 b1 b2 b3 pt eta).map Prod.fst = (case_5 b1 b2 b3 0 0).map Prod.fst := by
  cases b1 <;> cases b2 <;> cases b3 <;> rfl

theorem mem_targets_case_5 (b1 b2 b3 : Bool) (kind : PFHistKind) (cat : PFCategory) :
    pfCandField kind cat ∈ (case_5 b1 b2 b3 0 0).map Prod.fst ↔
      ((5 : Int) ≤ cat.id ∧
        (match kind with
          | PFHistKind.vs_eta => true
          | PFHistKind.Barrel => b1
          | PFHistKind.Endcap => b2
          | PFHistKind.Forward => b3) = true) := by
  cases cat <;> cases kind <;> cases b1 <;> cases b2 <;> cases b3 <;> decide

theorem nodup_targets_case_5 (b1 b2 b3 : Bool) :
    ((case_5 b1 b2 b3 0 0).map Prod.fst).Nodup := by
  cases b1 <;> cases b2 <;> cases b3 <;> decide

theorem args_case_5 (b1 b2 b3 : Bool) (pt eta : ℚ) :
    ∀ call ∈ case_5 b1 b2 b3 pt eta, call.2 = kindArgs pt eta (kindOf call.1) := by
  cases b1 <;> cases b2 <;> cases b3 <;>
    simp [case_0, case_1, case_2, case_3, case_4, case_5, case_6, case_7, onlyIf, kindOf, kindArgs]

theorem targets_case_6 (b1 b2 b3 : Bool) (pt eta : ℚ) :
    (case_6 b1 b2 b3 pt eta).map Prod.fst = (case_6 b1 b2 b3 0 0).map Prod.fst := by
  cases b1 <;> cases b2 <;> cases b3 <;> rfl

theorem mem_targets_case_6 (b1 b2 b3 : Bool) (kind : PFHistKind) (cat : PFCategory) :
    pfCandField kind cat ∈ (case_6 b1 b2 b3 0 0).map Prod.fst ↔
      ((6 : Int) ≤ cat.id ∧
        (match kind with
          | PFHistKind.vs_eta => true
          | PFHistKind.Barrel => b1
          | PFHistKind.Endcap => b2
          | PFHistKind.Forward => b3) = true) := by
  cases cat <;> cases kind <;> cases b1 <;> cases b2 <;> cases b3 <;> decide

theorem nodup_targets_case_6 (b1 b2 b3 : Bool) :
    ((case_6 b1 b2 b3 0 0).map Prod.fst).Nodup := by
  cases b1 <;> cases b2 <;> cases b3 <;> decide

theorem args_case_6 (b1 b2 b3 : Bool) (pt eta : ℚ) :
    ∀ call ∈ case_6 b1 b2 b3 pt eta, call.2 = kindArgs pt eta (kindOf call.1) := by
  cases b1 <;> cases b2 <;> cases b3 <;>
    simp [case_0, case_1, case_2, case_3, case_4, case_5, case_6, case_7, onlyIf, kindOf, kindArgs]

theorem targets_case_7 (b1 b2 b3 : Bool) (pt eta : ℚ) :
    (case_7 b1 b2 b3 pt eta).map Prod.fst = (case_7 b1 b2 b3 0 0).map Prod.fst := by
  cases b1 <;> cases b2 <;> cases b3 <;> rfl

theorem mem_targets_case_7 (b1 b2 b3 : Bool) (kind : PFHistKind) (cat : PFCategory) :
    pfCandField kind cat ∈ (case_7 b1 b2 b3 0 0).map Prod.fst ↔
      ((7 : Int) ≤ cat.id ∧
        (match kind with
          | PFHistKind.vs_eta => true
          | PFHistKind.Barrel => b1
          | PFHistKind.Endcap => b2
          | PFHistKind.Forward => b3) = true) := by
  cases cat <;> cases kind <;> cases b1 <;> cases b2 <;> cases b3 <;> decide

theorem nodup_targets_case_7 (b1 b2 b3 : Bool) :
    ((case_7 b1 b2 b3 0 0).map Prod.fst).Nodup := by
  cases b1 <;> cases b2 <;> cases b3 <;> decide

theorem args_case_7 (b1 b2 b3 : Bool) (pt eta : ℚ) :
    ∀ call ∈ case_7 b1 b2 b3 pt eta, call.2 = kindArgs pt eta (kindOf call.1) := by
  cases b1 <;> cases b2 <;> cases b3 <;>
    simp [case_0, case_1, case_2, case_3, case_4, case_5, case_6, case_7, onlyIf, kindOf, kindArgs]
theorem switchPfID_of_label (k : Int) (b1 b2 b3 : Bool) (pt eta : ℚ) :
    (k = 0 → switchPfID k b1 b2 b3 pt eta = case_0 b1 b2 b3 pt eta) ∧
    (k = 1 → switchPfID k b1 b2 b3 pt eta = case_1 b1 b2 b3 pt eta) ∧
    (k = 2 → switchPfID k b1 b2 b3 pt eta = case_2 b1 b2 b3 pt eta) ∧
    (k = 3 → switchPfID k b1 b2 b3 pt eta = case_3 b1 b2 b3 pt eta) ∧
    (k = 4 → switchPfID k b1 b2 b3 pt eta = case_4 b1 b2 b3 pt eta) ∧
    (k = 5 → switchPfID k b1 b2 b3 pt eta = case_5 b1 b2 b3 pt eta) ∧
    (k = 6 → switchPfID k b1 b2 b3 pt eta = case_6 b1 b2 b3 pt eta) ∧
    (k = 7 → switchPfID k b1 b2 b3 pt eta = case_7 b1 b2 b3 pt eta) ∧
    ((k < 0 ∨ 7 < k) → switchPfID k b1 b2 b3 pt eta = []) := by
  refine ⟨?_, ?_, ?_, ?_, ?_, ?_, ?_, ?_, ?_⟩
  all_goals
    intro hk
    unfold switchPfID
    first
      | (subst hk; simp)
      | (have h0 : k ≠ 0 := by omega
         have h1 : k ≠ 1 := by omega
         have h2 : k ≠ 2 := by omega
         have h3 : k ≠ 3 := by omega
         have h4 : k ≠ 4 := by omega
         have h5 : k ≠ 5 := by omega
         have h6 : k ≠ 6 := by omega
         have h7 : k ≠ 7 := by omega
         simp [h0, h1, h2, h3, h4, h5, h6, h7])

/-- The calls of the `switch` for any value of `pfID` and of the flags. -/
theorem switchPfID_calls (k : Int) (b1 b2 b3 : Bool) (pt eta : ℚ) :
    (∀ (kind : PFHistKind) (cat : PFCategory),
      pfCandField kind cat ∈ (switchPfID k b1 b2 b3 pt eta).map Prod.fst ↔
        (0 ≤ k ∧ k ≤ 7 ∧ k ≤ cat.id ∧
          (match kind with
            | PFHistKind.vs_eta => true
            | PFHistKind.Barrel => b1
            | PFHistKind.Endcap => b2
            | PFHistKind.Forward => b3) = true)) ∧
    ((switchPfID k b1 b2 b3 pt eta).map Prod.fst).Nodup ∧
    (∀ call ∈ switchPfID k b1 b2 b3 pt eta, call.2 = kindArgs pt eta (kindOf call.1)) := by
  have hl := switchPfID_of_label k b1 b2 b3 pt eta
  obtain ⟨l0, l1, l2, l3, l4, l5, l6, l7, lout⟩ := hl
  have hcases : k = 0 ∨ k = 1 ∨ k = 2 ∨ k = 3 ∨ k = 4 ∨ k = 5 ∨ k = 6 ∨ k = 7 ∨
      (k < 0 ∨ 7 < k) := by omega
  rcases hcases with h | h | h | h | h | h | h | h | h

  · rw [l0 h, targets_case_0]
    refine ⟨?_, nodup_targets_case_0 b1 b2 b3, args_case_0 b1 b2 b3 pt eta⟩
    intro kind cat
    rw [mem_targets_case_0, h]
    have := PFCategory_id_range cat
    constructor
    · intro hx
      exact ⟨by omega, by omega, hx.1, hx.2⟩
    · intro hx
      exact ⟨hx.2.2.1, hx.2.2.2⟩

  · rw [l1 h, targets_case_1]
    refine ⟨?_, nodup_targets_case_1 b1 b2 b3, args_case_1 b1 b2 b3 pt eta⟩
    intro kind cat
    rw [mem_targets_case_1, h]
    have := PFCategory_id_range cat
    constructor
    · intro hx
      exact ⟨by omega, by omega, hx.1, hx.2⟩
    · intro hx
      exact ⟨hx.2.2.1, hx.2.2.2⟩

  · rw [l2 h, targets_case_2]
    refine ⟨?_, nodup_targets_case_2 b1 b2 b3, args_case_2 b1 b2 b3 pt eta⟩
    intro kind cat
    rw [mem_targets_case_2, h]
    have := PFCategory_id_range cat
    constructor
    · intro hx
      exact ⟨by omega, by omega, hx.1, hx.2⟩
    · intro hx
      exact ⟨hx.2.2.1, hx.2.2.2⟩

  · rw [l3 h, targets_case_3]
    refine ⟨?_, nodup_targets_case_3 b1 b2 b3, args_case_3 b1 b2 b3 pt eta⟩
    intro kind cat
    rw [mem_targets_case_3, h]
    have := PFCategory_id_range cat
    constructor
    · intro hx
      exact ⟨by omega, by omega, hx.1, hx.2⟩
    · intro hx
      exact ⟨hx.2.2.1, hx.2.2.2⟩

  · rw [l4 h, targets_case_4]
    refine ⟨?_, nodup_targets_case_4 b1 b2 b3, args_case_4 b1 b2 b3 pt eta⟩
    intro kind cat
    rw [mem_targets_case_4, h]
    have := PFCategory_id_range cat
    constructor
    · intro hx
      exact ⟨by omega, by omega, hx.1, hx.2⟩
    · intro hx
      exact ⟨hx.2.2.1, hx.2.2.2⟩

  · rw [l5 h, targets_case_5]
    refine ⟨?_, nodup_targets_case_5 b1 b2 b3, args_case_5 b1 b2 b3 pt eta⟩
    intro kind cat
    rw [mem_targets_case_5, h]
    have := PFCategory_id_range cat
    constructor
    · intro hx
      exact ⟨by omega, by omega, hx.1, hx.2⟩
    · intro hx
      exact ⟨hx.2.2.1, hx.2.2.2⟩

  · rw [l6 h, targets_case_6]
    refine ⟨?_, nodup_targets_case_6 b1 b2 b3, args_case_6 b1 b2 b3 pt eta⟩
    intro kind cat
    rw [mem_targets_case_6, h]
    have := PFCategory_id_range cat
    constructor
    · intro hx
      exact ⟨by omega, by omega, hx.1, hx.2⟩
    · intro hx
      exact ⟨hx.2.2.1, hx.2.2.2⟩

  · rw [l7 h, targets_case_7]
    refine ⟨?_, nodup_targets_case_7 b1 b2 b3, args_case_7 b1 b2 b3 pt eta⟩
    intro kind cat
    rw [mem_targets_case_7, h]
    have := PFCategory_id_range cat
    constructor
    · intro hx
      exact ⟨by omega, by omega, hx.1, hx.2⟩
    · intro hx
      exact ⟨hx.2.2.1, hx.2.2.2⟩

  · rw [lout h]
    refine ⟨?_, List.nodup_nil, ?_⟩
    · intro kind cat
      constructor
      · intro hx
        simp at hx
      · intro hx
        omega
    · intro call hmem
      simp at hmem

/-- C22: for a candidate with `pt >= 0.5` the `switch` on its particle id `k` fills,
each once, the pT-versus-eta histogram of every category `j` with `k <= j <= 7`, and
the Barrel, Endcap or Forward pT histogram of these categories when the region flag is
set, and no histogram of a category `j < k`; for a particle id outside 0..7 it fills
none. The region flags are those of `pfEta`, and the arguments are `(pfPt, pfEta)` and
`pfPt`, the eta and pt of the candidate narrowed to `Float_t`. -/
theorem switch_fills_categories_from_id (cfg : Config) (pfCandidate : PFCandidate)
    (hpt : pfCandidate.pt ≥ 1 / 2) :
    (∀ (kind : PFHistKind) (cat : PFCategory),
      pfCandField kind cat ∈ (pfCandidateFills cfg pfCandidate).map Prod.fst ↔
        (0 ≤ pfCandidate.particleId ∧ pfCandidate.particleId ≤ 7 ∧
          pfCandidate.particleId ≤ cat.id ∧
          kindSelected cfg (Float_t pfCandidate.eta) kind = true)) ∧
    ((pfCandidateFills cfg pfCandidate).map Prod.fst).Nodup ∧
    (∀ call ∈ pfCandidateFills cfg pfCandidate,
      call.2 = kindArgs (Float_t pfCandidate.pt) (Float_t pfCandidate.eta)
        (kindOf call.1)) ∧
    ((pfCandidate.particleId < 0 ∨ 7 < pfCandidate.particleId) →
      pfCandidateFills cfg pfCandidate = []) := by
  have hfills : pfCandidateFills cfg pfCandidate
      = switchPfID pfCandidate.particleId (inBarrel cfg (Float_t pfCandidate.eta))
          (inEndcap cfg (Float_t pfCandidate.eta)) (inForward cfg (Float_t pfCandidate.eta))
          (Float_t pfCandidate.pt) (Float_t pfCandidate.eta) := by
    unfold pfCandidateFills
    rw [if_neg (not_lt.mpr hpt)]
  rw [hfills]
  obtain ⟨hmem, hnodup, hargs⟩ := switchPfID_calls pfCandidate.particleId
    (inBarrel cfg (Float_t pfCandidate.eta)) (inEndcap cfg (Float_t pfCandidate.eta))
    (inForward cfg (Float_t pfCandidate.eta)) (Float_t pfCandidate.pt)
    (Float_t pfCandidate.eta)
  refine ⟨?_, hnodup, hargs, ?_⟩
  · intro kind cat
    rw [hmem kind cat]
    cases kind <;> rfl
  · intro hout
    exact (switchPfID_of_label pfCandidate.particleId _ _ _ _ _).2.2.2.2.2.2.2.2 hout

/-- C22 (witness): a photon candidate (particle id 4) with pt 2 at eta 0.1, in the Barrel
of the example configuration. -/
theorem switch_fills_categories_from_id_witness :
    (∀ (kind : PFHistKind) (cat : PFCategory),
      pfCandField kind cat ∈ (pfCandidateFills exampleConfig
          { pt := 2, eta := 1 / 10, phi := 0, particleId := 4 }).map Prod.fst ↔
        (0 ≤ ({ pt := 2, eta := 1 / 10, phi := 0, particleId := 4 } : PFCandidate).particleId ∧
          ({ pt := 2, eta := 1 / 10, phi := 0, particleId := 4 } : PFCandidate).particleId ≤ 7 ∧
          ({ pt := 2, eta := 1 / 10, phi := 0, particleId := 4 } : PFCandidate).particleId
            ≤ cat.id ∧
          kindSelected exampleConfig
            (Float_t ({ pt := 2, eta := 1 / 10, phi := 0, particleId := 4 } : PFCandidate).eta)
              kind = true)) ∧
    ((pfCandidateFills exampleConfig
        { pt := 2, eta := 1 / 10, phi := 0, particleId := 4 }).map Prod.fst).Nodup ∧
    (∀ call ∈ pfCandidateFills exampleConfig
        { pt := 2, eta := 1 / 10, phi := 0, particleId := 4 },
      call.2 = kindArgs
        (Float_t ({ pt := 2, eta := 1 / 10, phi := 0, particleId := 4 } : PFCandidate).pt)
        (Float_t ({ pt := 2, eta := 1 / 10, phi := 0, particleId := 4 } : PFCandidate).eta)
        (kindOf call.1)) ∧
    ((({ pt := 2, eta := 1 / 10, phi := 0, particleId := 4 } : PFCandidate).particleId < 0 ∨
        7 < ({ pt := 2, eta := 1 / 10, phi := 0, particleId := 4 } : PFCandidate).particleId) →
      pfCandidateFills exampleConfig
        { pt := 2, eta := 1 / 10, phi := 0, particleId := 4 } = []) :=
  switch_fills_categories_from_id exampleConfig
    { pt := 2, eta := 1 / 10, phi := 0, particleId := 4 } (by norm_num)

/-- The calls for the photon candidate of the witness: the photon histograms and, there
being no `break`, those of the three categories after it; the eta passed is the
`Float_t` of 0.1. -/
theorem pfCandidateFills_example_photon :
    pfCandidateFills exampleConfig { pt := 2, eta := 1 / 10, phi := 0, particleId := 4 }
      = [(PFCandField.mPFCandpT_vs_eta_photon, PFFillArgs.xy 2 (13421773 / 134217728)),
         (PFCandField.mPFCandpT_Barrel_photon, PFFillArgs.x 2),
         (PFCandField.mPFCandpT_vs_eta_NeutralHadron, PFFillArgs.xy 2 (13421773 / 134217728)),
         (PFCandField.mPFCandpT_Barrel_NeutralHadron, PFFillArgs.x 2),
         (PFCandField.mPFCandpT_vs_eta_HadE_inHF, PFFillArgs.xy 2 (13421773 / 134217728)),
         (PFCandField.mPFCandpT_Barrel_HadE_inHF, PFFillArgs.x 2),
         (PFCandField.mPFCandpT_vs_eta_EME_inHF, PFFillArgs.xy 2 (13421773 / 134217728)),
         (PFCandField.mPFCandpT_Barrel_EME_inHF, PFFillArgs.x 2)] := by
  have hb : inBarrel exampleConfig (13421773 / 134217728) = true := by
    norm_num [inBarrel, exampleConfig, abs_of_nonneg]
  have he : inEndcap exampleConfig (13421773 / 134217728) = false := by
    norm_num [inEndcap, exampleConfig, abs_of_nonneg]
  have hf : inForward exampleConfig (13421773 / 134217728) = false := by
    norm_num [inForward, exampleConfig, abs_of_nonneg]
  have hpt : ¬ ((2 : ℚ) < 1 / 2) := by norm_num
  simp only [pfCandidateFills, hpt, if_false, Float_t_two, Float_t_one_tenth, hb, he, hf]
  simp [switchPfID, case_4, case_5, case_6, case_7, onlyIf]

/-- The region flags follow the narrowed eta: 1.99999999 is below `BarrelEta = 2` of the
example configuration, its `Float_t` is 2, and the candidate counts for the Endcap. -/
theorem region_flags_of_narrowed_eta :
    inBarrel exampleConfig (199999999 / 100000000) = true ∧
    Float_t (199999999 / 100000000) = 2 ∧
    inBarrel exampleConfig (Float_t (199999999 / 100000000)) = false ∧
    inEndcap exampleConfig (Float_t (199999999 / 100000000)) = true := by
  have hf : Float_t (199999999 / 100000000) = 2 := by
    rw [Float_t_of_near (199999999 / 100000000) 0 16777216 (by norm_num [abs_of_pos])
      (by norm_num [abs_of_pos]) (by norm_num [abs_lt])]
    norm_num
  refine ⟨?_, hf, ?_, ?_⟩
  · norm_num [inBarrel, exampleConfig, abs_of_nonneg]
  · rw [hf]
    norm_num [inBarrel, exampleConfig, abs_of_nonneg]
  · rw [hf]
    norm_num [inEndcap, exampleConfig, abs_of_nonneg]

/-! ## The sums of candidate pt in the bins of pseudorapidity -/

theorem edgeAt_values :
    edgeAt 0 = -5191 / 1000 ∧ edgeAt 1 = -2650 / 1000 ∧ edgeAt 2 = -2043 / 1000 ∧
    edgeAt 3 = -1740 / 1000 ∧ edgeAt 4 = -1479 / 1000 ∧ edgeAt 5 = -1131 / 1000 ∧
    edgeAt 6 = -783 / 1000 ∧ edgeAt 7 = -522 / 1000 ∧ edgeAt 8 = 522 / 1000 ∧
    edgeAt 9 = 783 / 1000 ∧ edgeAt 10 = 1131 / 1000 ∧ edgeAt 11 = 1479 / 1000 ∧
    edgeAt 12 = 1740 / 1000 ∧ edgeAt 13 = 2043 / 1000 ∧ edgeAt 14 = 2650 / 1000 ∧
    edgeAt 15 = 5191 / 1000 :=
  ⟨rfl, rfl, rfl, rfl, rfl, rfl, rfl, rfl, rfl, rfl, rfl, rfl, rfl, rfl, rfl, rfl⟩

theorem edgeAt_lt_succ (k : Nat) (hk : k < 15) : edgeAt k < edgeAt (k + 1) := by
  obtain ⟨h0, h1, h2, h3, h4, h5, h6, h7, h8, h9, h10, h11, h12, h13, h14, h15⟩ :=
    edgeAt_values
  interval_cases k <;> simp only [Nat.reduceAdd, h0, h1, h2, h3, h4, h5, h6, h7, h8, h9, h10,
    h11, h12, h13, h14, h15] <;> norm_num

theorem edgeAt_mono (m : Nat) : ∀ n : Nat, m ≤ n → n ≤ 15 → edgeAt m ≤ edgeAt n := by
  intro n
  induction n with
  | zero =>
    intro hmn _
    have hm : m = 0 := by omega
    rw [hm]
  | succ n ih =>
    intro hmn hn
    by_cases hm : m = n + 1
    · rw [hm]
    · exact le_trans (ih (by omega) (by omega)) (le_of_lt (edgeAt_lt_succ n (by omega)))

theorem edgeAt_zero_le (m : Nat) (hm : m ≤ 15) : edgeAt 0 ≤ edgeAt m :=
  edgeAt_mono 0 m (Nat.zero_le m) hm

theorem etaBinStep_apply (pfEta pfPt : ℚ) (SumPFPt : Nat → ℚ) (k j : Nat) :
    etaBinStep pfEta pfPt SumPFPt k j
      = if j = k ∧ edgeAt k ≤ pfEta ∧ pfEta < edgeAt (k + 1) then
          Float_t (SumPFPt j + pfPt)
        else SumPFPt j := by
  unfold etaBinStep
  by_cases hc : pfEta ≥ edgeAt k ∧ pfEta < edgeAt (k + 1)
  · rw [if_pos hc]
    by_cases hj : j = k
    · subst hj
      rw [Function.update_same, if_pos ⟨rfl, hc.1, hc.2⟩]
    · rw [Function.update_noteq hj, if_neg (fun h => hj h.1)]
  · rw [if_neg hc, if_neg (fun h => hc ⟨h.2.1, h.2.2⟩)]

theorem foldl_etaBinStep (pfEta pfPt : ℚ) :
    ∀ (m : Nat) (SumPFPt : Nat → ℚ) (j : Nat),
      ((List.range m).foldl (etaBinStep pfEta pfPt) SumPFPt) j
        = if j < m ∧ edgeAt j ≤ pfEta ∧ pfEta < edgeAt (j + 1) then
            Float_t (SumPFPt j + pfPt)
          else SumPFPt j := by
  intro m
  induction m with
  | zero =>
    intro S j
    rw [if_neg (fun h => absurd h.1 (Nat.not_lt_zero j))]
    rfl
  | succ m ih =>
    intro S j
    rw [List.range_succ, List.foldl_append]
    simp only [List.foldl_cons, List.foldl_nil]
    rw [etaBinStep_apply, ih]
    by_cases hj : j = m
    · subst hj
      have hn : ¬ (j < j ∧ edgeAt j ≤ pfEta ∧ pfEta < edgeAt (j + 1)) := fun h =>
        absurd h.1 (lt_irrefl j)
      rw [if_neg hn]
      by_cases hb : edgeAt j ≤ pfEta ∧ pfEta < edgeAt (j + 1)
      · have h1 : j = j ∧ edgeAt j ≤ pfEta ∧ pfEta < edgeAt (j + 1) := ⟨rfl, hb⟩
        have h2 : j < j + 1 ∧ edgeAt j ≤ pfEta ∧ pfEta < edgeAt (j + 1) :=
          ⟨Nat.lt_succ_self j, hb⟩
        rw [if_pos h1, if_pos h2]
      · have h1 : ¬ (j = j ∧ edgeAt j ≤ pfEta ∧ pfEta < edgeAt (j + 1)) := fun h => hb h.2
        have h2 : ¬ (j < j + 1 ∧ edgeAt j ≤ pfEta ∧ pfEta < edgeAt (j + 1)) := fun h =>
          hb h.2
        rw [if_neg h1, if_neg h2]
    · have h1 : ¬ (j = m ∧ edgeAt m ≤ pfEta ∧ pfEta < edgeAt (m + 1)) := fun h => hj h.1
      rw [if_neg h1]
      have hiff : (j < m ∧ edgeAt j ≤ pfEta ∧ pfEta < edgeAt (j + 1))
          = (j < m + 1 ∧ edgeAt j ≤ pfEta ∧ pfEta < edgeAt (j + 1)) := by
        apply propext
        constructor
        · intro h; exact ⟨by omega, h.2⟩
        · intro h; exact ⟨by omega, h.2⟩
      simp only [hiff]

/-- One candidate changes `SumPFPt[j]` when it has `pt >= 0.5` and its narrowed eta lies
in bin `j`: the entry becomes the `Float_t` of its sum with the narrowed pt. -/
theorem sumPFPtStep_apply (SumPFPt : Nat → ℚ) (c : PFCandidate) (j : Nat) (hj : j < 15) :
    sumPFPtStep 16 SumPFPt c j
      = if c.pt ≥ 1 / 2 ∧ edgeAt j ≤ Float_t c.eta ∧ Float_t c.eta < edgeAt (j + 1) then
          Float_t (SumPFPt j + Float_t c.pt)
        else SumPFPt j := by
  unfold sumPFPtStep etaBinLoop
  by_cases hpt : c.pt < 1 / 2
  · have hn : ¬ (c.pt ≥ 1 / 2 ∧ edgeAt j ≤ Float_t c.eta ∧ Float_t c.eta < edgeAt (j + 1)) :=
      fun h => absurd hpt (not_lt.mpr h.1)
    rw [if_pos hpt, if_neg hn]
  · have hge : c.pt ≥ 1 / 2 := not_lt.mp hpt
    rw [if_neg hpt, foldl_etaBinStep]
    by_cases hb : edgeAt j ≤ Float_t c.eta ∧ Float_t c.eta < edgeAt (j + 1)
    · have h1 : j < 16 - 1 ∧ edgeAt j ≤ Float_t c.eta ∧ Float_t c.eta < edgeAt (j + 1) :=
        ⟨by omega, hb⟩
      have h2 : c.pt ≥ 1 / 2 ∧ edgeAt j ≤ Float_t c.eta ∧ Float_t c.eta < edgeAt (j + 1) :=
        ⟨hge, hb⟩
      rw [if_pos h1, if_pos h2]
    · have h1 : ¬ (j < 16 - 1 ∧ edgeAt j ≤ Float_t c.eta ∧ Float_t c.eta < edgeAt (j + 1)) :=
        fun h => hb h.2
      have h2 : ¬ (c.pt ≥ 1 / 2 ∧ edgeAt j ≤ Float_t c.eta ∧
          Float_t c.eta < edgeAt (j + 1)) := fun h => hb h.2
      rw [if_neg h1, if_neg h2]

theorem foldl_sumPFPtStep_apply (j : Nat) (hj : j < 15) :
    ∀ (cands : List PFCandidate) (SumPFPt : Nat → ℚ),
      (cands.foldl (sumPFPtStep 16) SumPFPt) j
        = (cands.filter (fun c => decide (c.pt ≥ 1 / 2 ∧
            edgeAt j ≤ Float_t c.eta ∧ Float_t c.eta < edgeAt (j + 1)))).foldl
              (fun acc c => Float_t (acc + Float_t c.pt)) (SumPFPt j) := by
  intro cands
  induction cands with
  | nil =>
    intro S
    rfl
  | cons c rest ih =>
    intro S
    simp only [List.foldl_cons]
    rw [ih, sumPFPtStep_apply S c j hj, List.filter_cons]
    by_cases hb : c.pt ≥ 1 / 2 ∧ edgeAt j ≤ Float_t c.eta ∧ Float_t c.eta < edgeAt (j + 1)
    · have hd : decide (c.pt ≥ 1 / 2 ∧ edgeAt j ≤ Float_t c.eta ∧
          Float_t c.eta < edgeAt (j + 1)) = true := decide_eq_true hb
      rw [if_pos hb, if_pos hd, List.foldl_cons]
    · have hd : ¬ (decide (c.pt ≥ 1 / 2 ∧ edgeAt j ≤ Float_t c.eta ∧
          Float_t c.eta < edgeAt (j + 1)) = true) := by
        rw [decide_eq_true_eq]; exact hb
      rw [if_neg hb, if_neg hd]

/-- The entry `SumPFPt[k]` after the candidate loop. -/
theorem sumPFPtLoop_apply (cands : List PFCandidate) (k : Nat) (hk : k < 15) :
    sumPFPtLoop 16 cands k
      = (cands.filter (fun c => decide (c.pt ≥ 1 / 2 ∧
          edgeAt k ≤ Float_t c.eta ∧ Float_t c.eta < edgeAt (k + 1)))).foldl
            (fun acc c => Float_t (acc + Float_t c.pt)) 0 := by
  unfold sumPFPtLoop
  rw [foldl_sumPFPtStep_apply k hk]

/-- The event sum reads the entries `k < 15` only. -/
theorem Evt_SumPFPt_congr (S1 S2 : Nat → ℚ) (h : ∀ k : Nat, k < 15 → S1 k = S2 k) :
    Evt_SumPFPt 16 S1 = Evt_SumPFPt 16 S2 := by
  unfold Evt_SumPFPt
  have h16 : 16 - 1 = 15 := rfl
  rw [h16]
  have hgen : ∀ m : Nat, m ≤ 15 →
      (List.range m).foldl (fun acc k => Float_t (acc + S1 k)) 0
        = (List.range m).foldl (fun acc k => Float_t (acc + S2 k)) 0 := by
    intro m
    induction m with
    | zero => intro _; rfl
    | succ m ih =>
      intro hm
      rw [List.range_succ, List.foldl_append, List.foldl_append, ih (by omega)]
      simp only [List.foldl_cons, List.foldl_nil]
      rw [h m (by omega)]
  exact hgen 15 (le_refl 15)

/-- The number of bins `k < m` a value of `pfEta` lies in. -/
theorem bins_containing_length (pfEta : ℚ) :
    ∀ m : Nat, m ≤ 15 →
      ((List.range m).filter
          (fun k => decide (edgeAt k ≤ pfEta ∧ pfEta < edgeAt (k + 1)))).length
        = if edgeAt 0 ≤ pfEta ∧ pfEta < edgeAt m then 1 else 0 := by
  intro m
  induction m with
  | zero =>
    intro _
    have hn : ¬ (edgeAt 0 ≤ pfEta ∧ pfEta < edgeAt 0) := fun h =>
      absurd h.2 (not_lt.mpr h.1)
    rw [if_neg hn]
    rfl
  | succ m ih =>
    intro hm
    rw [List.range_succ, List.filter_append, List.length_append, ih (by omega),
      List.filter_cons, List.filter_nil]
    have h0m : edgeAt 0 ≤ edgeAt m := edgeAt_zero_le m (by omega)
    have hmm : edgeAt m < edgeAt (m + 1) := edgeAt_lt_succ m (by omega)
    by_cases hb : edgeAt m ≤ pfEta ∧ pfEta < edgeAt (m + 1)
    · have hd : decide (edgeAt m ≤ pfEta ∧ pfEta < edgeAt (m + 1)) = true :=
        decide_eq_true hb
      have h1 : ¬ (edgeAt 0 ≤ pfEta ∧ pfEta < edgeAt m) := fun h =>
        absurd h.2 (not_lt.mpr hb.1)
      have h2 : edgeAt 0 ≤ pfEta ∧ pfEta < edgeAt (m + 1) := ⟨le_trans h0m hb.1, hb.2⟩
      rw [if_pos hd, if_neg h1, if_pos h2]
      rfl
    · have hd : ¬ (decide (edgeAt m ≤ pfEta ∧ pfEta < edgeAt (m + 1)) = true) := by
        rw [decide_eq_true_eq]; exact hb
      rw [if_neg hd]
      by_cases h1 : edgeAt 0 ≤ pfEta ∧ pfEta < edgeAt m
      · have h2 : edgeAt 0 ≤ pfEta ∧ pfEta < edgeAt (m + 1) := ⟨h1.1, lt_trans h1.2 hmm⟩
        rw [if_pos h1, if_pos h2]
        rfl
      · have h2 : ¬ (edgeAt 0 ≤ pfEta ∧ pfEta < edgeAt (m + 1)) := by
          intro h
          by_cases hlt : pfEta < edgeAt m
          · exact h1 ⟨h.1, hlt⟩
          · exact hb ⟨not_lt.mp hlt, h.2⟩
        rw [if_neg h1, if_neg h2]
        rfl

/-- Each `Fill` of lines 1281-1295 passes the entry `SumPFPt[k]` whose bin is the eta
range of the title of the member. -/
theorem sumPFPtFills_titleRange (SumPFPt : Nat → ℚ) :
    ∀ call ∈ sumPFPtFills SumPFPt, ∃ k : Nat, k < 15 ∧ call.2 = SumPFPt k ∧
      titleRange call.1 = (edgeAt k, edgeAt (k + 1)) := by
  intro call hmem
  simp only [sumPFPtFills, List.mem_cons, List.mem_singleton, List.not_mem_nil, or_false]
    at hmem
  rcases hmem with h | h | h | h | h | h | h | h | h | h | h | h | h | h | h
  · exact ⟨0, by omega, by rw [h], by rw [h]; rfl⟩
  · exact ⟨1, by omega, by rw [h], by rw [h]; rfl⟩
  · exact ⟨2, by omega, by rw [h], by rw [h]; rfl⟩
  · exact ⟨3, by omega, by rw [h], by rw [h]; rfl⟩
  · exact ⟨4, by omega, by rw [h], by rw [h]; rfl⟩
  · exact ⟨5, by omega, by rw [h], by rw [h]; rfl⟩
  · exact ⟨6, by omega, by rw [h], by rw [h]; rfl⟩
  · exact ⟨7, by omega, by rw [h], by rw [h]; rfl⟩
  · exact ⟨8, by omega, by rw [h], by rw [h]; rfl⟩
  · exact ⟨9, by omega, by rw [h], by rw [h]; rfl⟩
  · exact ⟨10, by omega, by rw [h], by rw [h]; rfl⟩
  · exact ⟨11, by omega, by rw [h], by rw [h]; rfl⟩
  · exact ⟨12, by omega, by rw [h], by rw [h]; rfl⟩
  · exact ⟨13, by omega, by rw [h], by rw [h]; rfl⟩
  · exact ⟨14, by omega, by rw [h], by rw [h]; rfl⟩

/-- Leaving out the candidates whose narrowed eta is outside `-5.191 <= pfEta < 5.191`
changes no entry `SumPFPt[k]`. -/
theorem sumPFPtLoop_filter_in_range (cands : List PFCandidate) (k : Nat) (hk : k < 15) :
    sumPFPtLoop 16 (cands.filter (fun c => decide (-5191 / 1000 ≤ Float_t c.eta ∧
        Float_t c.eta < 5191 / 1000))) k
      = sumPFPtLoop 16 cands k := by
  rw [sumPFPtLoop_apply _ k hk, sumPFPtLoop_apply _ k hk, List.filter_filter]
  have he0 : edgeAt 0 = -5191 / 1000 := rfl
  have he15 : edgeAt 15 = 5191 / 1000 := rfl
  have hlo : edgeAt 0 ≤ edgeAt k := edgeAt_zero_le k (by omega)
  have hhi : edgeAt (k + 1) ≤ edgeAt 15 := edgeAt_mono (k + 1) 15 (by omega) (le_refl 15)
  have hfun : (fun c : PFCandidate =>
        (decide (c.pt ≥ 1 / 2 ∧ edgeAt k ≤ Float_t c.eta ∧ Float_t c.eta < edgeAt (k + 1)) &&
          decide (-5191 / 1000 ≤ Float_t c.eta ∧ Float_t c.eta < 5191 / 1000)))
      = (fun c : PFCandidate =>
        decide (c.pt ≥ 1 / 2 ∧ edgeAt k ≤ Float_t c.eta ∧ Float_t c.eta < edgeAt (k + 1))) := by
    funext c
    by_cases hb : c.pt ≥ 1 / 2 ∧ edgeAt k ≤ Float_t c.eta ∧ Float_t c.eta < edgeAt (k + 1)
    · have hr : -5191 / 1000 ≤ Float_t c.eta ∧ Float_t c.eta < 5191 / 1000 := by
        rw [← he0, ← he15]
        exact ⟨le_trans hlo hb.2.1, lt_of_lt_of_le hb.2.2 hhi⟩
      rw [decide_eq_true hb, decide_eq_true hr]
      rfl
    · rw [decide_eq_false hb]
      rfl
  rw [hfun]

/-- C24 (as amended): with the 16 edges of `edge_pseudorapidity`, for every list of
candidates and every `k < 15`, `SumPFPt[k]` after the candidate loop is the `Float_t`
sum, taken from 0 in the order of the loop, of the pt narrowed to `Float_t` of the
candidates with `pt >= 0.5` whose eta narrowed to `Float_t`, `pfEta`, satisfies
`edge[k] <= pfEta < edge[k+1]`; the value each member `mSumPFPt_<lo>_<hi>` is filled with
is that sum for the eta range of its title; a value of `pfEta` lies in at most one bin,
and in exactly one iff `-5.191 <= pfEta < 5.191`; leaving out the candidates whose
`pfEta` is outside that range changes no `SumPFPt[k]` and not `Evt_SumPFPt`, which is the
`Float_t` sum of the 15 entries in the order of `k`. -/
theorem SumPFPt_is_float_sum_over_narrowed_eta_bin (pfCandidateColl : List PFCandidate) :
    (∀ k : Nat, k < 15 →
      sumPFPtLoop 16 pfCandidateColl k
        = (pfCandidateColl.filter (fun c => decide (c.pt ≥ 1 / 2 ∧
            edgeAt k ≤ Float_t c.eta ∧ Float_t c.eta < edgeAt (k + 1)))).foldl
              (fun acc c => Float_t (acc + Float_t c.pt)) 0) ∧
    (∀ call ∈ sumPFPtFills (sumPFPtLoop 16 pfCandidateColl),
      call.2 = (pfCandidateColl.filter (fun c => decide (c.pt ≥ 1 / 2 ∧
          (titleRange call.1).1 ≤ Float_t c.eta ∧
          Float_t c.eta < (titleRange call.1).2))).foldl
            (fun acc c => Float_t (acc + Float_t c.pt)) 0) ∧
    (sumPFPtFills (sumPFPtLoop 16 pfCandidateColl)).length = 15 ∧
    (∀ pfEta : ℚ,
      ((List.range 15).filter
          (fun k => decide (edgeAt k ≤ pfEta ∧ pfEta < edgeAt (k + 1)))).length ≤ 1 ∧
      (((List.range 15).filter
          (fun k => decide (edgeAt k ≤ pfEta ∧ pfEta < edgeAt (k + 1)))).length = 1 ↔
        (-5191 / 1000 ≤ pfEta ∧ pfEta < 5191 / 1000))) ∧
    (∀ k : Nat, k < 15 →
      sumPFPtLoop 16 (pfCandidateColl.filter (fun c => decide (-5191 / 1000 ≤ Float_t c.eta ∧
          Float_t c.eta < 5191 / 1000))) k
        = sumPFPtLoop 16 pfCandidateColl k) ∧
    Evt_SumPFPt 16 (sumPFPtLoop 16 (pfCandidateColl.filter
        (fun c => decide (-5191 / 1000 ≤ Float_t c.eta ∧ Float_t c.eta < 5191 / 1000))))
      = Evt_SumPFPt 16 (sumPFPtLoop 16 pfCandidateColl) ∧
    Evt_SumPFPt 16 (sumPFPtLoop 16 pfCandidateColl)
      = (List.range 15).foldl
          (fun acc k => Float_t (acc + sumPFPtLoop 16 pfCandidateColl k)) 0 := by
  have he0 : edgeAt 0 = -5191 / 1000 := rfl
  have he15 : edgeAt 15 = 5191 / 1000 := rfl
  refine ⟨fun k hk => sumPFPtLoop_apply pfCandidateColl k hk, ?_, rfl, ?_,
    fun k hk => sumPFPtLoop_filter_in_range pfCandidateColl k hk, ?_, rfl⟩
  · intro call hmem
    obtain ⟨k, hk, hval, htitle⟩ := sumPFPtFills_titleRange _ call hmem
    rw [hval, htitle, sumPFPtLoop_apply pfCandidateColl k hk]
  · intro pfEta
    rw [bins_containing_length pfEta 15 (le_refl 15), he0, he15]
    by_cases h : -5191 / 1000 ≤ pfEta ∧ pfEta < 5191 / 1000
    · rw [if_pos h]
      exact ⟨le_refl 1, fun _ => h, fun _ => rfl⟩
    · rw [if_neg h]
      exact ⟨Nat.zero_le 1, fun h0 => absurd h0 (by decide), fun h1 => absurd h1 h⟩
  · exact Evt_SumPFPt_congr _ _
      (fun k hk => sumPFPtLoop_filter_in_range pfCandidateColl k hk)

/-- The array after a loop over one candidate. -/
theorem sumPFPtLoop_single (c : PFCandidate) (k : Nat) (hk : k < 15) :
    sumPFPtLoop 16 [c] k
      = if c.pt ≥ 1 / 2 ∧ edgeAt k ≤ Float_t c.eta ∧ Float_t c.eta < edgeAt (k + 1) then
          Float_t (Float_t c.pt)
        else 0 := by
  show sumPFPtStep 16 (fun _ => 0) c k = _
  rw [sumPFPtStep_apply _ c k hk]
  simp only [zero_add]

/-- A candidate with pt 1 at eta 5.191: its narrowed eta lies in the last bin, and in no
other. -/
theorem sumPFPtLoop_at_last_edge (k : Nat) (hk : k < 15) :
    sumPFPtLoop 16 [{ pt := 1, eta := 5191 / 1000, phi := 0, particleId := 1 }] k
      = if k = 14 then 1 else 0 := by
  rw [sumPFPtLoop_single _ k hk]
  simp only [Float_t_last_edge, Float_t_one]
  have he14 : edgeAt 14 = 2650 / 1000 := rfl
  have he15 : edgeAt 15 = 5191 / 1000 := rfl
  by_cases h14 : k = 14
  · subst h14
    have hc : (1 : ℚ) ≥ 1 / 2 ∧ edgeAt 14 ≤ 2721579 / 524288 ∧
        (2721579 / 524288 : ℚ) < edgeAt (14 + 1) := by
      rw [he14, he15]
      norm_num
    rw [if_pos hc, if_pos rfl]
  · have hle : edgeAt (k + 1) ≤ edgeAt 14 := edgeAt_mono (k + 1) 14 (by omega) (by omega)
    have hc : ¬ ((1 : ℚ) ≥ 1 / 2 ∧ edgeAt k ≤ 2721579 / 524288 ∧
        (2721579 / 524288 : ℚ) < edgeAt (k + 1)) := by
      intro h
      have h2 := lt_of_lt_of_le h.2.2 hle
      rw [he14] at h2
      norm_num at h2
    rw [if_neg hc, if_neg h14]

/-- C24 (counterexample): a candidate with pt 1 at eta 5.191 is outside every range
`edge[k] <= eta < edge[k+1]`, so the sums of the claim are 0 for it; its eta narrows to
the `Float_t` 5.19099998..., and the loop adds its pt to `SumPFPt[14]` and so to
`Evt_SumPFPt`. A candidate at eta -2.65 lies in the range of bin 1; its eta narrows to
-2.65000009..., and the loop adds its pt to `SumPFPt[0]` and not to `SumPFPt[1]`. -/
theorem SumPFPt_candidate_at_edge_changes_bin :
    ¬ ((5191 / 1000 : ℚ) < edgeAt 15) ∧
    (([({ pt := 1, eta := 5191 / 1000, phi := 0, particleId := 1 } : PFCandidate)].filter
        (fun c => decide (c.pt ≥ 1 / 2 ∧ edgeAt 14 ≤ c.eta ∧ c.eta < edgeAt 15))).map
          PFCandidate.pt).sum = 0 ∧
    sumPFPtLoop 16 [{ pt := 1, eta := 5191 / 1000, phi := 0, particleId := 1 }] 14 = 1 ∧
    Evt_SumPFPt 16
      (sumPFPtLoop 16 [{ pt := 1, eta := 5191 / 1000, phi := 0, particleId := 1 }]) = 1 ∧
    (edgeAt 1 ≤ (-2650 / 1000 : ℚ) ∧ (-2650 / 1000 : ℚ) < edgeAt 2) ∧
    sumPFPtLoop 16 [{ pt := 1, eta := -2650 / 1000, phi := 0, particleId := 1 }] 0 = 1 ∧
    sumPFPtLoop 16 [{ pt := 1, eta := -2650 / 1000, phi := 0, particleId := 1 }] 1 = 0 := by
  have he0 : edgeAt 0 = -5191 / 1000 := rfl
  have he1 : edgeAt 1 = -2650 / 1000 := rfl
  have he2 : edgeAt 2 = -2043 / 1000 := rfl
  have he14 : edgeAt 14 = 2650 / 1000 := rfl
  have he15 : edgeAt 15 = 5191 / 1000 := rfl
  refine ⟨?_, ?_, ?_, ?_, ?_, ?_, ?_⟩
  · rw [he15]
    norm_num
  · have hd : decide ((1 : ℚ) ≥ 1 / 2 ∧ edgeAt 14 ≤ (5191 / 1000 : ℚ) ∧
        (5191 / 1000 : ℚ) < edgeAt 15) = false := by
      rw [he14, he15]
      norm_num
    simp only [List.filter_cons, List.filter_nil, hd]
    rfl
  · rw [sumPFPtLoop_at_last_edge 14 (by omega), if_pos rfl]
  · rw [Evt_SumPFPt_congr _ (fun k => if k = 14 then 1 else 0)
      (fun k hk => sumPFPtLoop_at_last_edge k hk)]
    simp [Evt_SumPFPt, List.range_succ, Float_t_zero, Float_t_one]
  · rw [he1, he2]
    norm_num
  · rw [sumPFPtLoop_single _ 0 (by omega)]
    simp only [Float_t_second_edge, Float_t_one]
    have hc : (1 : ℚ) ≥ 1 / 2 ∧ edgeAt 0 ≤ -5557453 / 2097152 ∧
        (-5557453 / 2097152 : ℚ) < edgeAt (0 + 1) := by
      rw [he0, he1]
      norm_num
    rw [if_pos hc]
  · rw [sumPFPtLoop_single _ 1 (by omega)]
    simp only [Float_t_second_edge, Float_t_one]
    have hc : ¬ ((1 : ℚ) ≥ 1 / 2 ∧ edgeAt 1 ≤ -5557453 / 2097152 ∧
        (-5557453 / 2097152 : ℚ) < edgeAt (1 + 1)) := by
      rw [he1]
      norm_num
    rw [if_neg hc]

/-! ## DeltaR and the wrap of the phi difference -/

theorem deltaPhiReal_range (phi1 phi2 : ℝ) :
    -Real.pi < deltaPhiReal phi1 phi2 ∧ deltaPhiReal phi1 phi2 ≤ Real.pi := by
  unfold deltaPhiReal
  have hpos : (0 : ℝ) < 2 * Real.pi := by have := Real.pi_pos; linarith
  have h1 := Int.le_ceil (((phi1 - phi2) - Real.pi) / (2 * Real.pi))
  have h2 := Int.ceil_lt_add_one (((phi1 - phi2) - Real.pi) / (2 * Real.pi))
  rw [div_le_iff₀ hpos] at h1
  rw [← sub_lt_iff_lt_add, lt_div_iff₀ hpos] at h2
  constructor
  · nlinarith
  · nlinarith

theorem deltaPhiReal_of_ceil (phi1 phi2 : ℝ) (n : ℤ)
    (hlo : 2 * Real.pi * ((n : ℝ) - 1) < (phi1 - phi2) - Real.pi)
    (hhi : (phi1 - phi2) - Real.pi ≤ 2 * Real.pi * (n : ℝ)) :
    deltaPhiReal phi1 phi2 = (phi1 - phi2) - 2 * Real.pi * (n : ℝ) := by
  unfold deltaPhiReal
  have hpos : (0 : ℝ) < 2 * Real.pi := by have := Real.pi_pos; linarith
  have hceil : ⌈((phi1 - phi2) - Real.pi) / (2 * Real.pi)⌉ = n := by
    rw [Int.ceil_eq_iff]
    constructor
    · rw [lt_div_iff₀ hpos]; linarith
    · rw [div_le_iff₀ hpos]; linarith
  rw [hceil]

/-- For arguments in (−π, π] the wrap is one step at most: 2π is taken off a difference
above π and added to a difference of −π or less. -/
theorem deltaPhiReal_of_range (phi1 phi2 : ℝ)
    (h1lo : -Real.pi < phi1) (h1hi : phi1 ≤ Real.pi)
    (h2lo : -Real.pi < phi2) (h2hi : phi2 ≤ Real.pi) :
    deltaPhiReal phi1 phi2
      = if phi1 - phi2 > Real.pi then phi1 - phi2 - 2 * Real.pi
        else if phi1 - phi2 ≤ -Real.pi then phi1 - phi2 + 2 * Real.pi
        else phi1 - phi2 := by
  have hpi := Real.pi_pos
  by_cases ha : phi1 - phi2 > Real.pi
  · rw [if_pos ha, deltaPhiReal_of_ceil phi1 phi2 1 (by push_cast; linarith)
      (by push_cast; linarith)]
    push_cast
    ring
  · rw [if_neg ha]
    by_cases hb : phi1 - phi2 ≤ -Real.pi
    · rw [if_pos hb, deltaPhiReal_of_ceil phi1 phi2 (-1) (by push_cast; linarith)
        (by push_cast; linarith)]
      push_cast
      ring
    · rw [if_neg hb, deltaPhiReal_of_ceil phi1 phi2 0 (by push_cast; linarith)
        (by push_cast; linarith)]
      push_cast
      ring

/-- For two directions of the same azimuth DeltaR is |Δη|, the value `deltaRSamePhi`
gives on rational arguments. -/
theorem deltaRReal_same_phi (eta1 eta2 p1 p2 : ℚ) (phi : ℝ) :
    deltaRReal (eta1 : ℝ) phi (eta2 : ℝ) phi = ((deltaRSamePhi eta1 p1 eta2 p2 : ℚ) : ℝ) := by
  have hpi := Real.pi_pos
  have hphi : deltaPhiReal phi phi = 0 := by
    rw [deltaPhiReal_of_ceil phi phi 0 (by push_cast; linarith) (by push_cast; linarith)]
    push_cast
    ring
  unfold deltaRReal deltaRSamePhi
  rw [hphi]
  simp only [ne_eq, OfNat.ofNat_ne_zero, not_false_eq_true, zero_pow, add_zero]
  rw [Real.sqrt_sq_eq_abs]
  push_cast
  rfl

/-- C21: the phi difference entering DeltaR is wrapped into (−π, π]: it lies in that
interval for all arguments, so for all phi1, phi2 in (−π, π] its absolute value is at
most π, and there it is the difference itself after at most one step of 2π;
`deltaR(eta=0, phi=3.0, eta=0, phi=-3.0)` is 2π − 6, a value between 0.283 and 0.284,
and not 6. -/
theorem deltaR_takes_shortest_arc :
    (∀ phi1 phi2 : ℝ, -Real.pi < deltaPhiReal phi1 phi2 ∧ deltaPhiReal phi1 phi2 ≤ Real.pi) ∧
    (∀ phi1 phi2 : ℝ, -Real.pi < phi1 → phi1 ≤ Real.pi → -Real.pi < phi2 → phi2 ≤ Real.pi →
      |deltaPhiReal phi1 phi2| ≤ Real.pi ∧
      deltaPhiReal phi1 phi2
        = if phi1 - phi2 > Real.pi then phi1 - phi2 - 2 * Real.pi
          else if phi1 - phi2 ≤ -Real.pi then phi1 - phi2 + 2 * Real.pi
          else phi1 - phi2) ∧
    deltaRReal 0 3 0 (-3) = 2 * Real.pi - 6 ∧
    (283 / 1000 < deltaRReal 0 3 0 (-3) ∧ deltaRReal 0 3 0 (-3) < 284 / 1000) ∧
    deltaRReal 0 3 0 (-3) ≠ 6 := by
  have hgt := Real.pi_gt_d6
  have hlt := Real.pi_lt_d6
  have hval : deltaRReal 0 3 0 (-3) = 2 * Real.pi - 6 := by
    have hphi : deltaPhiReal 3 (-3) = 6 - 2 * Real.pi := by
      rw [deltaPhiReal_of_ceil 3 (-3) 1 (by push_cast; linarith) (by push_cast; linarith)]
      push_cast
      ring
    unfold deltaRReal
    rw [hphi]
    have h0 : ((0 : ℝ) - 0) ^ 2 + (6 - 2 * Real.pi) ^ 2 = (6 - 2 * Real.pi) ^ 2 := by ring
    rw [h0, Real.sqrt_sq_eq_abs, abs_of_neg (by linarith)]
    ring
  refine ⟨deltaPhiReal_range, ?_, hval, ?_, ?_⟩
  · intro phi1 phi2 h1lo h1hi h2lo h2hi
    refine ⟨?_, deltaPhiReal_of_range phi1 phi2 h1lo h1hi h2lo h2hi⟩
    have hr := deltaPhiReal_range phi1 phi2
    rw [abs_le]
    exact ⟨le_of_lt hr.1, hr.2⟩
  · rw [hval]
    constructor <;> linarith
  · rw [hval]
    intro h
    linarith

end JetTesterHeavyIons

namespace CSCGeometryAsChambers

/-- C25: for every chamber-centre azimuth `x >= -360` degrees the displayed value lies in
the range 0 to 360, `0 <= value < 360`: it is 0 when `|x| < 1e-6` or `x >= 360`,
`x + 360` when `x < 0`, and `x` otherwise. -/
theorem cphiDeg_in_display_range (x : ℚ) (hx : x ≥ -360) :
    (0 ≤ cphiDeg x ∧ cphiDeg x < 360) ∧
    cphiDeg x
      = (if |x| < 1 / 1000000 ∨ x ≥ 360 then 0 else if x < 0 then x + 360 else x) := by
  unfold cphiDeg
  by_cases h0 : |x| < 1 / 1000000
  · rw [if_pos h0, if_pos (Or.inl h0)]
    exact ⟨⟨le_refl 0, by norm_num⟩, rfl⟩
  · rw [if_neg h0]
    by_cases hneg : x < 0
    · have h360 : ¬ (x ≥ 360) := by intro h; linarith
      have hor : ¬ (|x| < 1 / 1000000 ∨ x ≥ 360) := fun h => h.elim h0 h360
      rw [if_pos hneg, if_neg hor, if_pos hneg]
      exact ⟨⟨by linarith, by linarith⟩, rfl⟩
    · rw [if_neg hneg]
      by_cases hge : x ≥ 360
      · rw [if_pos hge, if_pos (Or.inr hge)]
        exact ⟨⟨le_refl 0, by norm_num⟩, rfl⟩
      · have hor : ¬ (|x| < 1 / 1000000 ∨ x ≥ 360) := fun h => h.elim h0 hge
        rw [if_neg hge, if_neg hor, if_neg hneg]
        exact ⟨⟨not_lt.mp hneg, not_le.mp hge⟩, rfl⟩

/-- C25 (witness): the azimuth -90 degrees is displayed as 270. -/
theorem cphiDeg_in_display_range_witness :
    (-90 : ℚ) ≥ -360 ∧
    ((0 ≤ cphiDeg (-90) ∧ cphiDeg (-90) < 360) ∧
      cphiDeg (-90)
        = (if |(-90 : ℚ)| < 1 / 1000000 ∨ (-90 : ℚ) ≥ 360 then 0
           else if (-90 : ℚ) < 0 then -90 + 360 else -90)) :=
  ⟨by norm_num, cphiDeg_in_display_range (-90) (by norm_num)⟩

theorem cphiDeg_examples :
    cphiDeg (-90) = 270 ∧ cphiDeg (-360) = 0 ∧ cphiDeg 360 = 0 ∧ cphiDeg 45 = 45 ∧
    cphiDeg (-1 / 10000000) = 0 ∧ cphiDeg (-361) = -1 := by
  refine ⟨?_, ?_, ?_, ?_, ?_, ?_⟩ <;> norm_num [cphiDeg, abs_of_neg, abs_of_nonneg, abs_of_pos]

end CSCGeometryAsChambers

namespace CTPPSDiamondRecHitProducerAlgorithm

theorem toInt32_of_range (x : Int) (hlo : -2 ^ 31 ≤ x) (hhi : x < 2 ^ 31) : toInt32 x = x := by
  unfold toInt32
  omega

theorem tmod_tdiv_1024 (d : Int) :
    1024 * Int.tdiv d 1024 + Int.tmod d 1024 = d ∧
    (0 ≤ d → 0 ≤ Int.tmod d 1024 ∧ Int.tmod d 1024 < 1024 ∧ 0 ≤ Int.tdiv d 1024) ∧
    (d < 0 → -1024 < Int.tmod d 1024 ∧ Int.tmod d 1024 ≤ 0 ∧ Int.tdiv d 1024 ≤ 0) := by
  refine ⟨Int.tdiv_add_tmod d 1024, ?_, ?_⟩
  · intro hd
    rw [Int.tmod_eq_emod hd (by decide), Int.tdiv_eq_ediv hd (by decide)]
    omega
  · intro hd
    have hpos : 0 ≤ -d := by omega
    have h1 : Int.tdiv d 1024 = -(Int.tdiv (-d) 1024) := by
      rw [Int.neg_tdiv, neg_neg]
    have h2 := Int.tdiv_add_tmod d 1024
    have h3 : Int.tdiv (-d) 1024 = (-d) / 1024 := Int.tdiv_eq_ediv hpos (by decide)
    rw [h1, h3] at h2
    rw [h1, h3]
    omega

theorem build_eq_append (ts_to_ns_ : ℚ) (t_shift_ : Int) :
    ∀ (input : List CTPPSDiamondDigi) (output : List CTPPSDiamondRecHit),
      build ts_to_ns_ t_shift_ input output
        = output ++ input.map (rechit ts_to_ns_ t_shift_) := by
  intro input
  induction input with
  | nil => intro output; simp [build]
  | cons it rest ih =>
    intro output
    have h := ih (output ++ [rechit ts_to_ns_ t_shift_ it])
    unfold build at h ⊢
    rw [List.foldl_cons, h, List.map_cons, List.append_assoc]
    rfl

/-- C28: `build` appends to `output` one rec-hit per digi of `input`, in the order of
`input`, and leaves the rec-hits already in `output` as they are:
`output after = output before ++ map rechit input`, where `rechit` reads only the
leading and the trailing edge of the digi, `timeSliceTons` and `timeShift`; `output`
grows by the size of `input`, and an empty `input` leaves it unchanged. -/
theorem build_appends_one_rechit_per_digi (ts_to_ns_ : ℚ) (t_shift_ : Int)
    (input : List CTPPSDiamondDigi) (output : List CTPPSDiamondRecHit) :
    build ts_to_ns_ t_shift_ input output
      = output ++ input.map (rechit ts_to_ns_ t_shift_) ∧
    (∀ d1 d2 : CTPPSDiamondDigi, d1.getLeadingEdge = d2.getLeadingEdge →
      d1.getTrailingEdge = d2.getTrailingEdge →
      rechit ts_to_ns_ t_shift_ d1 = rechit ts_to_ns_ t_shift_ d2) ∧
    (build ts_to_ns_ t_shift_ input output).length = output.length + input.length ∧
    (∀ i : Nat, i < output.length →
      (build ts_to_ns_ t_shift_ input output)[i]? = output[i]?) ∧
    (∀ i : Nat, i < input.length →
      (build ts_to_ns_ t_shift_ input output)[output.length + i]?
        = (input[i]?).map (rechit ts_to_ns_ t_shift_)) ∧
    build ts_to_ns_ t_shift_ [] output = output := by
  have h := build_eq_append ts_to_ns_ t_shift_ input output
  refine ⟨h, ?_, ?_, ?_, ?_, rfl⟩
  · intro d1 d2 hl ht
    unfold rechit
    rw [hl, ht]
  · rw [h, List.length_append, List.length_map]
  · intro i hi
    rw [h, List.getElem?_append_left hi]
  · intro i _
    rw [h, List.getElem?_append_right (Nat.le_add_right _ _), Nat.add_sub_cancel_left,
      List.getElem?_map]

/-- C29: when `t - s` is in the range of a 32-bit `int`, `t0` and `time_slice` are the
remainder and the quotient of `t - s` by 1024 with truncation towards zero:
`1024 * time_slice + t0 = t - s` and `|t0| <= 1023`; for `t >= s`, `0 <= t0 < 1024` and
`time_slice >= 0`; for `t < s`, `t0 <= 0` and `time_slice <= 0`, and `t0` is negative
unless `t - s` is a multiple of 1024. -/
theorem t0_and_time_slice_truncate (t s : Int)
    (hlo : -2 ^ 31 ≤ t - s) (hhi : t - s < 2 ^ 31) :
    t0 s t = Int.tmod (t - s) 1024 ∧ time_slice s t = Int.tdiv (t - s) 1024 ∧
    1024 * time_slice s t + t0 s t = t - s ∧
    |t0 s t| ≤ 1023 ∧
    (t ≥ s → 0 ≤ t0 s t ∧ t0 s t < 1024 ∧ 0 ≤ time_slice s t) ∧
    (t < s → t0 s t ≤ 0 ∧ time_slice s t ≤ 0 ∧ (t0 s t < 0 ↔ ¬ (1024 ∣ t - s))) := by
  have hw := toInt32_of_range (t - s) hlo hhi
  have ht0 : t0 s t = Int.tmod (t - s) 1024 := by unfold t0; rw [hw]
  have hts : time_slice s t = Int.tdiv (t - s) 1024 := by unfold time_slice; rw [hw]
  obtain ⟨hdec, hnonneg, hneg⟩ := tmod_tdiv_1024 (t - s)
  rw [ht0, hts]
  refine ⟨rfl, rfl, hdec, ?_, ?_, ?_⟩
  · rw [abs_le]
    by_cases hd : 0 ≤ t - s
    · have := hnonneg hd
      omega
    · have := hneg (by omega)
      omega
  · intro hge
    exact hnonneg (by omega)
  · intro hlt
    have h := hneg (by omega)
    refine ⟨h.2.1, h.2.2, ?_⟩
    rw [Int.dvd_iff_tmod_eq_zero]
    constructor
    · intro hlt0 hzero
      omega
    · intro hne
      omega

/-- C29 (witness): leading edge 100 and `timeShift` 1200, a difference of -1100: `t0` is
-76 and `time_slice` is -1. -/
theorem t0_and_time_slice_truncate_witness :
    t0 1200 100 = Int.tmod (100 - 1200) 1024 ∧
    time_slice 1200 100 = Int.tdiv (100 - 1200) 1024 ∧
    1024 * time_slice 1200 100 + t0 1200 100 = 100 - 1200 ∧
    |t0 1200 100| ≤ 1023 ∧
    ((100 : Int) ≥ 1200 → 0 ≤ t0 1200 100 ∧ t0 1200 100 < 1024 ∧ 0 ≤ time_slice 1200 100) ∧
    ((100 : Int) < 1200 → t0 1200 100 ≤ 0 ∧ time_slice 1200 100 ≤ 0 ∧
      (t0 1200 100 < 0 ↔ ¬ (1024 ∣ (100 : Int) - 1200))) :=
  t0_and_time_slice_truncate 100 1200 (by decide) (by decide)

theorem t0_time_slice_examples :
    t0 1200 100 = -76 ∧ time_slice 1200 100 = -1 ∧ t0 0 2500 = 452 ∧ time_slice 0 2500 = 2 ∧
    t0 2048 1024 = 0 ∧ time_slice 2048 1024 = -1 := by
  decide

/-- C30: for every digi the time-over-threshold argument of the rec-hit is
`t_lead - t_trail = timeSliceTons * (t0 - trailingEdge)`, with `t0` the remainder of
line 24 and the trailing edge taken as it is, without shift or remainder; for
`timeSliceTons > 0` it is `<= 0` exactly when `trailingEdge >= t0`. -/
theorem tot_is_scaled_t0_minus_trailing_edge (ts_to_ns_ : ℚ) (t_shift_ : Int)
    (it : CTPPSDiamondDigi) :
    (rechit ts_to_ns_ t_shift_ it).tot
      = (rechit ts_to_ns_ t_shift_ it).t_lead - (it.getTrailingEdge : ℚ) * ts_to_ns_ ∧
    (rechit ts_to_ns_ t_shift_ it).t_lead = (t0 t_shift_ it.getLeadingEdge : ℚ) * ts_to_ns_ ∧
    (rechit ts_to_ns_ t_shift_ it).tot
      = ts_to_ns_ * ((t0 t_shift_ it.getLeadingEdge : ℚ) - (it.getTrailingEdge : ℚ)) ∧
    (-2 ^ 31 ≤ it.getLeadingEdge - t_shift_ → it.getLeadingEdge - t_shift_ < 2 ^ 31 →
      t0 t_shift_ it.getLeadingEdge = Int.tmod (it.getLeadingEdge - t_shift_) 1024) ∧
    (0 < ts_to_ns_ →
      ((rechit ts_to_ns_ t_shift_ it).tot ≤ 0 ↔
        it.getTrailingEdge ≥ t0 t_shift_ it.getLeadingEdge)) := by
  have htot : (rechit ts_to_ns_ t_shift_ it).tot
      = ts_to_ns_ * ((t0 t_shift_ it.getLeadingEdge : ℚ) - (it.getTrailingEdge : ℚ)) := by
    unfold rechit
    simp only
    ring
  refine ⟨rfl, rfl, htot, ?_, ?_⟩
  · intro hlo hhi
    unfold t0
    rw [toInt32_of_range _ hlo hhi]
  · intro hpos
    rw [htot]
    constructor
    · intro hle
      have h1 : (t0 t_shift_ it.getLeadingEdge : ℚ) - (it.getTrailingEdge : ℚ) ≤ 0 := by
        by_contra hcon
        have := mul_pos hpos (not_le.mp hcon)
        linarith
      have h2 : (t0 t_shift_ it.getLeadingEdge : ℚ) ≤ (it.getTrailingEdge : ℚ) := by linarith
      exact Int.cast_le.mp h2
    · intro hge
      have h2 : (t0 t_shift_ it.getLeadingEdge : ℚ) ≤ (it.getTrailingEdge : ℚ) :=
        Int.cast_le.mpr hge
      have h3 : (t0 t_shift_ it.getLeadingEdge : ℚ) - (it.getTrailingEdge : ℚ) ≤ 0 := by
        linarith
      exact mul_nonpos_of_nonneg_of_nonpos (le_of_lt hpos) h3

/-- A pulse with leading edge 100 and trailing edge 150, `timeShift` 0 and
`timeSliceTons` 1/40: the time over threshold passed to the rec-hit is -5/4. -/
theorem tot_example :
    (rechit (1 / 40) 0 { getLeadingEdge := 100, getTrailingEdge := 150, others := [] }).tot
      = -5 / 4 := by
  have h0 : t0 0 100 = 100 := by decide
  simp only [rechit, h0]
  norm_num

end CTPPSDiamondRecHitProducerAlgorithm
